import Mathlib

/-!
# NovaTech front end: locale content resolution and the admin login guard

A shallow embedding of

* `frontend/src/lib/translations.js` (`translations`, `getLocalizedContent`),
* `frontend/src/lib/LanguageContext.js` (`t`, `getContent`),
* `frontend/src/pages/AdminLoginPage.jsx` (`handleSubmit` and its helpers),

followed by the properties established about them.
-/

namespace NovaTech

/-! ## JavaScript values -/

/-- The JavaScript values that the two resolvers can meet: `undefined`, `null`,
strings, plain objects (own enumerable properties in order, all inheriting from
`Object.prototype`), `Object.prototype` itself, and the built-in functions that
every plain object inherits from it. -/
inductive JSValue where
  | undefined : JSValue
  | null : JSValue
  | str (s : String) : JSValue
  | obj (fields : List (String × JSValue)) : JSValue
  | objectPrototype : JSValue
  | builtinFunction (name : String) : JSValue

/-- What a JavaScript operation of the modelled fragment can throw. `typeError`
is the `TypeError` of a property read on `undefined` or `null`; `unsupported`
marks a receiver outside the modelled fragment (a primitive or a function). -/
inductive JSError where
  | typeError : JSError
  | unsupported : JSError
  deriving DecidableEq

/-- The truthiness test behind `!v`, `v && _` and `v || _`. -/
def JSValue.truthy : JSValue → Bool
  | .undefined => false
  | .null => false
  | .str s => s ≠ ""
  | .obj _ => true
  | .objectPrototype => true
  | .builtinFunction _ => true

/-- The test `typeof v === 'string'`. -/
def JSValue.typeofString : JSValue → Bool
  | .str _ => true
  | _ => false

/-- The test `typeof v === 'object'`; it holds of `null` too. -/
def JSValue.typeofObject : JSValue → Bool
  | .null => true
  | .obj _ => true
  | .objectPrototype => true
  | _ => false

/-- Names of the function-valued properties of `Object.prototype`. -/
def objectPrototypeMethods : List String :=
  ["constructor", "hasOwnProperty", "isPrototypeOf", "propertyIsEnumerable",
   "toLocaleString", "toString", "valueOf", "__defineGetter__", "__defineSetter__",
   "__lookupGetter__", "__lookupSetter__"]

/-- Property read on `Object.prototype` on behalf of an object whose prototype is
`proto`: the accessor `__proto__` answers `proto`, a method name answers the
built-in function, any other name answers `undefined`. -/
def inheritedProp (proto : JSValue) (k : String) : JSValue :=
  if k = "__proto__" then proto
  else if k ∈ objectPrototypeMethods then .builtinFunction k
  else .undefined

/-- The property read `v[k]`: an own property first, then the prototype chain. -/
def JSValue.getProp : JSValue → String → Except JSError JSValue
  | .undefined, _ => .error .typeError
  | .null, _ => .error .typeError
  | .obj fields, k =>
      match fields.lookup k with
      | some v => .ok v
      | none => .ok (inheritedProp .objectPrototype k)
  | .objectPrototype, k => .ok (inheritedProp .null k)
  | .str _, _ => .error .unsupported
  | .builtinFunction _, _ => .error .unsupported

/-! ## `getLocalizedContent` (translations.js) -/

/-- Source: `getLocalizedContent = (content, lang) => { if (!content) return '';
if (typeof content === 'string') return content;
return content[lang] || content.en || ''; }`. -/
def getLocalizedContent (content : JSValue) (lang : String) : Except JSError JSValue :=
  if !content.truthy then .ok (.str "")
  else if content.typeofString then .ok content
  else
    match content.getProp lang with
    | .error e => .error e
    | .ok a =>
        if a.truthy then .ok a
        else
          match content.getProp "en" with
          | .error e => .error e
          | .ok b => if b.truthy then .ok b else .ok (.str "")

/-! ## `t` (LanguageContext.js) -/

/-- Helper for `splitDot`: `cur` holds the characters of the segment being read. -/
def splitDotAux : List Char → List Char → List String
  | [], cur => [String.mk cur.reverse]
  | c :: cs, cur =>
      if c = '.' then String.mk cur.reverse :: splitDotAux cs [] else splitDotAux cs (c :: cur)

/-- The call `key.split('.')`. -/
def splitDot (key : String) : List String :=
  splitDotAux key.data []

/-! ## The `translations` constant (translations.js) -/

/-- The English tree, the value of the object literal at key en of the translations constant. -/
def translationsEn : JSValue := .obj [
  ("nav", .obj [
    ("home", .str "Home"),
    ("about", .str "About Us"),
    ("courses", .str "Courses"),
    ("vacancies", .str "Careers"),
    ("internships", .str "Internships"),
    ("blog", .str "Blog"),
    ("contact", .str "Contact"),
    ("adminLogin", .str "Admin"),
    ("freeConsultation", .str "Free Consultation"),
    ("vacanciesDropdown", .str "Vacancies"),
    ("internshipsDropdown", .str "Internship Programs")]),
  ("hero", .obj [
    ("title", .str "Novatech Education Center"),
    ("subtitle", .str "Professional technical education in Sumgayit"),
    ("cta1", .str "Free Consultation"),
    ("cta2", .str "View Courses")]),
  ("vacancies", .obj [
    ("title", .str "Career Opportunities"),
    ("subtitle", .str "Join our team and grow with us"),
    ("noVacancies", .str "No open positions at the moment"),
    ("checkBack", .str "Check back soon for new opportunities"),
    ("apply", .str "Apply Now")]),
  ("internships", .obj [
    ("title", .str "Internship Programs"),
    ("subtitle", .str "Start your career journey with our internship programs"),
    ("noInternships", .str "No internships available at the moment"),
    ("checkBack", .str "Check back soon for new programs"),
    ("apply", .str "Apply Now")]),
  ("whyNovatech", .obj [
    ("title", .str "Why Choose Novatech?"),
    ("subtitle", .str "We provide the best learning experience for your career growth"),
    ("features", .obj [
      ("instructors", .obj [
        ("title", .str "Experienced Instructors"),
        ("desc", .str "Learn from industry professionals with years of real-world experience")]),
      ("practical", .obj [
        ("title", .str "Practical Training"),
        ("desc", .str "Hands-on projects and exercises that prepare you for real work")]),
      ("projects", .obj [
        ("title", .str "Real-World Projects"),
        ("desc", .str "Build portfolio-worthy projects during your course")]),
      ("certificate", .obj [
        ("title", .str "Certificate Upon Completion"),
        ("desc", .str "Receive an official Novatech certificate recognized by employers")]),
      ("flexible", .obj [
        ("title", .str "Flexible Learning"),
        ("desc", .str "Choose between online and on-site classes based on your schedule")])])]),
  ("popularCourses", .obj [
    ("title", .str "Popular Courses"),
    ("subtitle", .str "Start your journey with our most popular programs"),
    ("viewAll", .str "View All Courses"),
    ("duration", .str "Duration"),
    ("level", .str "Level"),
    ("format", .str "Format"),
    ("learnMore", .str "Learn More")]),
  ("testimonials", .obj [
    ("title", .str "What Our Students Say"),
    ("subtitle", .str "Success stories from our graduates")]),
  ("cta", .obj [
    ("title", .str "Start Your Learning Journey Today"),
    ("subtitle", .str "Join thousands of successful graduates who transformed their careers with Novatech"),
    ("button", .str "Contact Us on WhatsApp")]),
  ("footer", .obj [
    ("description", .str "Professional technical education center in Sumgayit, Azerbaijan. Transforming careers since 2024."),
    ("quickLinks", .str "Quick Links"),
    ("contact", .str "Contact"),
    ("followUs", .str "Follow Us"),
    ("rights", .str "All rights reserved."),
    ("privacy", .str "Privacy Policy"),
    ("terms", .str "Terms of Service")]),
  ("about", .obj [
    ("title", .str "About Novatech"),
    ("subtitle", .str "Your Partner in Technical Education"),
    ("mission", .obj [
      ("title", .str "Our Mission"),
      ("content", .str "To provide accessible, high-quality technical education that empowers individuals to build successful careers in the digital economy.")]),
    ("vision", .obj [
      ("title", .str "Our Vision"),
      ("content", .str "To become the leading technical education center in Azerbaijan, known for producing skilled professionals who drive innovation and growth.")]),
    ("story", .obj [
      ("title", .str "Our Story"),
      ("content", .str "Founded in July 2024, Novatech Education Center was born from a passion for technology and education. Located in the heart of Sumgayit at Markaz Plaza, we've quickly established ourselves as a trusted name in technical training.")]),
    ("team", .obj [
      ("title", .str "Meet Our Team"),
      ("subtitle", .str "Expert instructors dedicated to your success")])]),
  ("courses", .obj [
    ("title", .str "Our Courses"),
    ("subtitle", .str "Find the perfect course for your career goals"),
    ("filterAll", .str "All"),
    ("filterDevelopment", .str "Development"),
    ("filterDesign", .str "Design"),
    ("filterMarketing", .str "Marketing"),
    ("filterOffice", .str "Office"),
    ("filterKids", .str "Kids"),
    ("applyNow", .str "Apply Now"),
    ("noCourses", .str "No courses found in this category")]),
  ("courseDetail", .obj [
    ("duration", .str "Duration"),
    ("format", .str "Format"),
    ("level", .str "Level"),
    ("certificate", .str "Certificate"),
    ("yes", .str "Yes"),
    ("no", .str "No"),
    ("whatYouLearn", .str "What You Will Learn"),
    ("curriculum", .str "Curriculum"),
    ("faq", .str "Frequently Asked Questions"),
    ("applyNow", .str "Apply Now"),
    ("price", .str "Price")]),
  ("blog", .obj [
    ("title", .str "Blog"),
    ("subtitle", .str "Latest news, tips, and insights from our team"),
    ("readMore", .str "Read More"),
    ("noPosts", .str "No blog posts available yet"),
    ("viewAll", .str "View All")]),
  ("contact", .obj [
    ("title", .str "Contact Us"),
    ("subtitle", .str "We'd love to hear from you"),
    ("address", .str "Address"),
    ("phone", .str "Phone"),
    ("email", .str "Email"),
    ("workingHours", .str "Working Hours"),
    ("form", .obj [
      ("name", .str "Your Name"),
      ("email", .str "Your Email"),
      ("phone", .str "Phone Number"),
      ("message", .str "Your Message"),
      ("submit", .str "Send Message"),
      ("sending", .str "Sending..."),
      ("success", .str "Message sent successfully!"),
      ("error", .str "Failed to send message. Please try again.")])]),
  ("application", .obj [
    ("title", .str "Apply for Course"),
    ("name", .str "Full Name"),
    ("email", .str "Email Address"),
    ("phone", .str "Phone Number"),
    ("message", .str "Additional Message (Optional)"),
    ("submit", .str "Submit Application"),
    ("submitting", .str "Submitting..."),
    ("success", .str "Application submitted successfully! We will contact you soon."),
    ("error", .str "Failed to submit application. Please try again.")]),
  ("cookies", .obj [
    ("message", .str "We use cookies to enhance your experience. By continuing to visit this site you agree to our use of cookies."),
    ("accept", .str "Accept"),
    ("decline", .str "Decline")]),
  ("common", .obj [
    ("loading", .str "Loading..."),
    ("error", .str "Something went wrong"),
    ("backHome", .str "Back to Home")]),
  ("trialLesson", .obj [
    ("title", .str "Take the first step, sign up for a free trial lesson!"),
    ("formTitle", .str "Sign up for a free trial lesson"),
    ("namePlaceholder", .str "Full Name"),
    ("contactPlaceholder", .str "Phone or Email"),
    ("coursePlaceholder", .str "Enter course name"),
    ("submit", .str "Submit"),
    ("submitting", .str "Sending..."),
    ("success", .str "Your request has been received! We will contact you soon."),
    ("error", .str "An error occurred. Please try again."),
    ("fillAll", .str "Please fill in all fields")])]

/-- The Azerbaijani tree, the value of the object literal at key az of the translations constant. -/
def translationsAz : JSValue := .obj [
  ("nav", .obj [
    ("home", .str "Ana Səhifə"),
    ("about", .str "Haqqımızda"),
    ("courses", .str "Tədris proqramları"),
    ("vacancies", .str "Karyera"),
    ("internships", .str "Təcrübə"),
    ("blog", .str "Bloq"),
    ("contact", .str "Əlaqə"),
    ("adminLogin", .str "Admin"),
    ("freeConsultation", .str "Pulsuz Məsləhət"),
    ("vacanciesDropdown", .str "Vakansiyalar"),
    ("internshipsDropdown", .str "Təcrübə proqramları")]),
  ("hero", .obj [
    ("title", .str "Novatech Təhsil Mərkəzi"),
    ("subtitle", .str "Sumqayıtda peşəkar texniki təhsil"),
    ("cta1", .str "Pulsuz Məsləhət"),
    ("cta2", .str "Kurslara Bax")]),
  ("vacancies", .obj [
    ("title", .str "Karyera İmkanları"),
    ("subtitle", .str "Komandamıza qoşulun və bizimlə birlikdə inkişaf edin"),
    ("noVacancies", .str "Hal-hazırda açıq vəzifə yoxdur"),
    ("checkBack", .str "Yeni imkanlar üçün tezliklə yoxlayın"),
    ("apply", .str "Müraciət Et")]),
  ("internships", .obj [
    ("title", .str "Təcrübə Proqramları"),
    ("subtitle", .str "Təcrübə proqramlarımızla karyera yolunuza başlayın"),
    ("noInternships", .str "Hal-hazırda təcrübə proqramı yoxdur"),
    ("checkBack", .str "Yeni proqramlar üçün tezliklə yoxlayın"),
    ("apply", .str "Müraciət Et")]),
  ("whyNovatech", .obj [
    ("title", .str "Niyə Novatech?"),
    ("subtitle", .str "Karyera inkişafınız üçün ən yaxşı təlim təcrübəsini təqdim edirik"),
    ("features", .obj [
      ("instructors", .obj [
        ("title", .str "Təcrübəli Müəllimlər"),
        ("desc", .str "İllərlə real iş təcrübəsi olan sənaye mütəxəssislərindən öyrənin")]),
      ("practical", .obj [
        ("title", .str "Praktik Təlim"),
        ("desc", .str "Sizi real işə hazırlayan praktik layihələr və tapşırıqlar")]),
      ("projects", .obj [
        ("title", .str "Real Layihələr"),
        ("desc", .str "Kurs müddətində portfolioya əlavə edə biləcəyiniz layihələr qurun")]),
      ("certificate", .obj [
        ("title", .str "Sertifikat"),
        ("desc", .str "İşəgötürənlər tərəfindən tanınan rəsmi Novatech sertifikatı alın")]),
      ("flexible", .obj [
        ("title", .str "Çevik Təlim"),
        ("desc", .str "Cədvəlinizə uyğun onlayn və ya əyani dərslər arasında seçin")])])]),
  ("popularCourses", .obj [
    ("title", .str "Populyar Kurslar"),
    ("subtitle", .str "Ən populyar proqramlarımızla səyahətinizə başlayın"),
    ("viewAll", .str "Bütün Kurslara Bax"),
    ("duration", .str "Müddət"),
    ("level", .str "Səviyyə"),
    ("format", .str "Format"),
    ("learnMore", .str "Ətraflı")]),
  ("testimonials", .obj [
    ("title", .str "Tələbələrimiz Nə Deyir"),
    ("subtitle", .str "Məzunlarımızın uğur hekayələri")]),
  ("cta", .obj [
    ("title", .str "Bu Gün Təlim Səyahətinizə Başlayın"),
    ("subtitle", .str "Novatech ilə karyeralarını dəyişdirən minlərlə uğurlu məzuna qoşulun"),
    ("button", .str "WhatsApp ilə Əlaqə")]),
  ("footer", .obj [
    ("description", .str "Azərbaycan, Sumqayıtda peşəkar texniki təhsil mərkəzi. 2024-cü ildən karyeraları dəyişdiririk."),
    ("quickLinks", .str "Sürətli Keçidlər"),
    ("contact", .str "Əlaqə"),
    ("followUs", .str "Bizi İzləyin"),
    ("rights", .str "Bütün hüquqlar qorunur."),
    ("privacy", .str "Məxfilik Siyasəti"),
    ("terms", .str "Xidmət Şərtləri")]),
  ("about", .obj [
    ("title", .str "Novatech Haqqında"),
    ("subtitle", .str "Texniki Təhsildə Tərəfdaşınız"),
    ("mission", .obj [
      ("title", .str "Missiyamız"),
      ("content", .str "Rəqəmsal iqtisadiyyatda uğurlu karyera qurmaq üçün insanları gücləndirrən əlçatan, yüksək keyfiyyətli texniki təhsil təqdim etmək.")]),
    ("vision", .obj [
      ("title", .str "Vizyonumuz"),
      ("content", .str "İnnovasiya və inkişafı təşviq edən bacarıqlı mütəxəssislər yetişdirməklə tanınan Azərbaycanda aparıcı texniki təhsil mərkəzinə çevrilmək.")]),
    ("story", .obj [
      ("title", .str "Hekayəmiz"),
      ("content", .str "2024-cü ilin iyulunda təsis edilmiş Novatech Təhsil Mərkəzi texnologiya və təhsilə olan həvəsdən doğuldu. Sumqayıtın mərkəzində, Markaz Plazada yerləşən biz qısa zamanda texniki təlim sahəsində etibarlı ad kimi özümüzü təsdiqləmişik.")]),
    ("team", .obj [
      ("title", .str "Komandamız"),
      ("subtitle", .str "Uğurunuza həsr olunmuş ekspert müəllimlər")])]),
  ("courses", .obj [
    ("title", .str "Kurslarımız"),
    ("subtitle", .str "Karyera məqsədləriniz üçün mükəmməl kursu tapın"),
    ("filterAll", .str "Hamısı"),
    ("filterDevelopment", .str "Proqramlaşdırma"),
    ("filterDesign", .str "Dizayn"),
    ("filterMarketing", .str "Marketinq"),
    ("filterOffice", .str "Ofis"),
    ("filterKids", .str "Uşaqlar"),
    ("applyNow", .str "Müraciət Et"),
    ("noCourses", .str "Bu kateqoriyada kurs tapılmadı")]),
  ("courseDetail", .obj [
    ("duration", .str "Müddət"),
    ("format", .str "Format"),
    ("level", .str "Səviyyə"),
    ("certificate", .str "Sertifikat"),
    ("yes", .str "Bəli"),
    ("no", .str "Xeyr"),
    ("whatYouLearn", .str "Nə Öyrənəcəksiniz"),
    ("curriculum", .str "Kurikulum"),
    ("faq", .str "Tez-tez Verilən Suallar"),
    ("applyNow", .str "Müraciət Et"),
    ("price", .str "Qiymət")]),
  ("blog", .obj [
    ("title", .str "Bloq"),
    ("subtitle", .str "Komandamızdan ən son xəbərlər, məsləhətlər və fikirlər"),
    ("readMore", .str "Daha Çox"),
    ("noPosts", .str "Hələ bloq yazısı yoxdur"),
    ("viewAll", .str "Hamısına bax")]),
  ("contact", .obj [
    ("title", .str "Bizimlə Əlaqə"),
    ("subtitle", .str "Sizinlə əlaqə saxlamağa hazırıq"),
    ("address", .str "Ünvan"),
    ("phone", .str "Telefon"),
    ("email", .str "E-poçt"),
    ("workingHours", .str "İş Saatları"),
    ("form", .obj [
      ("name", .str "Adınız"),
      ("email", .str "E-poçtunuz"),
      ("phone", .str "Telefon Nömrəniz"),
      ("message", .str "Mesajınız"),
      ("submit", .str "Göndər"),
      ("sending", .str "Göndərilir..."),
      ("success", .str "Mesaj uğurla göndərildi!"),
      ("error", .str "Mesaj göndərilmədi. Zəhmət olmasa yenidən cəhd edin.")])]),
  ("application", .obj [
    ("title", .str "Kursa Müraciət"),
    ("name", .str "Tam Ad"),
    ("email", .str "E-poçt Ünvanı"),
    ("phone", .str "Telefon Nömrəsi"),
    ("message", .str "Əlavə Mesaj (İstəyə bağlı)"),
    ("submit", .str "Müraciəti Göndər"),
    ("submitting", .str "Göndərilir..."),
    ("success", .str "Müraciət uğurla göndərildi! Tezliklə sizinlə əlaqə saxlayacağıq."),
    ("error", .str "Müraciət göndərilmədi. Zəhmət olmasa yenidən cəhd edin.")]),
  ("cookies", .obj [
    ("message", .str "Təcrübənizi artırmaq üçün kukilərdən istifadə edirik. Bu saytı ziyarət etməyə davam etməklə kuki istifadəmizlə razılaşırsınız."),
    ("accept", .str "Qəbul Et"),
    ("decline", .str "İmtina Et")]),
  ("common", .obj [
    ("loading", .str "Yüklənir..."),
    ("error", .str "Xəta baş verdi"),
    ("backHome", .str "Ana Səhifəyə Qayıt")]),
  ("trialLesson", .obj [
    ("title", .str "İlk addımı at, ödənişsiz sınaq dərsinə yazıl!"),
    ("formTitle", .str "Pulsuz sınaq dərsinə yazıl"),
    ("namePlaceholder", .str "Ad və Soyad"),
    ("contactPlaceholder", .str "Telefon və ya E-poçt"),
    ("coursePlaceholder", .str "Kurs adını yazın"),
    ("submit", .str "Göndər"),
    ("submitting", .str "Göndərilir..."),
    ("success", .str "Müraciətiniz qəbul edildi! Tezliklə sizinlə əlaqə saxlanılacaq."),
    ("error", .str "Xəta baş verdi. Zəhmət olmasa yenidən cəhd edin."),
    ("fillAll", .str "Zəhmət olmasa bütün xanaları doldurun")])]

/-- The Russian tree, the value of the object literal at key ru of the translations constant. -/
def translationsRu : JSValue := .obj [
  ("nav", .obj [
    ("home", .str "Главная"),
    ("about", .str "О нас"),
    ("courses", .str "Курсы"),
    ("vacancies", .str "Карьера"),
    ("internships", .str "Стажировки"),
    ("blog", .str "Блог"),
    ("contact", .str "Контакты"),
    ("adminLogin", .str "Админ"),
    ("freeConsultation", .str "Бесплатная консультация"),
    ("vacanciesDropdown", .str "Вакансии"),
    ("internshipsDropdown", .str "Программы стажировки")]),
  ("hero", .obj [
    ("title", .str "Образовательный центр Novatech"),
    ("subtitle", .str "Профессиональное техническое образование в Сумгаите"),
    ("cta1", .str "Бесплатная консультация"),
    ("cta2", .str "Смотреть курсы")]),
  ("vacancies", .obj [
    ("title", .str "Карьерные возможности"),
    ("subtitle", .str "Присоединяйтесь к нашей команде и развивайтесь с нами"),
    ("noVacancies", .str "В данный момент открытых вакансий нет"),
    ("checkBack", .str "Скоро появятся новые возможности"),
    ("apply", .str "Подать заявку")]),
  ("internships", .obj [
    ("title", .str "Программы стажировки"),
    ("subtitle", .str "Начните свой карьерный путь с наших программ стажировки"),
    ("noInternships", .str "В данный момент нет доступных стажировок"),
    ("checkBack", .str "Скоро появятся новые программы"),
    ("apply", .str "Подать заявку")]),
  ("whyNovatech", .obj [
    ("title", .str "Почему Novatech?"),
    ("subtitle", .str "Мы предоставляем лучший опыт обучения для вашего карьерного роста"),
    ("features", .obj [
      ("instructors", .obj [
        ("title", .str "Опытные преподаватели"),
        ("desc", .str "Учитесь у профессионалов с многолетним реальным опытом")]),
      ("practical", .obj [
        ("title", .str "Практическое обучение"),
        ("desc", .str "Практические проекты и упражнения, готовящие к реальной работе")]),
      ("projects", .obj [
        ("title", .str "Реальные проекты"),
        ("desc", .str "Создавайте проекты для портфолио во время обучения")]),
      ("certificate", .obj [
        ("title", .str "Сертификат по завершении"),
        ("desc", .str "Получите официальный сертификат Novatech, признанный работодателями")]),
      ("flexible", .obj [
        ("title", .str "Гибкое обучение"),
        ("desc", .str "Выбирайте между онлайн и очными занятиями по вашему расписанию")])])]),
  ("popularCourses", .obj [
    ("title", .str "Популярные курсы"),
    ("subtitle", .str "Начните путь с наших самых популярных программ"),
    ("viewAll", .str "Все курсы"),
    ("duration", .str "Длительность"),
    ("level", .str "Уровень"),
    ("format", .str "Формат"),
    ("learnMore", .str "Подробнее")]),
  ("testimonials", .obj [
    ("title", .str "Отзывы студентов"),
    ("subtitle", .str "Истории успеха наших выпускников")]),
  ("cta", .obj [
    ("title", .str "Начните обучение сегодня"),
    ("subtitle", .str "Присоединяйтесь к тысячам успешных выпускников, изменивших карьеру с Novatech"),
    ("button", .str "Связаться в WhatsApp")]),
  ("footer", .obj [
    ("description", .str "Профессиональный образовательный центр в Сумгаите, Азербайджан. Меняем карьеры с 2024 года."),
    ("quickLinks", .str "Быстрые ссылки"),
    ("contact", .str "Контакты"),
    ("followUs", .str "Следите за нами"),
    ("rights", .str "Все права защищены."),
    ("privacy", .str "Политика конфиденциальности"),
    ("terms", .str "Условия использования")]),
  ("about", .obj [
    ("title", .str "О Novatech"),
    ("subtitle", .str "Ваш партнер в техническом образовании"),
    ("mission", .obj [
      ("title", .str "Наша миссия"),
      ("content", .str "Предоставлять доступное, качественное техническое образование, которое помогает людям строить успешную карьеру в цифровой экономике.")]),
    ("vision", .obj [
      ("title", .str "Наше видение"),
      ("content", .str "Стать ведущим центром технического образования в Азербайджане, известным подготовкой квалифицированных специалистов.")]),
    ("story", .obj [
      ("title", .str "Наша история"),
      ("content", .str "Образовательный центр Novatech основан в июле 2024 года из страсти к технологиям и образованию. Расположенный в центре Сумгаита в Markaz Plaza, мы быстро зарекомендовали себя как надежное имя в техническом обучении.")]),
    ("team", .obj [
      ("title", .str "Наша команда"),
      ("subtitle", .str "Эксперты-преподаватели, посвященные вашему успеху")])]),
  ("courses", .obj [
    ("title", .str "Наши курсы"),
    ("subtitle", .str "Найдите идеальный курс для ваших карьерных целей"),
    ("filterAll", .str "Все"),
    ("filterDevelopment", .str "Разработка"),
    ("filterDesign", .str "Дизайн"),
    ("filterMarketing", .str "Маркетинг"),
    ("filterOffice", .str "Офис"),
    ("filterKids", .str "Дети"),
    ("applyNow", .str "Подать заявку"),
    ("noCourses", .str "Курсы в этой категории не найдены")]),
  ("courseDetail", .obj [
    ("duration", .str "Длительность"),
    ("format", .str "Формат"),
    ("level", .str "Уровень"),
    ("certificate", .str "Сертификат"),
    ("yes", .str "Да"),
    ("no", .str "Нет"),
    ("whatYouLearn", .str "Чему вы научитесь"),
    ("curriculum", .str "Программа"),
    ("faq", .str "Часто задаваемые вопросы"),
    ("applyNow", .str "Подать заявку"),
    ("price", .str "Цена")]),
  ("blog", .obj [
    ("title", .str "Блог"),
    ("subtitle", .str "Последние новости, советы и идеи от нашей команды"),
    ("readMore", .str "Читать далее"),
    ("noPosts", .str "Записей в блоге пока нет"),
    ("viewAll", .str "Смотреть все")]),
  ("contact", .obj [
    ("title", .str "Свяжитесь с нами"),
    ("subtitle", .str "Мы будем рады услышать вас"),
    ("address", .str "Адрес"),
    ("phone", .str "Телефон"),
    ("email", .str "Email"),
    ("workingHours", .str "Часы работы"),
    ("form", .obj [
      ("name", .str "Ваше имя"),
      ("email", .str "Ваш email"),
      ("phone", .str "Телефон"),
      ("message", .str "Ваше сообщение"),
      ("submit", .str "Отправить"),
      ("sending", .str "Отправка..."),
      ("success", .str "Сообщение успешно отправлено!"),
      ("error", .str "Не удалось отправить сообщение. Попробуйте снова.")])]),
  ("application", .obj [
    ("title", .str "Заявка на курс"),
    ("name", .str "Полное имя"),
    ("email", .str "Email адрес"),
    ("phone", .str "Номер телефона"),
    ("message", .str "Дополнительное сообщение (необязательно)"),
    ("submit", .str "Отправить заявку"),
    ("submitting", .str "Отправка..."),
    ("success", .str "Заявка успешно отправлена! Мы скоро свяжемся с вами."),
    ("error", .str "Не удалось отправить заявку. Попробуйте снова.")]),
  ("cookies", .obj [
    ("message", .str "Мы используем cookies для улучшения вашего опыта. Продолжая посещать сайт, вы соглашаетесь с использованием cookies."),
    ("accept", .str "Принять"),
    ("decline", .str "Отклонить")]),
  ("common", .obj [
    ("loading", .str "Загрузка..."),
    ("error", .str "Что-то пошло не так"),
    ("backHome", .str "Вернуться на главную")]),
  ("trialLesson", .obj [
    ("title", .str "Сделай первый шаг, запишись на бесплатный пробный урок!"),
    ("formTitle", .str "Запишитесь на бесплатный пробный урок"),
    ("namePlaceholder", .str "Имя и Фамилия"),
    ("contactPlaceholder", .str "Телефон или Email"),
    ("coursePlaceholder", .str "Введите название курса"),
    ("submit", .str "Отправить"),
    ("submitting", .str "Отправка..."),
    ("success", .str "Ваша заявка принята! Мы скоро свяжемся с вами."),
    ("error", .str "Произошла ошибка. Пожалуйста, попробуйте снова."),
    ("fillAll", .str "Пожалуйста, заполните все поля")])]

/-- Source: the exported constant translations, one tree per language. -/
def translations : JSValue :=
  .obj [("en", translationsEn), ("az", translationsAz), ("ru", translationsRu)]

/-- The `for` loop of `t`. The answer `none` stands for the loop leaving the
function through `return key`; `some value` for the loop running to its end with
that `value`. -/
def tWalk : JSValue → List String → Except JSError (Option JSValue)
  | value, [] => .ok (some value)
  | value, k :: ks =>
      if value.truthy && value.typeofObject then
        match value.getProp k with
        | .ok next => tWalk next ks
        | .error e => .error e
      else .ok none

/-- Source: `t` of `LanguageProvider`, the component's `language` made explicit:
`const keys = key.split('.'); let value = translations[language];` then the loop,
then `return value || key`. -/
def t (language key : String) : Except JSError JSValue :=
  match translations.getProp language with
  | .error e => .error e
  | .ok root =>
      match tWalk root (splitDot key) with
      | .error e => .error e
      | .ok none => .ok (.str key)
      | .ok (some value) => .ok (if value.truthy then value else .str key)

/-- Source: `getContent = (content) => getLocalizedContent(content, language)`. -/
def getContent (language : String) (content : JSValue) : Except JSError JSValue :=
  getLocalizedContent content language

/-! ## Vocabulary for statements about the resolvers -/

/-- A LocalizedText mapping: a plain object whose own properties are strings. -/
def mapping (m : List (String × String)) : JSValue :=
  .obj (m.map fun p => (p.1, JSValue.str p.2))

/-- The value that a path of own property names leads to, starting at `v`. -/
def ownPath : JSValue → List String → Option JSValue
  | v, [] => some v
  | .obj fields, k :: ks =>
      match fields.lookup k with
      | some v => ownPath v ks
      | none => none
  | _, _ :: _ => none

/-- The dot-path `key` leads to the string leaf `s` of the tree of `language`. -/
def LeadsToLeaf (language key s : String) : Prop :=
  ∃ root, translations.getProp language = .ok root ∧
    ownPath root (splitDot key) = some (.str s)

/-- The dot-path `key` leads to an inner object of the tree of `language`. -/
def LeadsToNode (language key : String) : Prop :=
  ∃ root fields, translations.getProp language = .ok root ∧
    ownPath root (splitDot key) = some (.obj fields)

/-- The call `t(key)` yields a configured string: a string other than the key
handed back as the mark of a missing translation. -/
def ConfiguredString (language key : String) : Prop :=
  ∃ s, t language key = .ok (.str s) ∧ s ≠ key

mutual
/-- The string leaves below a value, each with the path of own property names
that leads to it. -/
def leaves : JSValue → List (List String × String)
  | .str s => [([], s)]
  | .obj fields => leavesFields fields
  | _ => []
/-- The string leaves below the properties of an object. -/
def leavesFields : List (String × JSValue) → List (List String × String)
  | [] => []
  | (k, v) :: rest => (leaves v).map (fun p => (k :: p.1, p.2)) ++ leavesFields rest
end

mutual
/-- Two values have the same key shape: both are string leaves, or both are
objects with the same property names in the same order and children of the same
shape. -/
def sameShape : JSValue → JSValue → Bool
  | .str _, .str _ => true
  | .obj fs, .obj gs => sameShapeFields fs gs
  | _, _ => false
/-- Pointwise `sameShape` on property lists. -/
def sameShapeFields : List (String × JSValue) → List (String × JSValue) → Bool
  | [], [] => true
  | (k, v) :: fs, (l, w) :: gs => k == l && sameShape v w && sameShapeFields fs gs
  | _, _ => false
end

/-- Values that no walk turns into a string: what property reads answer when the
name is not an own property. -/
def JSValue.offTree : JSValue → Bool
  | .undefined => true
  | .null => true
  | .builtinFunction _ => true
  | .objectPrototype => true
  | _ => false

/-- Characters of the dot-path that `key.split('.')` takes apart into `segs`. -/
def joinDot : List String → List Char
  | [] => []
  | [s] => s.data
  | s :: rest => s.data ++ '.' :: joinDot rest

/-- The check made on every leaf of a tree: the string is not empty and differs
from the dot-path that leads to it. -/
def leafOk (p : List String × String) : Bool :=
  p.2 != "" && p.2.data != joinDot p.1

/-! ## JavaScript Numbers holding natural numbers

The time arithmetic of the login page runs on Numbers, that is IEEE 754
binary64 values. The values that occur are natural numbers, and the definitions
below give the quotient of two of them as the division rounds it, `Math.floor`,
and the decimal text of a Number. -/

/-- Position of the leading binary digit, by halving at most `fuel` times. -/
def binaryExponentAux : Nat → Nat → Nat
  | 0, _ => 0
  | fuel + 1, n => if n < 2 then 0 else binaryExponentAux fuel (n / 2) + 1

/-- Position of the leading binary digit of `n`: the `e` with
`2^e ≤ n < 2^(e+1)`, and 0 for `n = 0`. -/
def binaryExponent (n : Nat) : Nat := binaryExponentAux n n

/-- The binary exponent of the exact quotient `a / b` of two positive naturals:
the integer `e` with `2^e ≤ a / b < 2^(e+1)`. The leading digits of `a` and `b`
are `binaryExponent a` and `binaryExponent b` apart, and the quotient of the two
significands is at least 1 exactly when `b * 2^(binaryExponent a)` is at most
`a * 2^(binaryExponent b)`. -/
def quotientExponent (a b : Nat) : Int :=
  if b * 2 ^ binaryExponent a ≤ a * 2 ^ binaryExponent b then
    (binaryExponent a : Int) - (binaryExponent b : Int)
  else
    (binaryExponent a : Int) - (binaryExponent b : Int) - 1

/-- The integer nearest to the exact quotient `num / den`, a tie going to the
even one: the rounding mode of binary64 arithmetic, applied to the 53-bit
significand. -/
def roundHalfEven (num den : Nat) : Nat :=
  if 2 * (num % den) < den then num / den
  else if den < 2 * (num % den) then num / den + 1
  else if (num / den) % 2 = 0 then num / den
  else num / den + 1

/-- A finite non-negative Number, as significand and binary exponent: the value
is `significand * 2^exponent`. -/
structure JSNumber where
  significand : Nat
  exponent : Int
deriving DecidableEq

/-- The operator `/` on two Numbers that hold the natural numbers `a` and
`b > 0`: the exact quotient rounded to 53 significant binary digits, ties to
even. With `e` the binary exponent of the exact quotient the result is a
multiple of `2^(e - 52)`, and the multiple is the rounded quotient of `a` by
`b * 2^(e - 52)`. Neither overflow nor underflow occurs for such operands. -/
def numberDiv (a b : Nat) : JSNumber :=
  if a = 0 then ⟨0, 0⟩
  else
    let e := quotientExponent a b - 52
    ⟨roundHalfEven (a * 2 ^ (-e).toNat) (b * 2 ^ e.toNat), e⟩

/-- The function `Math.floor` on a finite non-negative Number. -/
def mathFloor (x : JSNumber) : Nat :=
  x.significand * 2 ^ x.exponent.toNat / 2 ^ (-x.exponent).toNat

/-- The Number nearest to the natural number `x` (ties to even); it holds a
natural number again. -/
def numberValue (x : Nat) : Nat := mathFloor (numberDiv x 1)

/-- Number of decimal digits of `n`. -/
def decimalLength (n : Nat) : Nat := (Nat.toDigits 10 n).length

/-- The decimal with `k` significant digits that reads back as the Number `v`,
if there is one: the candidates are `v` cut to `k` digits and the next decimal
with `k` digits above it; of two that read back as `v` the one closer to `v` is
taken, and the one with the even last digit if they are equally close. -/
def roundTripCandidate (v k : Nat) : Option Nat :=
  let u := 10 ^ (decimalLength v - k)
  let lo := v / u * u
  let hi := lo + u
  if numberValue lo = v then
    if numberValue hi = v then
      if v - lo < hi - v then some lo
      else if hi - v < v - lo then some hi
      else if (v / u) % 2 = 0 then some lo
      else some hi
    else some lo
  else if numberValue hi = v then some hi
  else none

/-- The decimal with the fewest significant digits that reads back as the
Number `v`, searching 1 to 17 digits; 17 digits always suffice. -/
def shortestDecimal (v : Nat) : Nat :=
  ((List.range 17).findSome? (fun k => roundTripCandidate v (k + 1))).getD v

/-- The digits of a decimal without its trailing zeros. -/
def significantDigits (x : Nat) : List Char :=
  ((Nat.toDigits 10 x).reverse.dropWhile (fun ch => ch == '0')).reverse

/-- The text of a Number that holds the natural number `v`, as a template
literal or `String(v)` gives it (`Number::toString`). Below `2^53` it is the
decimal numeral of `v`. From there on it is made of the fewest digits that read
back as `v`: followed by zeros while the numeral has at most 21 digits, and in
exponent form (`d.ddde+n`) beyond that. -/
def numberToString (v : Nat) : String :=
  if v < 2 ^ 53 then toString v
  else
    let x := shortestDecimal v
    if decimalLength x ≤ 21 then toString x
    else
      match significantDigits x with
      | [] => toString x
      | [d] => String.mk [d] ++ "e+" ++ toString (decimalLength x - 1)
      | d :: rest => String.mk (d :: '.' :: rest) ++ "e+" ++ toString (decimalLength x - 1)

/-! ## The admin login page (AdminLoginPage.jsx) -/

/-- Source: `MASTER_PASSWORD_2`. -/
def MASTER_PASSWORD_2 : String := "Asif.?Yek.?NZS.?Baku69!"
/-- Source: `MASTER_PASSWORD_3`. -/
def MASTER_PASSWORD_3 : String := "Farhad.?Yek.?NZS.?Polsa69!"
/-- Source: `FAILED_ATTEMPTS_KEY`. -/
def FAILED_ATTEMPTS_KEY : String := "admin-failed-attempts"
/-- Source: `MASTER_ATTEMPTS_KEY`. -/
def MASTER_ATTEMPTS_KEY : String := "admin-master-attempts"
/-- Source: `LOCKOUT_TIMESTAMP_KEY`. -/
def LOCKOUT_TIMESTAMP_KEY : String := "admin-lockout-timestamp"
/-- Source: `FAILED_ATTEMPTS_THRESHOLD`. -/
def FAILED_ATTEMPTS_THRESHOLD : Nat := 10
/-- Source: `MASTER_ATTEMPTS_THRESHOLD`. -/
def MASTER_ATTEMPTS_THRESHOLD : Nat := 3
/-- Source: `LOCKOUT_DURATION`, three days in milliseconds. -/
def LOCKOUT_DURATION : Nat := 3 * 24 * 60 * 60 * 1000

/-- The `formData` state: the four text inputs of the form. -/
structure FormData where
  email : String
  password : String
  masterPassword2 : String
  masterPassword3 : String

/-- The React state of `AdminLoginPage`, one field per `useState`. The counters
and times are JavaScript numbers holding non-negative integers below `2^53`,
where the arithmetic of the page is exact. -/
structure LoginState where
  loading : Bool
  error : String
  failedAttempts : Nat
  masterAttempts : Nat
  showMasterPasswords : Bool
  isLockedOut : Bool
  lockoutTimeRemaining : Nat
  securityEnabled : Bool
  formData : FormData

/-- The browser's `localStorage`: string keys, string values. -/
abbrev Storage := List (String × String)

/-- The call `localStorage.getItem(k)`; `none` is JavaScript's `null`. -/
def Storage.getItem (st : Storage) (k : String) : Option String :=
  st.lookup k

/-- The call `localStorage.removeItem(k)`. -/
def Storage.removeItem (st : Storage) (k : String) : Storage :=
  st.filter fun p => p.1 != k

/-- The call `localStorage.setItem(k, v)`. -/
def Storage.setItem (st : Storage) (k v : String) : Storage :=
  (k, v) :: st.removeItem k

/-- How the server answers one request: with a token and a user record, or with a
failure. For a failure `status` is `err.response?.status` and `detail` is
`err.response?.data?.detail`, both absent when the request never got a response. -/
inductive Response where
  | ok (accessToken user : String) : Response
  | failure (status : Option Nat) (detail : Option String) : Response

/-- A request sent to the server. -/
inductive Call where
  | login (email password : String) : Call
  | masterLogin (email masterPassword1 masterPassword2 : String) : Call
  deriving DecidableEq

/-- What one run of a handler reads from outside the component: the clock and the
answers the server gives to the requests the handler may send. -/
structure Env where
  now : Nat
  loginResponse : Response
  masterLoginResponse : Response

/-- The component's state and everything else a handler can change. -/
structure Page where
  state : LoginState
  storage : Storage
  calls : List Call
  navigatedTo : Option String
  toasts : List String

/-- The expression `detail || fallback` on an optional string. -/
def orElse (detail : Option String) (fallback : String) : String :=
  match detail with
  | some d => if d ≠ "" then d else fallback
  | none => fallback

/-- The call `setError(msg)`. -/
def Page.setError (p : Page) (msg : String) : Page :=
  { p with state := { p.state with error := msg } }

/-- The call `setLoading(b)`. -/
def Page.setLoading (p : Page) (b : Bool) : Page :=
  { p with state := { p.state with loading := b } }

/-- An `axios.post` to one of the two login endpoints. -/
def Page.post (p : Page) (c : Call) : Page :=
  { p with calls := p.calls ++ [c] }

/-- The two `localStorage.setItem` calls that keep the session: the token and the
serialised user record. -/
def Page.storeSession (p : Page) (accessToken user : String) : Page :=
  { p with storage := (p.storage.setItem "novatech-token" accessToken).setItem "novatech-user" user }

/-- The call `navigate('/nova-admin/dashboard')`. -/
def Page.navigateToDashboard (p : Page) : Page :=
  { p with navigatedTo := some "/nova-admin/dashboard" }

/-- Source: `formatTimeRemaining`. The argument and every intermediate value is a
Number holding a natural number; `%` is exact on Numbers. -/
def formatTimeRemaining (milliseconds : Nat) : String :=
  let totalSeconds := mathFloor (numberDiv milliseconds 1000)
  let days := mathFloor (numberDiv totalSeconds (24 * 60 * 60))
  let hours := mathFloor (numberDiv (totalSeconds % (24 * 60 * 60)) (60 * 60))
  let minutes := mathFloor (numberDiv (totalSeconds % (60 * 60)) 60)
  let seconds := totalSeconds % 60
  numberToString days ++ "d " ++ numberToString hours ++ "h " ++ numberToString minutes ++ "m " ++
    numberToString seconds ++ "s"

/-- Source: `activateLockout`; `now` is the reading of `Date.now()`. -/
def activateLockout (now : Nat) (p : Page) : Page :=
  let lockoutEnd := now + LOCKOUT_DURATION
  { p with
    storage := p.storage.setItem LOCKOUT_TIMESTAMP_KEY (toString lockoutEnd)
    state := { p.state with isLockedOut := true, lockoutTimeRemaining := LOCKOUT_DURATION } }

/-- Source: `incrementFailedAttempts`; `c` is the state of the render whose
closure the function reads `failedAttempts` from. -/
def incrementFailedAttempts (c : LoginState) (p : Page) : Page :=
  let newAttempts := c.failedAttempts + 1
  let p := { p with
    state := { p.state with failedAttempts := newAttempts }
    storage := p.storage.setItem FAILED_ATTEMPTS_KEY (toString newAttempts) }
  if newAttempts ≥ FAILED_ATTEMPTS_THRESHOLD then
    { p with state := { p.state with showMasterPasswords := true } }
  else p

/-- Source: `incrementMasterAttempts`; it returns the new count. -/
def incrementMasterAttempts (c : LoginState) (p : Page) : Nat × Page :=
  let newAttempts := c.masterAttempts + 1
  (newAttempts,
   { p with
     state := { p.state with masterAttempts := newAttempts }
     storage := p.storage.setItem MASTER_ATTEMPTS_KEY (toString newAttempts) })

/-- Source: `resetFailedAttempts`. -/
def resetFailedAttempts (p : Page) : Page :=
  { p with
    state := { p.state with failedAttempts := 0, masterAttempts := 0, showMasterPasswords := false }
    storage := (p.storage.removeItem FAILED_ATTEMPTS_KEY).removeItem MASTER_ATTEMPTS_KEY }

/-- Source: `handleSubmit`, run to completion on the state `c` of the current
render, the store `storage` and the outside world `env`. Every read of component
state goes to `c`, as the closure of the handler does; the writes build the
resulting `Page`. -/
def handleSubmit (c : LoginState) (storage : Storage) (env : Env) : Page :=
  let p : Page := { state := c, storage := storage, calls := [], navigatedTo := none, toasts := [] }
  if !c.securityEnabled then
    -- Security disabled - simple login
    let p := (p.setError "").setLoading true
    let p := p.post (.login c.formData.email c.formData.password)
    let p :=
      match env.loginResponse with
      | .ok accessToken user => (p.storeSession accessToken user).navigateToDashboard
      | .failure _ detail => p.setError (orElse detail "Invalid credentials")
    p.setLoading false
  else if c.isLockedOut then
    p.setError ("Admin panel is locked. Try again in " ++ formatTimeRemaining c.lockoutTimeRemaining)
  else
    let p := (p.setError "").setLoading true
    if c.showMasterPasswords && c.formData.masterPassword2 ≠ "" && c.formData.masterPassword3 ≠ "" then
      if c.formData.masterPassword2 = MASTER_PASSWORD_2 ∧
          c.formData.masterPassword3 = MASTER_PASSWORD_3 then
        -- Master passwords are CORRECT - use master bypass endpoint
        let p := p.post (.masterLogin c.formData.email c.formData.masterPassword2
          c.formData.masterPassword3)
        match env.masterLoginResponse with
        | .ok accessToken user =>
            let p := p.storeSession accessToken user
            let p := resetFailedAttempts p
            let p := { p with storage := p.storage.removeItem LOCKOUT_TIMESTAMP_KEY }
            let p := { p with toasts := p.toasts ++ ["Successfully logged in with master passwords"] }
            let p := p.navigateToDashboard
            p.setLoading false
        | .failure status detail =>
            let p :=
              if status = some 404 then
                p.setError "Master passwords correct, but the email does not exist in the system"
              else if status = some 401 then
                -- Master passwords incorrect on server side
                let (newMasterAttempts, p) := incrementMasterAttempts c p
                let remainingMasterAttempts : Int := (MASTER_ATTEMPTS_THRESHOLD : Int) - newMasterAttempts
                if remainingMasterAttempts > 0 then
                  p.setError ("Incorrect master passwords. " ++ toString remainingMasterAttempts ++
                    " attempts remaining before 3-day lockout.")
                else
                  (activateLockout env.now p).setError
                    "Master passwords incorrect. Admin panel locked for 3 days."
              else
                p.setError (orElse detail "Login failed")
            (p.setLoading false).setLoading false
      else
        -- Master passwords are INCORRECT (client-side check)
        let (newMasterAttempts, p) := incrementMasterAttempts c p
        let remainingMasterAttempts : Int := (MASTER_ATTEMPTS_THRESHOLD : Int) - newMasterAttempts
        let p :=
          if remainingMasterAttempts > 0 then
            p.setError ("Incorrect master passwords. " ++ toString remainingMasterAttempts ++
              " attempts remaining before 3-day lockout.")
          else
            (activateLockout env.now p).setError
              "Master passwords incorrect. Admin panel locked for 3 days."
        (p.setLoading false).setLoading false
    else
      -- Normal login attempt (not using master passwords yet)
      let p := p.post (.login c.formData.email c.formData.password)
      match env.loginResponse with
      | .ok accessToken user =>
          let p := p.storeSession accessToken user
          let p := resetFailedAttempts p
          let p := { p with storage := p.storage.removeItem LOCKOUT_TIMESTAMP_KEY }
          let p := p.navigateToDashboard
          p.setLoading false
      | .failure _ detail =>
          let p :=
            if !c.showMasterPasswords || c.formData.masterPassword2 = "" ||
                c.formData.masterPassword3 = "" then
              let p := incrementFailedAttempts c p
              let remainingAttempts : Int := (FAILED_ATTEMPTS_THRESHOLD : Int) - c.failedAttempts - 1
              if remainingAttempts > 0 ∧ remainingAttempts ≤ 5 then
                p.setError ("Invalid credentials. " ++ toString remainingAttempts ++
                  " attempts remaining before recovery mode.")
              else if remainingAttempts ≤ 0 then
                p.setError "Recovery mode activated. Use master passwords to access."
              else
                p.setError (orElse detail "Invalid credentials")
            else p
          p.setLoading false

/-- The three states of the guard, read off what the page renders: the lockout
screen for `isLockedOut`, the two master-password fields for
`showMasterPasswords`, the plain form otherwise. -/
inductive GuardState where
  | NORMAL : GuardState
  | RECOVERY_MODE : GuardState
  | LOCKED_OUT : GuardState
  deriving DecidableEq

/-- The guard state that a component state shows. -/
def guardState (s : LoginState) : GuardState :=
  if s.isLockedOut then .LOCKED_OUT
  else if s.showMasterPasswords then .RECOVERY_MODE
  else .NORMAL

/-- One submission as the user performs it: the form is filled with `fd`
(the `onChange` handlers), the page renders, and `handleSubmit` runs. The result
is the state and store that the next render and the next submission see. -/
def submit (env : Env) (fd : FormData) (x : LoginState × Storage) : LoginState × Storage :=
  let r := handleSubmit { x.1 with formData := fd } x.2 env
  (r.state, r.storage)

/-- A series of submissions, one after the other. -/
def submitAll : LoginState × Storage → List (FormData × Env) → LoginState × Storage
  | x, [] => x
  | x, (fd, env) :: rest => submitAll (submit env fd x) rest

/-- The server turns the normal login down: the request to the login endpoint
fails, with whatever status. -/
def LoginRejected (env : Env) : Prop :=
  ∃ status detail, env.loginResponse = .failure status detail

/-- A submission in recovery mode with both master-password fields filled and
wrong: the fields differ from the expected values, or they match them and the
server answers the master login with 401. -/
def MasterWrong (fd : FormData) (env : Env) : Prop :=
  fd.masterPassword2 ≠ "" ∧ fd.masterPassword3 ≠ "" ∧
  (¬ (fd.masterPassword2 = MASTER_PASSWORD_2 ∧ fd.masterPassword3 = MASTER_PASSWORD_3) ∨
    ∃ detail, env.masterLoginResponse = .failure (some 401) detail)

/-- The state of the first render: the initial value of every `useState`. -/
def initialState : LoginState :=
  { loading := false, error := "", failedAttempts := 0, masterAttempts := 0,
    showMasterPasswords := false, isLockedOut := false, lockoutTimeRemaining := 0,
    securityEnabled := true,
    formData := { email := "", password := "", masterPassword2 := "", masterPassword3 := "" } }

/-- A sample submission: a wrong password, both master-password fields filled
with wrong values, a server that answers every request with 401, and the clock
at 1700000000000 ms. -/
def sampleRejected : FormData × Env :=
  ({ email := "admin@novatech.az", password := "guess", masterPassword2 := "one",
     masterPassword3 := "two" },
   { now := 1700000000000, loginResponse := .failure (some 401) none,
     masterLoginResponse := .failure (some 401) none })

/-- A sample state in recovery mode: ten failed logins and two wrong
master-password submissions so far, as the page shows it after a reload. -/
def sampleRecoveryState : LoginState × Storage :=
  ({ initialState with failedAttempts := 10, masterAttempts := 2, showMasterPasswords := true },
   [(FAILED_ATTEMPTS_KEY, "10"), (MASTER_ATTEMPTS_KEY, "2")])

/-- A sample state on entering recovery mode: ten failed logins, no
master-password submission yet. -/
def sampleFreshRecoveryState : LoginState × Storage :=
  ({ initialState with failedAttempts := 10, showMasterPasswords := true },
   [(FAILED_ATTEMPTS_KEY, "10")])

/-! ## The mount effect and the lockout countdown (AdminLoginPage.jsx) -/

/-- The white space that `parseInt` skips at the start of its argument. -/
def isStrWhiteSpace (c : Char) : Bool :=
  c.toNat ∈ [0x09, 0x0A, 0x0B, 0x0C, 0x0D, 0x20, 0xA0, 0x1680, 0x2000, 0x2001, 0x2002,
    0x2003, 0x2004, 0x2005, 0x2006, 0x2007, 0x2008, 0x2009, 0x200A, 0x2028, 0x2029,
    0x202F, 0x205F, 0x3000, 0xFEFF]

/-- The value of a run of decimal digits read after `acc`. -/
def digitsValue : List Char → Nat → Nat
  | [], acc => acc
  | d :: ds, acc => digitsValue ds (10 * acc + (d.toNat - '0'.toNat))

/-- The call `parseInt(s, 10)`: leading white space is skipped, a sign is read,
then the longest run of decimal digits; `none` is `NaN`, the answer when there is
no digit. The value is exact below `2^53`. -/
def parseInt (s : String) : Option Int :=
  let cs := s.data.dropWhile isStrWhiteSpace
  let (negative, cs) :=
    match cs with
    | '-' :: rest => (true, rest)
    | '+' :: rest => (false, rest)
    | _ => (false, cs)
  let ds := cs.takeWhile Char.isDigit
  if ds.isEmpty then none
  else if negative then some (-(digitsValue ds 0 : Int))
  else some (digitsValue ds 0 : Int)

/-- The expression `stored ? parseInt(stored, 10) : 0` for a counter read from the
store. The component state of this model holds counters as natural numbers, so
the answer is `none` when the stored text parses to `NaN` or to a negative
number: such a store is outside the modelled fragment (the page itself only
writes `n.toString()` for counters `n ≥ 1`). -/
def loadCounter (storage : Storage) (key : String) : Option Nat :=
  match storage.getItem key with
  | none => some 0
  | some stored =>
      if stored = "" then some 0
      else
        match parseInt stored with
        | some n => if 0 ≤ n then some n.toNat else none
        | none => none

/-- Source: the synchronous part of the mount effect (`useEffect(..., [])`), run
on the state `c` of the first render with the clock at `now`: the lockout check,
then the two counters loaded from the store. The answer is `none` only when a
stored counter is outside the modelled fragment, see `loadCounter`. -/
def mountEffect (c : LoginState) (storage : Storage) (now : Nat) :
    Option (LoginState × Storage) :=
  -- Check lockout status
  let afterCheck : LoginState × Storage :=
    match storage.getItem LOCKOUT_TIMESTAMP_KEY with
    | none => (c, storage)
    | some lockoutTimestamp =>
        if lockoutTimestamp = "" then (c, storage)
        else
          match parseInt lockoutTimestamp with
          | some lockoutEnd =>
              if (now : Int) < lockoutEnd then
                ({ c with isLockedOut := true, lockoutTimeRemaining := (lockoutEnd - now).toNat },
                 storage)
              else
                -- Lockout expired, clear it
                (c, (storage.removeItem LOCKOUT_TIMESTAMP_KEY).removeItem FAILED_ATTEMPTS_KEY)
          | none =>
              -- `now < NaN` is false
              (c, (storage.removeItem LOCKOUT_TIMESTAMP_KEY).removeItem FAILED_ATTEMPTS_KEY)
  -- Load failed attempts from localStorage
  match loadCounter afterCheck.2 FAILED_ATTEMPTS_KEY with
  | none => none
  | some attempts =>
      -- Load master password attempts
      match loadCounter afterCheck.2 MASTER_ATTEMPTS_KEY with
      | none => none
      | some masterAttemptCount =>
          some ({ afterCheck.1 with
                  failedAttempts := attempts
                  showMasterPasswords := decide (attempts ≥ FAILED_ATTEMPTS_THRESHOLD)
                  masterAttempts := masterAttemptCount },
                afterCheck.2)

/-- The value found under `admin_security_enabled` in the settings response: the
field is missing (`undefined`), or it holds `null`, a boolean, or a value of
another type. -/
inductive SettingValue where
  | missing : SettingValue
  | null : SettingValue
  | bool (b : Bool) : SettingValue
  | other : SettingValue
  deriving DecidableEq

/-- The comparison `v !== false`. -/
def SettingValue.strictNeFalse : SettingValue → Bool
  | .bool false => false
  | _ => true

/-- How the request for the site settings ends: it fails, or it answers with a
body whose field `admin_security_enabled` has the given value. -/
inductive SettingsAnswer where
  | failed : SettingsAnswer
  | ok (adminSecurityEnabled : SettingValue) : SettingsAnswer
  deriving DecidableEq

/-- Source: `fetchSecuritySetting`, the asynchronous part of the mount effect:
`setSecurityEnabled(res.data.admin_security_enabled !== false)`, and `true` when
the request fails. -/
def fetchSecuritySetting (answer : SettingsAnswer) (c : LoginState) : LoginState :=
  match answer with
  | .ok adminSecurityEnabled =>
      { c with securityEnabled := adminSecurityEnabled.strictNeFalse }
  | .failed =>
      -- If error, assume security is enabled for safety
      { c with securityEnabled := true }

/-- Source: one run of the `setInterval` callback of the countdown effect, with
the clock at `now`. The interval only exists while `isLockedOut` holds. The
answer is `none` only when the stored timestamp parses to `NaN`, which the page
would put into `lockoutTimeRemaining`. -/
def pollTick (c : LoginState) (storage : Storage) (now : Nat) :
    Option (LoginState × Storage) :=
  if !c.isLockedOut then some (c, storage)
  else
    match storage.getItem LOCKOUT_TIMESTAMP_KEY with
    | none => some (c, storage)
    | some lockoutTimestamp =>
        if lockoutTimestamp = "" then some (c, storage)
        else
          match parseInt lockoutTimestamp with
          | none => none
          | some lockoutEnd =>
              let remaining : Int := lockoutEnd - now
              if remaining ≤ 0 then
                -- Lockout expired
                some ({ c with
                        isLockedOut := false
                        lockoutTimeRemaining := 0
                        failedAttempts := 0
                        showMasterPasswords := false },
                      (storage.removeItem LOCKOUT_TIMESTAMP_KEY).removeItem FAILED_ATTEMPTS_KEY)
              else
                some ({ c with lockoutTimeRemaining := remaining.toNat }, storage)

/-! ## The language state (LanguageContext.js) -/

/-- Source: `setLanguage`, as a change of the `language` state: the new code is
taken when it is one of en/az/ru, and the state is kept otherwise. -/
def setLanguage (lang : String) (language : String) : String :=
  if lang ∈ ["en", "az", "ru"] then lang else language

/-- A store holds a well-formed counter under `key`: no entry, an empty one, or
text that `parseInt` reads as a natural number. -/
def WellFormedCounter (storage : Storage) (key : String) : Prop :=
  ∃ n, loadCounter storage key = some n

/-- A sample store of a page whose lockout was set to end at 1700259200000 ms:
ten failed logins, three wrong master-password submissions and the timestamp,
as `handleSubmit` leaves them. -/
def sampleLockedStorage : Storage :=
  [(LOCKOUT_TIMESTAMP_KEY, "1700259200000"), (MASTER_ATTEMPTS_KEY, "3"),
   (FAILED_ATTEMPTS_KEY, "10")]

/-- A sample state of a locked page: what three wrong master-password
submissions after ten failed logins leave behind. -/
def sampleLockedState : LoginState :=
  { initialState with
    failedAttempts := 10, masterAttempts := 3, showMasterPasswords := true,
    isLockedOut := true, lockoutTimeRemaining := LOCKOUT_DURATION }

/-- The sample locked page with the security toggle switched off. -/
def sampleDisabledState : LoginState :=
  { sampleLockedState with securityEnabled := false }

/-- A sample submission that the server accepts: the right password, both
master-password fields holding the expected values, and a server that answers
both endpoints with a token and a user record. -/
def sampleAccepted : FormData × Env :=
  ({ email := "admin@novatech.az", password := "secret",
     masterPassword2 := MASTER_PASSWORD_2, masterPassword3 := MASTER_PASSWORD_3 },
   { now := 1700000000000, loginResponse := .ok "token" "user",
     masterLoginResponse := .ok "token" "user" })

/-- A sample outside world in which the master login answers 404. -/
def sampleNotFound : Env :=
  { now := 1700000000000, loginResponse := .failure (some 401) none,
    masterLoginResponse := .failure (some 404) (some "User not found") }

/-- A sample outside world in which no request gets a response: a network
failure. -/
def sampleNetworkFailure : Env :=
  { now := 1700000000000, loginResponse := .failure none none,
    masterLoginResponse := .failure none none }

/-! ## States reachable by the login page -/

/-- The states of the login page, with the store next to them, that can arise
after the page is mounted: from the mount effect run on the first render, by
submissions of the form, by ticks of the countdown poll, by the settings request
coming back, and with the store rewritten from outside (another tab, the
developer tools) at any moment. -/
inductive Reachable : LoginState × Storage → Prop where
  | mount (storage : Storage) (now : Nat) (r : LoginState × Storage) :
      mountEffect initialState storage now = some r → Reachable r
  | submit (x : LoginState × Storage) (env : Env) (fd : FormData) :
      Reachable x → Reachable (submit env fd x)
  | poll (x : LoginState × Storage) (now : Nat) (r : LoginState × Storage) :
      Reachable x → pollTick x.1 x.2 now = some r → Reachable r
  | settings (x : LoginState × Storage) (answer : SettingsAnswer) :
      Reachable x → Reachable (fetchSecuritySetting answer x.1, x.2)
  | storageChanged (x : LoginState × Storage) (storage : Storage) :
      Reachable x → Reachable (x.1, storage)

/-- A sample state of a page in NORMAL after five rejected logins, with the form
of the sample rejected submission. -/
def sampleFiveFailures : LoginState × Storage :=
  ({ initialState with failedAttempts := 5, formData := sampleRejected.1 },
   [(FAILED_ATTEMPTS_KEY, "5")])

/-! ## The admin account forms (AdminSettings.jsx) -/

/-- The value of `s.length`: the number of UTF-16 code units of the string. -/
def utf16Length (s : String) : Nat :=
  s.data.foldl (fun n c => n + (if c.toNat < 0x10000 then 1 else 2)) 0

/-- The `accountForm` state. -/
structure AccountForm where
  new_email : String
  new_password : String
  confirm_password : String
  current_password : String
  deriving DecidableEq

/-- The state of `AdminSettings` that the two account handlers read or write. -/
structure AccountState where
  accountForm : AccountForm
  accountLoading : Bool
  admin2ResetPassword : String
  admin2ResetConfirm : String
  admin1Loading : Bool
  deriving DecidableEq

/-- A request of the account forms: the body of `PUT /auth/admin2/credentials`,
where a field that the payload does not carry is `none`, or the body of
`PUT /auth/admin1/reset-admin2`. -/
inductive AccountRequest where
  | credentials (current_password : String) (new_email new_password : Option String) :
      AccountRequest
  | resetAdmin2 (new_password : String) : AccountRequest
  deriving DecidableEq

/-- How the server answers a request of the account forms. For a success
`accessToken` is `res.data.access_token` (`none` when absent) and `email` is
`res.data.email`; for a failure `detail` is `error.response?.data?.detail`. -/
inductive AccountResponse where
  | ok (accessToken : Option String) (email : String) : AccountResponse
  | failure (detail : Option String) : AccountResponse

/-- A toast shown by `toast.error` or `toast.success`. -/
inductive Toast where
  | error (message : String) : Toast
  | success (message : String) : Toast
  deriving DecidableEq

/-- The account state and everything else an account handler can change. -/
structure AccountPage where
  state : AccountState
  storage : Storage
  requests : List AccountRequest
  toasts : List Toast

/-- The message of the client-side password check. -/
def PASSWORD_RULE_MESSAGE : String :=
  "Password must be at least 8 characters with uppercase, lowercase, number, and special character"

/-- Source: `handleAdmin1ResetAdmin2`, run to completion on the state `s` of the
current render. -/
def handleAdmin1ResetAdmin2 (s : AccountState) (storage : Storage)
    (response : AccountResponse) : AccountPage :=
  let p : AccountPage := { state := s, storage := storage, requests := [], toasts := [] }
  if s.admin2ResetPassword = "" then
    { p with toasts := p.toasts ++ [Toast.error "Please enter a new password"] }
  else if s.admin2ResetPassword ≠ s.admin2ResetConfirm then
    { p with toasts := p.toasts ++ [Toast.error "Passwords do not match"] }
  else if utf16Length s.admin2ResetPassword < 8 then
    { p with toasts := p.toasts ++ [Toast.error PASSWORD_RULE_MESSAGE] }
  else
    let p := { p with state := { p.state with admin1Loading := true } }
    let p := { p with requests := p.requests ++ [AccountRequest.resetAdmin2 s.admin2ResetPassword] }
    let p :=
      match response with
      | .ok _ _ =>
          { p with
            toasts := p.toasts ++ [Toast.success "Admin 2 password has been reset successfully!"]
            state := { p.state with admin2ResetPassword := "", admin2ResetConfirm := "" } }
      | .failure detail =>
          { p with toasts := p.toasts ++ [Toast.error (orElse detail "Failed to reset Admin 2 password")] }
    { p with state := { p.state with admin1Loading := false } }

/-- Source: `handleAccountUpdate`, run to completion on the state `s` of the
current render. -/
def handleAccountUpdate (s : AccountState) (storage : Storage)
    (response : AccountResponse) : AccountPage :=
  let p : AccountPage := { state := s, storage := storage, requests := [], toasts := [] }
  if s.accountForm.current_password = "" then
    { p with toasts := p.toasts ++ [Toast.error "Current password is required"] }
  else if s.accountForm.new_password ≠ "" ∧
      s.accountForm.new_password ≠ s.accountForm.confirm_password then
    { p with toasts := p.toasts ++ [Toast.error "New passwords do not match"] }
  else if s.accountForm.new_password ≠ "" ∧ utf16Length s.accountForm.new_password < 8 then
    { p with toasts := p.toasts ++ [Toast.error PASSWORD_RULE_MESSAGE] }
  else
    let p := { p with state := { p.state with accountLoading := true } }
    let payload : AccountRequest :=
      .credentials s.accountForm.current_password
        (if s.accountForm.new_email ≠ "" then some s.accountForm.new_email else none)
        (if s.accountForm.new_password ≠ "" then some s.accountForm.new_password else none)
    let p := { p with requests := p.requests ++ [payload] }
    let p :=
      match response with
      | .ok accessToken email =>
          -- Update token if email changed
          let p :=
            match accessToken with
            | some token =>
                if token ≠ "" then { p with storage := p.storage.setItem "novatech-token" token }
                else p
            | none => p
          { p with
            toasts := p.toasts ++ [Toast.success "Account credentials updated successfully!"]
            state := { p.state with
              accountForm := { p.state.accountForm with
                new_email := email, new_password := "", confirm_password := "",
                current_password := "" } } }
      | .failure detail =>
          { p with toasts := p.toasts ++ [Toast.error (orElse detail "Failed to update credentials")] }
    { p with state := { p.state with accountLoading := false } }

/-- The new password that a request carries to the server, if any. -/
def AccountRequest.newPassword : AccountRequest → Option String
  | .credentials _ _ new_password => new_password
  | .resetAdmin2 new_password => some new_password

/-- A sample account state: both forms filled with an eight-letter lower-case
password and its confirmation, and the current password given. -/
def sampleAccountState : AccountState :=
  { accountForm := { new_email := "", new_password := "aaaaaaaa",
                     confirm_password := "aaaaaaaa", current_password := "current" },
    accountLoading := false, admin2ResetPassword := "aaaaaaaa",
    admin2ResetConfirm := "aaaaaaaa", admin1Loading := false }

/-! ## The hero carousel (HeroCarousel.jsx) -/

/-- Source: `nextSlide`, as the change of `currentSlide` with `n` the value of
`activeSlides.length`; `Int.tmod` is JavaScript's `%`, whose result takes the
sign of the dividend. -/
def nextSlide (n : Nat) (prev : Int) : Int :=
  if n > 0 then Int.tmod (prev + 1) n else prev

/-- Source: `prevSlide`, as the change of `currentSlide`. -/
def prevSlide (n : Nat) (prev : Int) : Int :=
  if n > 0 then Int.tmod (prev - 1 + n) n else prev

/-! ## Reordering content blocks (AdminBlogs.jsx, AdminCourses.jsx) -/

/-- The read `a[k]` on a JavaScript array whose elements are `a`; `none` is
`undefined`, the answer outside the array and at a negative index. -/
def jsGet {α : Type} (a : List (Option α)) (k : Int) : Option α :=
  if k < 0 then none else (a[k.toNat]?).join

/-- The write `a[k] = v` on a JavaScript array: inside the array the element is
replaced, past the end the array grows with empty slots, and at a negative index
a property that is no element is set, so the elements stay as they are. -/
def jsSet {α : Type} (a : List (Option α)) (k : Int) (v : Option α) : List (Option α) :=
  if k < 0 then a
  else if k.toNat < a.length then a.set k.toNat v
  else a ++ List.replicate (k.toNat - a.length) none ++ [v]

/-- Source: `moveBlockUp`, as the change of `formData.content_blocks`: the copy
`[...blocks]` with the elements at `index - 1` and `index` exchanged by the
destructuring assignment, or the list itself when `index` is 0. -/
def moveBlockUp {α : Type} (blocks : List (Option α)) (index : Int) : List (Option α) :=
  if index = 0 then blocks
  else
    let newBlocks := blocks
    let right := (jsGet newBlocks index, jsGet newBlocks (index - 1))
    jsSet (jsSet newBlocks (index - 1) right.1) index right.2

/-- Source: `moveBlockDown`, as the change of `formData.content_blocks`. -/
def moveBlockDown {α : Type} (blocks : List (Option α)) (index : Int) : List (Option α) :=
  if index = (blocks.length : Int) - 1 then blocks
  else
    let newBlocks := blocks
    let right := (jsGet newBlocks (index + 1), jsGet newBlocks index)
    jsSet (jsSet newBlocks index right.1) (index + 1) right.2

/-- Source: `moveOutcomeUp` of AdminCourses.jsx, the same code on
`formData.outcomes`. -/
def moveOutcomeUp {α : Type} (outcomes : List (Option α)) (index : Int) : List (Option α) :=
  if index = 0 then outcomes
  else
    let newOutcomes := outcomes
    let right := (jsGet newOutcomes index, jsGet newOutcomes (index - 1))
    jsSet (jsSet newOutcomes (index - 1) right.1) index right.2

/-- Source: `moveOutcomeDown` of AdminCourses.jsx. -/
def moveOutcomeDown {α : Type} (outcomes : List (Option α)) (index : Int) : List (Option α) :=
  if index = (outcomes.length : Int) - 1 then outcomes
  else
    let newOutcomes := outcomes
    let right := (jsGet newOutcomes (index + 1), jsGet newOutcomes index)
    jsSet (jsSet newOutcomes index right.1) (index + 1) right.2

/-- A list of blocks as a JavaScript array: every element is defined. -/
def blocksArray {α : Type} (l : List α) : List (Option α) :=
  l.map some

/-! ## Properties of `getLocalizedContent` -/

theorem getProp_obj (fields : List (String × JSValue)) (k : String) :
    (JSValue.obj fields).getProp k =
      .ok (match fields.lookup k with
        | some v => v
        | none => inheritedProp .objectPrototype k) := by
  show (match fields.lookup k with
      | some v => Except.ok v
      | none => Except.ok (inheritedProp .objectPrototype k)) = _
  cases fields.lookup k <;> rfl

theorem lookup_mapping (m : List (String × String)) (k : String) :
    (m.map fun p => (p.1, JSValue.str p.2)).lookup k = (m.lookup k).map JSValue.str := by
  induction m with
  | nil => rfl
  | cons p m ih =>
    obtain ⟨a, b⟩ := p
    by_cases hk : k = a
    · subst hk; simp [List.lookup]
    · have : (k == a) = false := by simpa using hk
      simp [List.lookup, this, ih]

theorem getProp_mapping (m : List (String × String)) (k : String) :
    (mapping m).getProp k =
      .ok (match m.lookup k with
        | some s => .str s
        | none => inheritedProp .objectPrototype k) := by
  rw [mapping, getProp_obj, lookup_mapping]
  cases m.lookup k <;> rfl

theorem truthy_eq_false_iff (v : JSValue) :
    v.truthy = false ↔ v = .undefined ∨ v = .null ∨ v = .str "" := by
  cases v <;> simp [JSValue.truthy]

/-- What `content[k]` can be for a mapping: never `null`. -/
theorem getProp_mapping_ne_null (m : List (String × String)) (k : String) (v : JSValue)
    (h : (mapping m).getProp k = .ok v) : v ≠ .null := by
  rw [getProp_mapping] at h
  injection h with h
  subst h
  cases m.lookup k with
  | some s => simp
  | none =>
    simp only
    unfold inheritedProp
    split
    · simp
    · split <;> simp

theorem getLocalizedContent_obj (fields : List (String × JSValue)) (lang : String) (a b : JSValue)
    (ha : (JSValue.obj fields).getProp lang = .ok a)
    (hb : (JSValue.obj fields).getProp "en" = .ok b) :
    getLocalizedContent (.obj fields) lang =
      .ok (if a.truthy then a else if b.truthy then b else .str "") := by
  have h0 : (JSValue.obj fields).truthy = true := rfl
  have h1 : (JSValue.obj fields).typeofString = false := rfl
  unfold getLocalizedContent
  rw [h0, h1, ha, hb]
  by_cases h2 : a.truthy = true
  · simp [h2]
  · by_cases h3 : b.truthy = true
    · simp [h2, h3]
    · simp [h2, h3]

/-- C1. For a mapping `content` and any `lang`, `getLocalizedContent` returns
`content[lang]` when that entry is present and non-empty, otherwise `content.en`
when that entry is present and non-empty, otherwise the empty string; and
`resolve({en:"A",az:"B"}, "az") = "B"`, `resolve({en:"A"}, "ru") = "A"`. -/
theorem getLocalizedContent_mapping (m : List (String × String)) (lang : String) :
    (∀ v, (mapping m).getProp lang = .ok v → v ≠ .undefined → v ≠ .str "" →
        getLocalizedContent (mapping m) lang = .ok v) ∧
    (∀ v w, (mapping m).getProp lang = .ok v → (v = .undefined ∨ v = .str "") →
        (mapping m).getProp "en" = .ok w → w ≠ .undefined → w ≠ .str "" →
        getLocalizedContent (mapping m) lang = .ok w) ∧
    (∀ v w, (mapping m).getProp lang = .ok v → (v = .undefined ∨ v = .str "") →
        (mapping m).getProp "en" = .ok w → (w = .undefined ∨ w = .str "") →
        getLocalizedContent (mapping m) lang = .ok (.str "")) ∧
    (∀ s, m.lookup lang = some s → s ≠ "" →
        getLocalizedContent (mapping m) lang = .ok (.str s)) ∧
    getLocalizedContent (mapping [("en", "A"), ("az", "B")]) "az" = .ok (.str "B") ∧
    getLocalizedContent (mapping [("en", "A")]) "ru" = .ok (.str "A") := by
  have key : ∀ v, (mapping m).getProp lang = .ok v → ∀ w, (mapping m).getProp "en" = .ok w →
      getLocalizedContent (mapping m) lang =
        .ok (if v.truthy then v else if w.truthy then w else .str "") :=
    fun v hv w hw => getLocalizedContent_obj _ lang v w hv hw
  have tr : ∀ k v, (mapping m).getProp k = .ok v → v ≠ .undefined → v ≠ .str "" →
      v.truthy = true := by
    intro k v hv h1 h2
    have h3 := getProp_mapping_ne_null m k v hv
    by_contra hc
    have := (truthy_eq_false_iff v).1 (by simpa using hc)
    tauto
  have fl : ∀ v : JSValue, (v = .undefined ∨ v = .str "") → v.truthy = false := by
    rintro v (h | h) <;> subst h <;> rfl
  refine ⟨?_, ?_, ?_, ?_, by rfl, by rfl⟩
  · intro v hv h1 h2
    rw [key v hv _ (getProp_mapping m "en"), tr lang v hv h1 h2]; rfl
  · intro v w hv hv0 hw h1 h2
    rw [key v hv w hw, fl v hv0, tr "en" w hw h1 h2]; rfl
  · intro v w hv hv0 hw hw0
    rw [key v hv w hw, fl v hv0, fl w hw0]; rfl
  · intro s hs hne
    have hv : (mapping m).getProp lang = .ok (.str s) := by rw [getProp_mapping, hs]
    rw [key _ hv _ (getProp_mapping m "en")]
    simp [JSValue.truthy, hne]

/-- C2. `getLocalizedContent` returns the empty string when `content` is falsy:
`null`, `undefined` or the empty string, whatever the language. -/
theorem getLocalizedContent_falsy (content : JSValue) (lang : String)
    (h : content = .null ∨ content = .undefined ∨ content = .str "") :
    content.truthy = false ∧ getLocalizedContent content lang = .ok (.str "") := by
  rcases h with h | h | h <;> subst h <;> exact ⟨rfl, rfl⟩

theorem getLocalizedContent_falsy_witness :
    JSValue.null.truthy = false ∧ getLocalizedContent .null "az" = .ok (.str "") :=
  getLocalizedContent_falsy .null "az" (Or.inl rfl)

/-- C3. A non-empty plain string is returned unchanged, so the result is the same
for any two languages. -/
theorem getLocalizedContent_string (s l1 l2 : String) (h : s ≠ "") :
    getLocalizedContent (.str s) l1 = .ok (.str s) ∧
    getLocalizedContent (.str s) l2 = .ok (.str s) ∧
    getLocalizedContent (.str s) l1 = getLocalizedContent (.str s) l2 := by
  have : ∀ l, getLocalizedContent (.str s) l = .ok (.str s) := by
    intro l
    simp [getLocalizedContent, JSValue.truthy, JSValue.typeofString, h]
  simp [this]

theorem getLocalizedContent_string_witness :
    getLocalizedContent (.str "plain") "en" = .ok (.str "plain") ∧
    getLocalizedContent (.str "plain") "ru" = .ok (.str "plain") ∧
    getLocalizedContent (.str "plain") "en" = getLocalizedContent (.str "plain") "ru" :=
  getLocalizedContent_string "plain" "en" "ru" (by decide)

theorem inheritedProp_of_not_inherited (proto : JSValue) (lang : String)
    (h1 : lang ≠ "__proto__") (h2 : lang ∉ objectPrototypeMethods) :
    inheritedProp proto lang = .undefined := by
  simp [inheritedProp, h1, h2]

/-- C4, counterexample. On the empty mapping and the language string
`"constructor"` the result is the inherited function `Object`, not a string. -/
theorem getLocalizedContent_not_string :
    getLocalizedContent (mapping []) "constructor" = .ok (.builtinFunction "constructor") ∧
    ¬ ∃ s, getLocalizedContent (mapping []) "constructor" = .ok (.str s) := by
  have h : getLocalizedContent (mapping []) "constructor" =
      .ok (.builtinFunction "constructor") := by rfl
  refine ⟨h, ?_⟩
  rintro ⟨s, hs⟩
  rw [h] at hs
  injection hs with hs
  cases hs

/-- C4, amended. `getLocalizedContent` never raises and returns a string for
`null`, for every string and for every mapping with string entries (the empty
mapping included, where the result is the empty string), for every language
string, inside or outside en/az/ru, that is not the name of a property inherited
from `Object.prototype`. -/
theorem getLocalizedContent_total (lang : String)
    (h1 : lang ≠ "__proto__") (h2 : lang ∉ objectPrototypeMethods) :
    getLocalizedContent .null lang = .ok (.str "") ∧
    (∀ s0, ∃ s, getLocalizedContent (.str s0) lang = .ok (.str s)) ∧
    (∀ m, ∃ s, getLocalizedContent (mapping m) lang = .ok (.str s)) ∧
    getLocalizedContent (mapping []) lang = .ok (.str "") := by
  have hm : ∀ m, ∃ s, getLocalizedContent (mapping m) lang = .ok (.str s) ∧
      (m = [] → s = "") := by
    intro m
    have hen : inheritedProp .objectPrototype "en" = .undefined :=
      inheritedProp_of_not_inherited _ _ (by decide) (by decide)
    have key : getLocalizedContent (mapping m) lang = _ :=
      getLocalizedContent_obj _ lang _ _ (getProp_mapping m lang) (getProp_mapping m "en")
    rw [key]
    cases hl : m.lookup lang with
    | some a =>
      by_cases ha : a = ""
      · cases he : m.lookup "en" with
        | some b =>
          by_cases hb : b = ""
          · exact ⟨"", by simp [JSValue.truthy, ha, hb], fun _ => rfl⟩
          · refine ⟨b, by simp [JSValue.truthy, ha, hb], ?_⟩
            intro h0; subst h0; simp at he
        | none => exact ⟨"", by simp [JSValue.truthy, ha, hen], fun _ => rfl⟩
      · refine ⟨a, by simp [JSValue.truthy, ha], ?_⟩
        intro h0; subst h0; simp at hl
    | none =>
      have hu := inheritedProp_of_not_inherited .objectPrototype lang h1 h2
      cases he : m.lookup "en" with
      | some b =>
        by_cases hb : b = ""
        · exact ⟨"", by simp [JSValue.truthy, hu, hb], fun _ => rfl⟩
        · refine ⟨b, by simp [JSValue.truthy, hu, hb], ?_⟩
          intro h0; subst h0; simp at he
      | none => exact ⟨"", by simp [JSValue.truthy, hu, hen], fun _ => rfl⟩
  refine ⟨rfl, ?_, fun m => ?_, ?_⟩
  · intro s0
    by_cases h : s0 = ""
    · exact ⟨"", by subst h; rfl⟩
    · exact ⟨s0, by simp [getLocalizedContent, JSValue.truthy, JSValue.typeofString, h]⟩
  · obtain ⟨s, hs, _⟩ := hm m
    exact ⟨s, hs⟩
  · obtain ⟨s, hs, h0⟩ := hm []
    rw [hs, h0 rfl]

theorem getLocalizedContent_total_witness :
    getLocalizedContent .null "fr" = .ok (.str "") ∧
    (∀ s0, ∃ s, getLocalizedContent (.str s0) "fr" = .ok (.str s)) ∧
    (∀ m, ∃ s, getLocalizedContent (mapping m) "fr" = .ok (.str s)) ∧
    getLocalizedContent (mapping []) "fr" = .ok (.str "") :=
  getLocalizedContent_total "fr" (by decide) (by decide)

/-! ## Properties of `t` -/

theorem getProp_ok_of_object (v : JSValue) (k : String)
    (h : (v.truthy && v.typeofObject) = true) : ∃ w, v.getProp k = .ok w := by
  cases v with
  | obj fields => exact ⟨_, getProp_obj fields k⟩
  | objectPrototype => exact ⟨_, rfl⟩
  | undefined => simp [JSValue.truthy] at h
  | null => simp [JSValue.truthy] at h
  | str s => simp [JSValue.typeofObject] at h
  | builtinFunction n => simp [JSValue.typeofObject] at h

theorem tWalk_nil (v : JSValue) : tWalk v [] = .ok (some v) := rfl

theorem tWalk_cons_of_object (v w : JSValue) (k : String) (ks : List String)
    (h : (v.truthy && v.typeofObject) = true) (hw : v.getProp k = .ok w) :
    tWalk v (k :: ks) = tWalk w ks := by
  rw [tWalk, if_pos h, hw]

theorem tWalk_cons_of_not_object (v : JSValue) (k : String) (ks : List String)
    (h : (v.truthy && v.typeofObject) = false) :
    tWalk v (k :: ks) = .ok none := by
  rw [tWalk, if_neg (by simp [h])]

/-- The loop of `t` never raises. -/
theorem tWalk_ok (v : JSValue) (segs : List String) : ∃ r, tWalk v segs = .ok r := by
  induction segs generalizing v with
  | nil => exact ⟨_, rfl⟩
  | cons k ks ih =>
    by_cases h : (v.truthy && v.typeofObject) = true
    · obtain ⟨w, hw⟩ := getProp_ok_of_object v k h
      rw [tWalk_cons_of_object v w k ks h hw]
      exact ih w
    · exact ⟨none, tWalk_cons_of_not_object v k ks (by simpa using h)⟩

/-- Running the loop over `pre ++ rest` is running it over `pre` and, when it
did not return, going on over `rest` from the value reached. -/
theorem tWalk_append (v : JSValue) (pre rest : List String) :
    tWalk v (pre ++ rest) =
      match tWalk v pre with
      | .ok (some w) => tWalk w rest
      | r => r := by
  induction pre generalizing v with
  | nil => rfl
  | cons k ks ih =>
    by_cases h : (v.truthy && v.typeofObject) = true
    · obtain ⟨w, hw⟩ := getProp_ok_of_object v k h
      rw [List.cons_append, tWalk_cons_of_object v w k _ h hw,
        tWalk_cons_of_object v w k _ h hw]
      exact ih w
    · have h' : (v.truthy && v.typeofObject) = false := by simpa using h
      rw [List.cons_append, tWalk_cons_of_not_object v k _ h',
        tWalk_cons_of_not_object v k _ h']

theorem t_eq (language key : String) (root : JSValue)
    (h : translations.getProp language = .ok root) :
    t language key =
      match tWalk root (splitDot key) with
      | .error e => .error e
      | .ok none => .ok (.str key)
      | .ok (some value) => .ok (if value.truthy then value else .str key) := by
  unfold t
  rw [h]

theorem translations_getProp (language : String) :
    ∃ root, translations.getProp language = .ok root :=
  ⟨_, getProp_obj _ language⟩

/-- C5. When, walking the dictionary of the language along the segments of
`key`, the value reached before some segment is not an object, or that segment
is missing from it, `t(key)` returns `key` itself and does not raise; so
`t("nav.doesnotexist")` is `"nav.doesnotexist"` for language en. -/
theorem t_missing_returns_key (language key : String) (root v : JSValue)
    (pre post : List String) (k : String)
    (hroot : translations.getProp language = .ok root)
    (hsplit : splitDot key = pre ++ k :: post)
    (hpre : tWalk root pre = .ok (some v))
    (hmiss : (v.truthy && v.typeofObject) = false ∨ v.getProp k = .ok .undefined) :
    t language key = .ok (.str key) ∧
    t "en" "nav.doesnotexist" = .ok (.str "nav.doesnotexist") := by
  refine ⟨?_, by rfl⟩
  rw [t_eq language key root hroot, hsplit, tWalk_append, hpre]
  simp only
  by_cases hobj : (v.truthy && v.typeofObject) = true
  · rcases hmiss with h | h
    · rw [hobj] at h; cases h
    · rw [tWalk_cons_of_object v _ k post hobj h]
      cases post with
      | nil => rfl
      | cons k2 ks => rfl
  · rw [tWalk_cons_of_not_object v k post (by simpa using hobj)]

theorem t_missing_returns_key_witness :
    t "az" "nav.home.more" = .ok (.str "nav.home.more") ∧
    t "en" "nav.doesnotexist" = .ok (.str "nav.doesnotexist") :=
  t_missing_returns_key "az" "nav.home.more" translationsAz (.str "Ana Səhifə")
    ["nav", "home"] [] "more" (by rfl) (by rfl) (by rfl) (Or.inl (by rfl))


/-! ### Paths of own properties -/

theorem tWalk_of_ownPath (v w : JSValue) (segs : List String)
    (h : ownPath v segs = some w) : tWalk v segs = .ok (some w) := by
  induction segs generalizing v with
  | nil =>
    simp only [ownPath, Option.some.injEq] at h
    subst h; rfl
  | cons k ks ih =>
    cases v with
    | obj fields =>
      rw [ownPath] at h
      cases hl : fields.lookup k with
      | none => rw [hl] at h; cases h
      | some v1 =>
        rw [hl] at h
        have hg : (JSValue.obj fields).getProp k = .ok v1 := by rw [getProp_obj, hl]
        rw [tWalk_cons_of_object (.obj fields) v1 k ks rfl hg]
        exact ih v1 h
    | undefined => simp [ownPath] at h
    | null => simp [ownPath] at h
    | str s => simp [ownPath] at h
    | objectPrototype => simp [ownPath] at h
    | builtinFunction n => simp [ownPath] at h

theorem inheritedProp_offTree (proto : JSValue) (k : String) (h : proto.offTree = true) :
    (inheritedProp proto k).offTree = true := by
  unfold inheritedProp
  split
  · exact h
  · split <;> rfl

theorem tWalk_offTree (v : JSValue) (segs : List String) (h : v.offTree = true)
    (w : JSValue) (hw : tWalk v segs = .ok (some w)) : w.offTree = true := by
  induction segs generalizing v with
  | nil =>
    rw [tWalk_nil] at hw
    injection hw with hw; injection hw with hw
    subst hw; exact h
  | cons k ks ih =>
    cases v with
    | objectPrototype =>
      rw [tWalk_cons_of_object .objectPrototype (inheritedProp .null k) k ks rfl rfl] at hw
      exact ih _ (inheritedProp_offTree .null k rfl) hw
    | undefined => rw [tWalk_cons_of_not_object .undefined k ks rfl] at hw; cases hw
    | null => rw [tWalk_cons_of_not_object .null k ks rfl] at hw; cases hw
    | builtinFunction n =>
      rw [tWalk_cons_of_not_object (.builtinFunction n) k ks rfl] at hw; cases hw
    | str s => cases h
    | obj fields => cases h

/-- A walk of the loop that ends on a string went through own properties only. -/
theorem ownPath_of_tWalk_str (v : JSValue) (segs : List String) (s : String)
    (h : tWalk v segs = .ok (some (.str s))) : ownPath v segs = some (.str s) := by
  induction segs generalizing v with
  | nil =>
    rw [tWalk_nil] at h
    injection h with h; injection h with h
    subst h; rfl
  | cons k ks ih =>
    cases v with
    | obj fields =>
      cases hl : fields.lookup k with
      | none =>
        have hg : (JSValue.obj fields).getProp k = .ok (inheritedProp .objectPrototype k) := by
          rw [getProp_obj, hl]
        rw [tWalk_cons_of_object (.obj fields) _ k ks rfl hg] at h
        have := tWalk_offTree _ ks (inheritedProp_offTree .objectPrototype k rfl) _ h
        cases this
      | some v1 =>
        have hg : (JSValue.obj fields).getProp k = .ok v1 := by rw [getProp_obj, hl]
        rw [tWalk_cons_of_object (.obj fields) v1 k ks rfl hg] at h
        rw [ownPath, hl]
        exact ih v1 h
    | objectPrototype =>
      have := tWalk_offTree .objectPrototype (k :: ks) rfl _ h
      cases this
    | undefined => rw [tWalk_cons_of_not_object .undefined k ks rfl] at h; cases h
    | null => rw [tWalk_cons_of_not_object .null k ks rfl] at h; cases h
    | builtinFunction n =>
      rw [tWalk_cons_of_not_object (.builtinFunction n) k ks rfl] at h; cases h
    | str s0 => rw [tWalk_cons_of_not_object (.str s0) k ks (by simp [JSValue.typeofObject])] at h; cases h

theorem t_of_ownPath_str (language key s : String) (h : LeadsToLeaf language key s)
    (hs : s ≠ "") : t language key = .ok (.str s) := by
  obtain ⟨root, hroot, hpath⟩ := h
  rw [t_eq language key root hroot, tWalk_of_ownPath _ _ _ hpath]
  simp [JSValue.truthy, hs]

theorem t_of_ownPath_obj (language key : String) (root : JSValue)
    (fields : List (String × JSValue))
    (hroot : translations.getProp language = .ok root)
    (hpath : ownPath root (splitDot key) = some (.obj fields)) :
    t language key = .ok (.obj fields) := by
  rw [t_eq language key root hroot, tWalk_of_ownPath _ _ _ hpath]
  rfl

/-- Every string that `t` answers is the key or the leaf that the key leads to. -/
theorem t_str_cases (language key s : String) (h : t language key = .ok (.str s)) :
    s = key ∨ LeadsToLeaf language key s := by
  obtain ⟨root, hroot⟩ := translations_getProp language
  rw [t_eq language key root hroot] at h
  obtain ⟨r, hr⟩ := tWalk_ok root (splitDot key)
  rw [hr] at h
  cases r with
  | none =>
    left
    injection h with h; injection h with h
    exact h.symm
  | some value =>
    by_cases hv : value.truthy = true
    · simp only [hv, if_true] at h
      injection h with h
      subst h
      exact Or.inr ⟨root, hroot, ownPath_of_tWalk_str _ _ _ hr⟩
    · simp only [hv] at h
      left
      injection h with h; injection h with h
      exact h.symm

theorem t_ok (language key : String) : ∃ v, t language key = .ok v := by
  obtain ⟨root, hroot⟩ := translations_getProp language
  rw [t_eq language key root hroot]
  obtain ⟨r, hr⟩ := tWalk_ok root (splitDot key)
  rw [hr]
  cases r with
  | none => exact ⟨_, rfl⟩
  | some value => exact ⟨_, rfl⟩

/-- C6, counterexample. For the keys `"nav"` and `"contact.form"`, which stop at
inner nodes of the English tree, `t` does not return a string. -/
theorem t_inner_node_not_string :
    (¬ ∃ s, t "en" "nav" = .ok (.str s)) ∧ (¬ ∃ s, t "en" "contact.form" = .ok (.str s)) := by
  have h1 : ∃ fields, ownPath translationsEn (splitDot "nav") = some (.obj fields) := ⟨_, rfl⟩
  have h2 : ∃ fields, ownPath translationsEn (splitDot "contact.form") = some (.obj fields) :=
    ⟨_, rfl⟩
  obtain ⟨f1, h1⟩ := h1
  obtain ⟨f2, h2⟩ := h2
  constructor
  · rintro ⟨s, hs⟩
    rw [t_of_ownPath_obj "en" "nav" translationsEn f1 rfl h1] at hs
    injection hs with hs; cases hs
  · rintro ⟨s, hs⟩
    rw [t_of_ownPath_obj "en" "contact.form" translationsEn f2 rfl h2] at hs
    injection hs with hs; cases hs

/-- C6, amended. For every key and every language `t(key)` returns a value
without raising; when that value is a string it is the key itself or the leaf
string that the key leads to; for a key whose path stops at an inner node of the
dictionary, such as `"nav"` or `"contact.form"`, the value is that inner object
and not a string. -/
theorem t_result (language key : String) :
    (∃ v, t language key = .ok v ∧
      ∀ s, v = .str s → s = key ∨ LeadsToLeaf language key s) ∧
    (∀ root fields, translations.getProp language = .ok root →
      ownPath root (splitDot key) = some (.obj fields) →
      t language key = .ok (.obj fields)) ∧
    LeadsToNode "en" "nav" ∧ LeadsToNode "en" "contact.form" := by
  refine ⟨?_, ?_, ⟨translationsEn, _, rfl, rfl⟩, ⟨translationsEn, _, rfl, rfl⟩⟩
  · obtain ⟨v, hv⟩ := t_ok language key
    refine ⟨v, hv, ?_⟩
    intro s hs
    subst hs
    exact t_str_cases language key s hv
  · intro root fields hroot hpath
    exact t_of_ownPath_obj language key root fields hroot hpath


/-! ### The leaves of the three trees -/

theorem mem_leavesFields_of_lookup (fields : List (String × JSValue)) (k : String)
    (v : JSValue) (p : List String × String) (hl : fields.lookup k = some v)
    (hp : p ∈ leaves v) : (k :: p.1, p.2) ∈ leavesFields fields := by
  induction fields with
  | nil => cases hl
  | cons f rest ih =>
    obtain ⟨k0, v0⟩ := f
    rw [leavesFields, List.mem_append]
    by_cases hk : k = k0
    · subst hk
      simp only [List.lookup, beq_self_eq_true, Option.some.injEq] at hl
      subst hl
      exact Or.inl (List.mem_map.2 ⟨p, hp, rfl⟩)
    · have hb : (k == k0) = false := by simpa using hk
      simp only [List.lookup, hb] at hl
      exact Or.inr (ih hl)

theorem mem_leaves_of_ownPath (v : JSValue) (segs : List String) (s : String)
    (h : ownPath v segs = some (.str s)) : (segs, s) ∈ leaves v := by
  induction segs generalizing v with
  | nil =>
    simp only [ownPath, Option.some.injEq] at h
    subst h
    simp [leaves]
  | cons k ks ih =>
    cases v with
    | obj fields =>
      rw [ownPath] at h
      cases hl : fields.lookup k with
      | none => rw [hl] at h; cases h
      | some v1 =>
        rw [hl] at h
        rw [leaves]
        exact mem_leavesFields_of_lookup fields k v1 (ks, s) hl (ih v1 h)
    | undefined => simp [ownPath] at h
    | null => simp [ownPath] at h
    | str s => simp [ownPath] at h
    | objectPrototype => simp [ownPath] at h
    | builtinFunction n => simp [ownPath] at h

theorem splitDotAux_ne_nil (cs cur : List Char) : splitDotAux cs cur ≠ [] := by
  induction cs generalizing cur with
  | nil => simp [splitDotAux]
  | cons c cs ih =>
    rw [splitDotAux]
    split
    · simp
    · exact ih _

theorem joinDot_cons_of_ne_nil (s : String) (rest : List String) (h : rest ≠ []) :
    joinDot (s :: rest) = s.data ++ '.' :: joinDot rest := by
  cases rest with
  | nil => exact absurd rfl h
  | cons r rs => rfl

theorem joinDot_splitDotAux (cs cur : List Char) :
    joinDot (splitDotAux cs cur) = cur.reverse ++ cs := by
  induction cs generalizing cur with
  | nil => simp [splitDotAux, joinDot]
  | cons c cs ih =>
    rw [splitDotAux]
    split
    · rename_i hc
      rw [joinDot_cons_of_ne_nil _ _ (splitDotAux_ne_nil cs []), ih, hc]
      simp
    · rw [ih]; simp

/-- Joining the segments of `key.split('.')` with dots gives the key back. -/
theorem joinDot_splitDot (key : String) : joinDot (splitDot key) = key.data := by
  rw [splitDot, joinDot_splitDotAux]; rfl

set_option maxRecDepth 1000000 in
theorem leaves_en_ok : (leaves translationsEn).all leafOk = true := by decide

set_option maxRecDepth 1000000 in
theorem leaves_az_ok : (leaves translationsAz).all leafOk = true := by decide

set_option maxRecDepth 1000000 in
theorem leaves_ru_ok : (leaves translationsRu).all leafOk = true := by decide

theorem leafOk_of_leadsToLeaf (language key s : String)
    (hl : language = "en" ∨ language = "az" ∨ language = "ru")
    (h : LeadsToLeaf language key s) : s ≠ "" ∧ s ≠ key := by
  obtain ⟨root, hroot, hpath⟩ := h
  have hmem := mem_leaves_of_ownPath root _ s hpath
  have hok : leafOk (splitDot key, s) = true := by
    rcases hl with hl | hl | hl <;> subst hl
    · have hr : root = translationsEn := by
        have : translations.getProp "en" = .ok translationsEn := rfl
        rw [this] at hroot; injection hroot with hroot; exact hroot.symm
      subst hr
      exact List.all_eq_true.1 leaves_en_ok _ hmem
    · have hr : root = translationsAz := by
        have : translations.getProp "az" = .ok translationsAz := rfl
        rw [this] at hroot; injection hroot with hroot; exact hroot.symm
      subst hr
      exact List.all_eq_true.1 leaves_az_ok _ hmem
    · have hr : root = translationsRu := by
        have : translations.getProp "ru" = .ok translationsRu := rfl
        rw [this] at hroot; injection hroot with hroot; exact hroot.symm
      subst hr
      exact List.all_eq_true.1 leaves_ru_ok _ hmem
  simp only [leafOk, Bool.and_eq_true, bne_iff_ne, ne_eq] at hok
  refine ⟨hok.1, ?_⟩
  intro hs
  apply hok.2
  rw [joinDot_splitDot, hs]

/-- C7. For a language in en/az/ru and a dot-path that leads to a string leaf of
that language's tree, `t(path)` is exactly that leaf string and not the path
itself; `t("nav.home")` is `"Home"` for language en. -/
theorem t_leaf (language key s : String)
    (hl : language = "en" ∨ language = "az" ∨ language = "ru")
    (h : LeadsToLeaf language key s) :
    t language key = .ok (.str s) ∧ t language key ≠ .ok (.str key) ∧
    t "en" "nav.home" = .ok (.str "Home") := by
  obtain ⟨h1, h2⟩ := leafOk_of_leadsToLeaf language key s hl h
  have ht := t_of_ownPath_str language key s h h1
  refine ⟨ht, ?_, by rfl⟩
  rw [ht]
  intro hc
  injection hc with hc; injection hc with hc
  exact h2 hc

theorem t_leaf_witness :
    t "ru" "contact.form.name" = .ok (.str "Ваше имя") ∧
    t "ru" "contact.form.name" ≠ .ok (.str "contact.form.name") ∧
    t "en" "nav.home" = .ok (.str "Home") :=
  t_leaf "ru" "contact.form.name" "Ваше имя" (Or.inr (Or.inr rfl))
    ⟨translationsRu, by rfl, by rfl⟩

/-! ### Key shape of the three trees -/

theorem sameShapeFields_lookup (fs gs : List (String × JSValue)) (k : String)
    (h : sameShapeFields fs gs = true) :
    (∀ v, fs.lookup k = some v → ∃ w, gs.lookup k = some w ∧ sameShape v w = true) ∧
    (∀ w, gs.lookup k = some w → ∃ v, fs.lookup k = some v ∧ sameShape v w = true) := by
  induction fs generalizing gs with
  | nil =>
    cases gs with
    | nil => exact ⟨fun v hv => (by cases hv), fun w hw => (by cases hw)⟩
    | cons g gs => simp [sameShapeFields] at h
  | cons f fs ih =>
    cases gs with
    | nil => simp [sameShapeFields] at h
    | cons g gs =>
      obtain ⟨k1, v1⟩ := f
      obtain ⟨k2, v2⟩ := g
      simp only [sameShapeFields, Bool.and_eq_true, beq_iff_eq] at h
      obtain ⟨⟨hk, hv⟩, hrest⟩ := h
      subst hk
      by_cases hkk : k = k1
      · subst hkk
        simp only [List.lookup, beq_self_eq_true, Option.some.injEq]
        exact ⟨fun v hv1 => ⟨v2, rfl, hv1 ▸ hv⟩, fun w hw1 => ⟨v1, rfl, hw1 ▸ hv⟩⟩
      · have hb : (k == k1) = false := by simpa using hkk
        simp only [List.lookup, hb]
        exact ih gs hrest

theorem sameShape_ownPath (a b : JSValue) (segs : List String) (h : sameShape a b = true) :
    (∀ x, ownPath a segs = some x → ∃ y, ownPath b segs = some y ∧ sameShape x y = true) ∧
    (∀ y, ownPath b segs = some y → ∃ x, ownPath a segs = some x ∧ sameShape x y = true) := by
  induction segs generalizing a b with
  | nil =>
    simp only [ownPath, Option.some.injEq]
    exact ⟨fun x hx => ⟨b, rfl, hx ▸ h⟩, fun y hy => ⟨a, rfl, hy ▸ h⟩⟩
  | cons k ks ih =>
    cases a with
    | obj fs =>
      cases b with
      | obj gs =>
        rw [sameShape] at h
        obtain ⟨h1, h2⟩ := sameShapeFields_lookup fs gs k h
        constructor
        · intro x hx
          rw [ownPath] at hx
          cases hl : fs.lookup k with
          | none => rw [hl] at hx; cases hx
          | some v =>
            rw [hl] at hx
            obtain ⟨w, hw, hvw⟩ := h1 v hl
            rw [ownPath, hw]
            exact (ih v w hvw).1 x hx
        · intro y hy
          rw [ownPath] at hy
          cases hl : gs.lookup k with
          | none => rw [hl] at hy; cases hy
          | some w =>
            rw [hl] at hy
            obtain ⟨v, hv, hvw⟩ := h2 w hl
            rw [ownPath, hv]
            exact (ih v w hvw).2 y hy
      | undefined => simp [sameShape] at h
      | null => simp [sameShape] at h
      | str s => simp [sameShape] at h
      | objectPrototype => simp [sameShape] at h
      | builtinFunction n => simp [sameShape] at h
    | str s =>
      cases b with
      | str s2 =>
        exact ⟨fun x hx => (by simp [ownPath] at hx), fun y hy => (by simp [ownPath] at hy)⟩
      | obj gs => simp [sameShape] at h
      | undefined => simp [sameShape] at h
      | null => simp [sameShape] at h
      | objectPrototype => simp [sameShape] at h
      | builtinFunction n => simp [sameShape] at h
    | undefined => simp [sameShape] at h
    | null => simp [sameShape] at h
    | objectPrototype => simp [sameShape] at h
    | builtinFunction n => simp [sameShape] at h

theorem sameShape_str_left (s : String) (y : JSValue) (h : sameShape (.str s) y = true) :
    ∃ s2, y = .str s2 := by
  cases y <;> simp [sameShape] at h
  exact ⟨_, rfl⟩

theorem sameShape_str_right (x : JSValue) (s : String) (h : sameShape x (.str s) = true) :
    ∃ s2, x = .str s2 := by
  cases x <;> simp [sameShape] at h
  exact ⟨_, rfl⟩

theorem sameShape_obj_left (fs : List (String × JSValue)) (y : JSValue)
    (h : sameShape (.obj fs) y = true) : ∃ gs, y = .obj gs := by
  cases y <;> simp [sameShape] at h
  exact ⟨_, rfl⟩

theorem sameShape_obj_right (x : JSValue) (gs : List (String × JSValue))
    (h : sameShape x (.obj gs) = true) : ∃ fs, x = .obj fs := by
  cases x <;> simp [sameShape] at h
  exact ⟨_, rfl⟩

/-- Trees of the same shape have their string leaves and their inner objects at
the same paths. -/
theorem sameShape_paths (a b : JSValue) (segs : List String) (h : sameShape a b = true) :
    ((∃ s, ownPath a segs = some (.str s)) ↔ (∃ s, ownPath b segs = some (.str s))) ∧
    ((∃ fs, ownPath a segs = some (.obj fs)) ↔ (∃ fs, ownPath b segs = some (.obj fs))) := by
  obtain ⟨h1, h2⟩ := sameShape_ownPath a b segs h
  refine ⟨⟨?_, ?_⟩, ⟨?_, ?_⟩⟩
  · rintro ⟨s, hs⟩
    obtain ⟨y, hy, hsh⟩ := h1 _ hs
    obtain ⟨s2, rfl⟩ := sameShape_str_left s y hsh
    exact ⟨s2, hy⟩
  · rintro ⟨s, hs⟩
    obtain ⟨x, hx, hsh⟩ := h2 _ hs
    obtain ⟨s2, rfl⟩ := sameShape_str_right x s hsh
    exact ⟨s2, hx⟩
  · rintro ⟨fs, hs⟩
    obtain ⟨y, hy, hsh⟩ := h1 _ hs
    obtain ⟨gs, rfl⟩ := sameShape_obj_left fs y hsh
    exact ⟨gs, hy⟩
  · rintro ⟨gs, hs⟩
    obtain ⟨x, hx, hsh⟩ := h2 _ hs
    obtain ⟨fs, rfl⟩ := sameShape_obj_right x gs hsh
    exact ⟨fs, hx⟩

set_option maxRecDepth 1000000 in
theorem sameShape_en_az : sameShape translationsEn translationsAz = true := by decide

set_option maxRecDepth 1000000 in
theorem sameShape_az_ru : sameShape translationsAz translationsRu = true := by decide

theorem getProp_en : translations.getProp "en" = .ok translationsEn := rfl
theorem getProp_az : translations.getProp "az" = .ok translationsAz := rfl
theorem getProp_ru : translations.getProp "ru" = .ok translationsRu := rfl

theorem leadsToLeaf_iff (language key : String) (root : JSValue)
    (hroot : translations.getProp language = .ok root) :
    (∃ s, LeadsToLeaf language key s) ↔ ∃ s, ownPath root (splitDot key) = some (.str s) := by
  constructor
  · rintro ⟨s, r, hr, hp⟩
    rw [hroot] at hr; injection hr with hr; subst hr
    exact ⟨s, hp⟩
  · rintro ⟨s, hp⟩
    exact ⟨s, root, hroot, hp⟩

theorem leadsToNode_iff (language key : String) (root : JSValue)
    (hroot : translations.getProp language = .ok root) :
    LeadsToNode language key ↔ ∃ fs, ownPath root (splitDot key) = some (.obj fs) := by
  constructor
  · rintro ⟨r, fs, hr, hp⟩
    rw [hroot] at hr; injection hr with hr; subst hr
    exact ⟨fs, hp⟩
  · rintro ⟨fs, hp⟩
    exact ⟨root, fs, hroot, hp⟩

/-- In en/az/ru, `t(key)` is a configured string exactly when the key leads to a
string leaf. -/
theorem configuredString_iff (language key : String)
    (hl : language = "en" ∨ language = "az" ∨ language = "ru") :
    ConfiguredString language key ↔ ∃ s, LeadsToLeaf language key s := by
  constructor
  · rintro ⟨s, hs, hne⟩
    rcases t_str_cases language key s hs with h | h
    · exact absurd h hne
    · exact ⟨s, h⟩
  · rintro ⟨s, hs⟩
    obtain ⟨h1, h2⟩ := leafOk_of_leadsToLeaf language key s hl hs
    exact ⟨s, t_of_ownPath_str language key s hs h1, h2⟩

/-- C8. The trees `translations.en`, `translations.az` and `translations.ru`
have the same key shape: a dot-path leads to a string leaf (to an inner object)
in one language if and only if it does in the others, and so `t(path)` is a
configured string in one language exactly when it is in all three. -/
theorem translations_same_shape (key : String) :
    (sameShape translationsEn translationsAz = true ∧
      sameShape translationsAz translationsRu = true) ∧
    (((∃ s, LeadsToLeaf "en" key s) ↔ (∃ s, LeadsToLeaf "az" key s)) ∧
      ((∃ s, LeadsToLeaf "az" key s) ↔ (∃ s, LeadsToLeaf "ru" key s))) ∧
    ((LeadsToNode "en" key ↔ LeadsToNode "az" key) ∧
      (LeadsToNode "az" key ↔ LeadsToNode "ru" key)) ∧
    ((ConfiguredString "en" key ↔ ConfiguredString "az" key) ∧
      (ConfiguredString "az" key ↔ ConfiguredString "ru" key)) := by
  have e1 := sameShape_paths _ _ (splitDot key) sameShape_en_az
  have e2 := sameShape_paths _ _ (splitDot key) sameShape_az_ru
  have l1 : (∃ s, LeadsToLeaf "en" key s) ↔ (∃ s, LeadsToLeaf "az" key s) := by
    rw [leadsToLeaf_iff "en" key _ getProp_en, leadsToLeaf_iff "az" key _ getProp_az]
    exact e1.1
  have l2 : (∃ s, LeadsToLeaf "az" key s) ↔ (∃ s, LeadsToLeaf "ru" key s) := by
    rw [leadsToLeaf_iff "az" key _ getProp_az, leadsToLeaf_iff "ru" key _ getProp_ru]
    exact e2.1
  refine ⟨⟨sameShape_en_az, sameShape_az_ru⟩, ⟨l1, l2⟩, ⟨?_, ?_⟩, ⟨?_, ?_⟩⟩
  · rw [leadsToNode_iff "en" key _ getProp_en, leadsToNode_iff "az" key _ getProp_az]
    exact e1.2
  · rw [leadsToNode_iff "az" key _ getProp_az, leadsToNode_iff "ru" key _ getProp_ru]
    exact e2.2
  · rw [configuredString_iff "en" key (Or.inl rfl),
      configuredString_iff "az" key (Or.inr (Or.inl rfl))]
    exact l1
  · rw [configuredString_iff "az" key (Or.inr (Or.inl rfl)),
      configuredString_iff "ru" key (Or.inr (Or.inr rfl))]
    exact l2


/-! ## Properties of the admin login guard -/

theorem getItem_setItem (st : Storage) (k v : String) : (st.setItem k v).getItem k = some v := by
  simp [Storage.setItem, Storage.getItem, List.lookup]

/-- One rejected normal login outside recovery mode: the counter goes up by one,
is persisted, and the master-password fields appear when it reaches ten. -/
theorem submit_login_rejected (env : Env) (fd : FormData) (x : LoginState × Storage)
    (hsec : x.1.securityEnabled = true) (hlock : x.1.isLockedOut = false)
    (hshow : x.1.showMasterPasswords = false) (hrej : LoginRejected env) :
    (submit env fd x).1.securityEnabled = true ∧
    (submit env fd x).1.isLockedOut = false ∧
    (submit env fd x).1.failedAttempts = x.1.failedAttempts + 1 ∧
    (submit env fd x).1.showMasterPasswords = decide (10 ≤ x.1.failedAttempts + 1) ∧
    (submit env fd x).2.getItem FAILED_ATTEMPTS_KEY = some (toString (x.1.failedAttempts + 1)) := by
  obtain ⟨status, detail, hrej⟩ := hrej
  obtain ⟨s, st⟩ := x
  simp only at hsec hlock hshow
  by_cases h10 : 10 ≤ s.failedAttempts + 1
  · simp [submit, handleSubmit, hsec, hlock, hshow, hrej, incrementFailedAttempts,
      FAILED_ATTEMPTS_THRESHOLD, h10, Page.setError, Page.setLoading, Page.post,
      getItem_setItem]
    split_ifs <;> simp [getItem_setItem]
  · simp [submit, handleSubmit, hsec, hlock, hshow, hrej, incrementFailedAttempts,
      FAILED_ATTEMPTS_THRESHOLD, h10, Page.setError, Page.setLoading, Page.post,
      getItem_setItem]
    split_ifs <;> simp [getItem_setItem]

theorem submitAll_append (x : LoginState × Storage) (l1 l2 : List (FormData × Env)) :
    submitAll x (l1 ++ l2) = submitAll (submitAll x l1) l2 := by
  induction l1 generalizing x with
  | nil => rfl
  | cons i rest ih =>
    obtain ⟨fd, env⟩ := i
    exact ih _

/-- A run of rejected normal logins that keeps the counter below ten stays out
of recovery mode and counts every failure. -/
theorem submitAll_login_rejected (l : List (FormData × Env)) (x : LoginState × Storage)
    (hsec : x.1.securityEnabled = true) (hlock : x.1.isLockedOut = false)
    (hshow : x.1.showMasterPasswords = false)
    (hrej : ∀ i ∈ l, LoginRejected i.2) (hlen : x.1.failedAttempts + l.length ≤ 9) :
    (submitAll x l).1.securityEnabled = true ∧
    (submitAll x l).1.isLockedOut = false ∧
    (submitAll x l).1.showMasterPasswords = false ∧
    (submitAll x l).1.failedAttempts = x.1.failedAttempts + l.length ∧
    (l ≠ [] → (submitAll x l).2.getItem FAILED_ATTEMPTS_KEY =
      some (toString (x.1.failedAttempts + l.length))) := by
  induction l generalizing x with
  | nil => exact ⟨hsec, hlock, hshow, rfl, fun h => absurd rfl h⟩
  | cons i rest ih =>
    obtain ⟨fd, env⟩ := i
    simp only [List.length_cons] at hlen
    obtain ⟨s1, s2, s3, s4, s5⟩ :=
      submit_login_rejected env fd x hsec hlock hshow (hrej (fd, env) (List.mem_cons_self _ _))
    have s4' : (submit env fd x).1.showMasterPasswords = false := by
      rw [s4]; simp; omega
    obtain ⟨r1, r2, r3, r4, r5⟩ := ih (submit env fd x) s1 s2 s4'
      (fun i hi => hrej i (List.mem_cons_of_mem _ hi)) (by rw [s3]; omega)
    have e : (submit env fd x).1.failedAttempts + rest.length =
        x.1.failedAttempts + ((fd, env) :: rest).length := by
      rw [s3, List.length_cons]; omega
    rw [e] at r4 r5
    refine ⟨r1, r2, r3, r4, ?_⟩
    intro _
    show (submitAll (submit env fd x) rest).2.getItem FAILED_ATTEMPTS_KEY = _
    by_cases hr : rest = []
    · subst hr
      exact s5
    · exact r5 hr

/-- C9. With the security toggle enabled, starting in NORMAL with
`failedAttempts = 0` and not locked out, after each of the first nine consecutive
rejected normal logins the guard is still in NORMAL, the master-password fields
hidden and `failedAttempts` equal to the number of failures; after the tenth it
is in RECOVERY_MODE with `showMasterPasswords = true` and the persisted
`failedAttempts` equal to 10. -/
theorem ten_failures_reach_recovery (c : LoginState) (storage : Storage)
    (inputs : List (FormData × Env))
    (hsec : c.securityEnabled = true) (h0 : c.failedAttempts = 0)
    (hlock : c.isLockedOut = false) (hshow : c.showMasterPasswords = false)
    (hlen : inputs.length = 10) (hrej : ∀ i ∈ inputs, LoginRejected i.2) :
    (∀ n, 1 ≤ n → n ≤ 9 →
      guardState (submitAll (c, storage) (inputs.take n)).1 = .NORMAL ∧
      (submitAll (c, storage) (inputs.take n)).1.showMasterPasswords = false ∧
      (submitAll (c, storage) (inputs.take n)).1.failedAttempts = n ∧
      (submitAll (c, storage) (inputs.take n)).2.getItem FAILED_ATTEMPTS_KEY =
        some (toString n)) ∧
    guardState (submitAll (c, storage) inputs).1 = .RECOVERY_MODE ∧
    (submitAll (c, storage) inputs).1.showMasterPasswords = true ∧
    (submitAll (c, storage) inputs).1.failedAttempts = 10 ∧
    (submitAll (c, storage) inputs).2.getItem FAILED_ATTEMPTS_KEY = some "10" := by
  have run : ∀ n, n ≤ 9 →
      (submitAll (c, storage) (inputs.take n)).1.securityEnabled = true ∧
      (submitAll (c, storage) (inputs.take n)).1.isLockedOut = false ∧
      (submitAll (c, storage) (inputs.take n)).1.showMasterPasswords = false ∧
      (submitAll (c, storage) (inputs.take n)).1.failedAttempts = n ∧
      (1 ≤ n → (submitAll (c, storage) (inputs.take n)).2.getItem FAILED_ATTEMPTS_KEY =
        some (toString n)) := by
    intro n hn
    have hl : (inputs.take n).length = n := by
      rw [List.length_take, hlen]; omega
    obtain ⟨r1, r2, r3, r4, r5⟩ := submitAll_login_rejected (inputs.take n) (c, storage)
      hsec hlock hshow (fun i hi => hrej i (List.mem_of_mem_take hi))
      (by simp only [h0, hl]; omega)
    simp only [h0, hl, Nat.zero_add] at r4 r5
    refine ⟨r1, r2, r3, r4, fun h1 => r5 ?_⟩
    intro hnil
    rw [hnil] at hl
    simp at hl
    omega
  constructor
  · intro n h1 h9
    obtain ⟨_, r2, r3, r4, r5⟩ := run n h9
    exact ⟨by simp [guardState, r2, r3], r3, r4, r5 h1⟩
  · obtain ⟨r1, r2, r3, r4, _⟩ := run 9 (le_refl 9)
    have hsplit : inputs = inputs.take 9 ++ inputs.drop 9 := (List.take_append_drop 9 inputs).symm
    have hdrop : (inputs.drop 9).length = 1 := by rw [List.length_drop, hlen]
    obtain ⟨last, hlast⟩ := List.length_eq_one.1 hdrop
    have hmem : last ∈ inputs := List.mem_of_mem_drop (by rw [hlast]; exact List.mem_singleton_self _)
    obtain ⟨fd, env⟩ := last
    have hfinal : submitAll (c, storage) inputs =
        submit env fd (submitAll (c, storage) (inputs.take 9)) := by
      conv_lhs => rw [hsplit]
      rw [submitAll_append, hlast]
      rfl
    obtain ⟨_, s2, s3, s4, s5⟩ := submit_login_rejected env fd
      (submitAll (c, storage) (inputs.take 9)) r1 r2 r3 (hrej (fd, env) hmem)
    rw [r4] at s3 s4 s5
    rw [hfinal]
    have s4' : (submit env fd (submitAll (c, storage) (inputs.take 9))).1.showMasterPasswords
        = true := by rw [s4]; rfl
    exact ⟨by simp [guardState, s2, s4'], s4', s3, s5⟩

theorem ten_failures_reach_recovery_witness :
    (∀ n, 1 ≤ n → n ≤ 9 →
      guardState (submitAll (initialState, []) ((List.replicate 10 sampleRejected).take n)).1
        = .NORMAL ∧
      (submitAll (initialState, []) ((List.replicate 10 sampleRejected).take n)).1.showMasterPasswords
        = false ∧
      (submitAll (initialState, []) ((List.replicate 10 sampleRejected).take n)).1.failedAttempts
        = n ∧
      (submitAll (initialState, []) ((List.replicate 10 sampleRejected).take n)).2.getItem
        FAILED_ATTEMPTS_KEY = some (toString n)) ∧
    guardState (submitAll (initialState, []) (List.replicate 10 sampleRejected)).1
      = .RECOVERY_MODE ∧
    (submitAll (initialState, []) (List.replicate 10 sampleRejected)).1.showMasterPasswords
      = true ∧
    (submitAll (initialState, []) (List.replicate 10 sampleRejected)).1.failedAttempts = 10 ∧
    (submitAll (initialState, []) (List.replicate 10 sampleRejected)).2.getItem
      FAILED_ATTEMPTS_KEY = some "10" :=
  ten_failures_reach_recovery initialState [] (List.replicate 10 sampleRejected)
    rfl rfl rfl rfl rfl
    (fun i hi => by
      rw [List.eq_of_mem_replicate hi]
      exact ⟨some 401, none, rfl⟩)

/-- One wrong master-password submission in recovery mode: `masterAttempts` goes
up by one and is persisted, and the page locks when the new count is at least
three, storing the end of the lockout. -/
theorem submit_master_wrong (env : Env) (fd : FormData) (x : LoginState × Storage)
    (hsec : x.1.securityEnabled = true) (hlock : x.1.isLockedOut = false)
    (hshow : x.1.showMasterPasswords = true) (hw : MasterWrong fd env) :
    (submit env fd x).1.securityEnabled = true ∧
    (submit env fd x).1.showMasterPasswords = true ∧
    (submit env fd x).1.failedAttempts = x.1.failedAttempts ∧
    (submit env fd x).1.masterAttempts = x.1.masterAttempts + 1 ∧
    (submit env fd x).2.getItem MASTER_ATTEMPTS_KEY = some (toString (x.1.masterAttempts + 1)) ∧
    (submit env fd x).1.isLockedOut = decide (3 ≤ x.1.masterAttempts + 1) ∧
    (3 ≤ x.1.masterAttempts + 1 →
      (submit env fd x).2.getItem LOCKOUT_TIMESTAMP_KEY =
        some (toString (env.now + LOCKOUT_DURATION))) := by
  obtain ⟨h2, h3, hwrong⟩ := hw
  obtain ⟨s, st⟩ := x
  simp only at hsec hlock hshow
  have m2 : MASTER_PASSWORD_2 ≠ "" := by decide
  have m3 : MASTER_PASSWORD_3 ≠ "" := by decide
  by_cases h3' : 3 ≤ s.masterAttempts + 1
  · have hi : ¬ ((s.masterAttempts : Int) + 1 < 3) := by omega
    by_cases hc : fd.masterPassword2 = MASTER_PASSWORD_2 ∧ fd.masterPassword3 = MASTER_PASSWORD_3
    · rcases hwrong with hwrong | ⟨detail, hresp⟩
      · exact absurd hc hwrong
      · simp [submit, handleSubmit, hsec, hlock, hshow, hc, hresp, m2, m3,
          incrementMasterAttempts, activateLockout, MASTER_ATTEMPTS_THRESHOLD, h3', hi,
          Page.setError, Page.setLoading, Page.post, getItem_setItem]
        simp [Storage.setItem, Storage.getItem, Storage.removeItem, List.lookup,
          LOCKOUT_TIMESTAMP_KEY, MASTER_ATTEMPTS_KEY]
    · simp [submit, handleSubmit, hsec, hlock, hshow, h2, h3, hc,
        incrementMasterAttempts, activateLockout, MASTER_ATTEMPTS_THRESHOLD, h3', hi,
        Page.setError, Page.setLoading, Page.post, getItem_setItem]
      simp [Storage.setItem, Storage.getItem, Storage.removeItem, List.lookup,
        LOCKOUT_TIMESTAMP_KEY, MASTER_ATTEMPTS_KEY]
  · have hi : (s.masterAttempts : Int) + 1 < 3 := by omega
    by_cases hc : fd.masterPassword2 = MASTER_PASSWORD_2 ∧ fd.masterPassword3 = MASTER_PASSWORD_3
    · rcases hwrong with hwrong | ⟨detail, hresp⟩
      · exact absurd hc hwrong
      · simp [submit, handleSubmit, hsec, hlock, hshow, hc, hresp, m2, m3,
          incrementMasterAttempts, activateLockout, MASTER_ATTEMPTS_THRESHOLD, h3', hi,
          Page.setError, Page.setLoading, Page.post, getItem_setItem]
    · simp [submit, handleSubmit, hsec, hlock, hshow, h2, h3, hc,
        incrementMasterAttempts, activateLockout, MASTER_ATTEMPTS_THRESHOLD, h3', hi,
        Page.setError, Page.setLoading, Page.post, getItem_setItem]

/-- C10, counterexample. In RECOVERY_MODE with `masterAttempts = 2` already
counted, the first wrong master-password submission locks the page: it is not
left unlocked with `masterAttempts = 1`. -/
theorem first_wrong_master_can_lock :
    guardState sampleRecoveryState.1 = .RECOVERY_MODE ∧
    MasterWrong sampleRejected.1 sampleRejected.2 ∧
    (submit sampleRejected.2 sampleRejected.1 sampleRecoveryState).1.isLockedOut = true ∧
    (submit sampleRejected.2 sampleRejected.1 sampleRecoveryState).1.masterAttempts = 3 ∧
    ¬ ((submit sampleRejected.2 sampleRejected.1 sampleRecoveryState).1.isLockedOut = false ∧
      (submit sampleRejected.2 sampleRejected.1 sampleRecoveryState).1.masterAttempts = 1) := by
  have hw : MasterWrong sampleRejected.1 sampleRejected.2 :=
    ⟨by decide, by decide, Or.inl (by decide)⟩
  obtain ⟨_, _, _, h4, _, h6, _⟩ :=
    submit_master_wrong sampleRejected.2 sampleRejected.1 sampleRecoveryState rfl rfl rfl hw
  have h4' : (submit sampleRejected.2 sampleRejected.1 sampleRecoveryState).1.masterAttempts = 3 :=
    h4
  have h6' : (submit sampleRejected.2 sampleRejected.1 sampleRecoveryState).1.isLockedOut = true :=
    h6
  refine ⟨rfl, hw, h6', h4', ?_⟩
  rintro ⟨h, _⟩
  rw [h6'] at h
  cases h

/-- C10, amended. From RECOVERY_MODE with `masterAttempts = 0`, three consecutive
submissions with both master-password fields filled and wrong lock the page: the
first two leave it unlocked with `masterAttempts` 1 and 2, the third sets
`isLockedOut` and stores `lockoutUntil` = the time of that submission +
3*24*60*60*1000 = + 259200000 ms. -/
theorem three_wrong_master_lock (c : LoginState) (storage : Storage)
    (fd1 fd2 fd3 : FormData) (env1 env2 env3 : Env)
    (hsec : c.securityEnabled = true) (hlock : c.isLockedOut = false)
    (hshow : c.showMasterPasswords = true) (h0 : c.masterAttempts = 0)
    (hw1 : MasterWrong fd1 env1) (hw2 : MasterWrong fd2 env2) (hw3 : MasterWrong fd3 env3) :
    ((submit env1 fd1 (c, storage)).1.isLockedOut = false ∧
      (submit env1 fd1 (c, storage)).1.masterAttempts = 1 ∧
      guardState (submit env1 fd1 (c, storage)).1 = .RECOVERY_MODE) ∧
    ((submit env2 fd2 (submit env1 fd1 (c, storage))).1.isLockedOut = false ∧
      (submit env2 fd2 (submit env1 fd1 (c, storage))).1.masterAttempts = 2 ∧
      guardState (submit env2 fd2 (submit env1 fd1 (c, storage))).1 = .RECOVERY_MODE) ∧
    ((submit env3 fd3 (submit env2 fd2 (submit env1 fd1 (c, storage)))).1.isLockedOut = true ∧
      guardState (submit env3 fd3 (submit env2 fd2 (submit env1 fd1 (c, storage)))).1
        = .LOCKED_OUT ∧
      (submit env3 fd3 (submit env2 fd2 (submit env1 fd1 (c, storage)))).2.getItem
        LOCKOUT_TIMESTAMP_KEY = some (toString (env3.now + 3 * 24 * 60 * 60 * 1000)) ∧
      3 * 24 * 60 * 60 * 1000 = 259200000) := by
  obtain ⟨a1, a2, _, a4, _, a6, _⟩ :=
    submit_master_wrong env1 fd1 (c, storage) hsec hlock hshow hw1
  simp only [h0] at a4 a6
  have a6' : (submit env1 fd1 (c, storage)).1.isLockedOut = false := by rw [a6]; rfl
  obtain ⟨b1, b2, _, b4, _, b6, _⟩ :=
    submit_master_wrong env2 fd2 (submit env1 fd1 (c, storage)) a1 a6' a2 hw2
  rw [a4] at b4 b6
  have b6' : (submit env2 fd2 (submit env1 fd1 (c, storage))).1.isLockedOut = false := by
    rw [b6]; rfl
  obtain ⟨_, _, _, _, _, c6, c7⟩ :=
    submit_master_wrong env3 fd3 (submit env2 fd2 (submit env1 fd1 (c, storage))) b1 b6' b2 hw3
  rw [b4] at c6 c7
  have c6' : (submit env3 fd3 (submit env2 fd2 (submit env1 fd1 (c, storage)))).1.isLockedOut
      = true := by rw [c6]; rfl
  refine ⟨⟨a6', a4, ?_⟩, ⟨b6', b4, ?_⟩, ⟨c6', ?_, c7 (by decide), by norm_num⟩⟩
  · simp [guardState, a6', a2]
  · simp [guardState, b6', b2]
  · simp [guardState, c6']

theorem three_wrong_master_lock_witness :
    ((submit sampleRejected.2 sampleRejected.1 sampleFreshRecoveryState).1.isLockedOut = false ∧
      (submit sampleRejected.2 sampleRejected.1 sampleFreshRecoveryState).1.masterAttempts = 1 ∧
      guardState (submit sampleRejected.2 sampleRejected.1 sampleFreshRecoveryState).1
        = .RECOVERY_MODE) ∧
    ((submit sampleRejected.2 sampleRejected.1
        (submit sampleRejected.2 sampleRejected.1 sampleFreshRecoveryState)).1.isLockedOut
        = false ∧
      (submit sampleRejected.2 sampleRejected.1
        (submit sampleRejected.2 sampleRejected.1 sampleFreshRecoveryState)).1.masterAttempts
        = 2 ∧
      guardState (submit sampleRejected.2 sampleRejected.1
        (submit sampleRejected.2 sampleRejected.1 sampleFreshRecoveryState)).1
        = .RECOVERY_MODE) ∧
    ((submit sampleRejected.2 sampleRejected.1 (submit sampleRejected.2 sampleRejected.1
        (submit sampleRejected.2 sampleRejected.1 sampleFreshRecoveryState))).1.isLockedOut
        = true ∧
      guardState (submit sampleRejected.2 sampleRejected.1 (submit sampleRejected.2
        sampleRejected.1 (submit sampleRejected.2 sampleRejected.1 sampleFreshRecoveryState))).1
        = .LOCKED_OUT ∧
      (submit sampleRejected.2 sampleRejected.1 (submit sampleRejected.2 sampleRejected.1
        (submit sampleRejected.2 sampleRejected.1 sampleFreshRecoveryState))).2.getItem
        LOCKOUT_TIMESTAMP_KEY
        = some (toString (sampleRejected.2.now + 3 * 24 * 60 * 60 * 1000)) ∧
      3 * 24 * 60 * 60 * 1000 = 259200000) :=
  three_wrong_master_lock sampleFreshRecoveryState.1 sampleFreshRecoveryState.2
    sampleRejected.1 sampleRejected.1 sampleRejected.1
    sampleRejected.2 sampleRejected.2 sampleRejected.2 rfl rfl rfl rfl
    ⟨by decide, by decide, Or.inl (by decide)⟩
    ⟨by decide, by decide, Or.inl (by decide)⟩
    ⟨by decide, by decide, Or.inl (by decide)⟩


/-! ### The store -/

theorem removeItem_cons_self (st : Storage) (k v : String) :
    Storage.removeItem ((k, v) :: st) k = st.removeItem k := by
  simp [Storage.removeItem, List.filter]

theorem removeItem_cons_of_ne (st : Storage) (a k v : String) (h : a ≠ k) :
    Storage.removeItem ((a, v) :: st) k = (a, v) :: st.removeItem k := by
  have hb : (a != k) = true := by simpa using h
  simp only [Storage.removeItem]
  rw [List.filter_cons_of_pos (by simpa using hb)]

theorem getItem_cons_self (st : Storage) (k v : String) :
    Storage.getItem ((k, v) :: st) k = some v := by
  simp [Storage.getItem, List.lookup]

theorem getItem_cons_of_ne (st : Storage) (a k v : String) (h : k ≠ a) :
    Storage.getItem ((a, v) :: st) k = st.getItem k := by
  have hb : (k == a) = false := by simpa using h
  simp [Storage.getItem, List.lookup, hb]

theorem getItem_removeItem_self (st : Storage) (k : String) :
    (st.removeItem k).getItem k = none := by
  induction st with
  | nil => rfl
  | cons p rest ih =>
    obtain ⟨a, b⟩ := p
    by_cases h : a = k
    · subst h
      rw [removeItem_cons_self]; exact ih
    · rw [removeItem_cons_of_ne _ _ _ _ h, getItem_cons_of_ne _ _ _ _ (fun e => h e.symm)]
      exact ih

theorem getItem_removeItem_of_ne (st : Storage) (k k2 : String) (h : k2 ≠ k) :
    (st.removeItem k).getItem k2 = st.getItem k2 := by
  induction st with
  | nil => rfl
  | cons p rest ih =>
    obtain ⟨a, b⟩ := p
    by_cases ha : a = k
    · subst ha
      rw [removeItem_cons_self, getItem_cons_of_ne _ _ _ _ h]
      exact ih
    · rw [removeItem_cons_of_ne _ _ _ _ ha]
      by_cases hk : k2 = a
      · subst hk
        rw [getItem_cons_self, getItem_cons_self]
      · rw [getItem_cons_of_ne _ _ _ _ hk, getItem_cons_of_ne _ _ _ _ hk]
        exact ih

theorem getItem_setItem_of_ne (st : Storage) (k k2 v : String) (h : k2 ≠ k) :
    (st.setItem k v).getItem k2 = st.getItem k2 := by
  rw [Storage.setItem, getItem_cons_of_ne _ _ _ _ h]
  exact getItem_removeItem_of_ne st k k2 h

/-! ### Submissions while locked out or with the guard switched off -/

/-- C11. While the guard is LOCKED_OUT and the security toggle is enabled, a
submission, whatever the form holds and however the server would answer, sends
no request to the login or master-login endpoint and leaves the store (counters,
`lockoutUntil`, session token) and every state field but `error` unchanged. -/
theorem locked_submission_rejected (c : LoginState) (storage : Storage) (env : Env)
    (hsec : c.securityEnabled = true) (hlock : guardState c = .LOCKED_OUT) :
    (handleSubmit c storage env).calls = [] ∧
    (handleSubmit c storage env).storage = storage ∧
    (handleSubmit c storage env).navigatedTo = none ∧
    (handleSubmit c storage env).state =
      { c with error := "Admin panel is locked. Try again in " ++
          formatTimeRemaining c.lockoutTimeRemaining } ∧
    (handleSubmit c storage env).state.failedAttempts = c.failedAttempts ∧
    (handleSubmit c storage env).state.masterAttempts = c.masterAttempts ∧
    (handleSubmit c storage env).storage.getItem LOCKOUT_TIMESTAMP_KEY =
      storage.getItem LOCKOUT_TIMESTAMP_KEY ∧
    (handleSubmit c storage env).storage.getItem "novatech-token" =
      storage.getItem "novatech-token" := by
  have hl : c.isLockedOut = true := by
    by_contra h
    have h' : c.isLockedOut = false := by simpa using h
    unfold guardState at hlock
    rw [h'] at hlock
    by_cases hs : c.showMasterPasswords = true
    · simp [hs] at hlock
    · simp [hs] at hlock
  simp [handleSubmit, hsec, hl, Page.setError]

theorem locked_submission_rejected_witness :
    (handleSubmit sampleLockedState sampleLockedStorage
      sampleRejected.2).calls = [] ∧
    (handleSubmit sampleLockedState sampleLockedStorage
      sampleRejected.2).storage = sampleLockedStorage ∧
    (handleSubmit sampleLockedState sampleLockedStorage
      sampleRejected.2).navigatedTo = none ∧
    (handleSubmit sampleLockedState sampleLockedStorage
      sampleRejected.2).state =
      { sampleLockedState with
          error := "Admin panel is locked. Try again in " ++
            formatTimeRemaining sampleLockedState.lockoutTimeRemaining } ∧
    (handleSubmit sampleLockedState sampleLockedStorage
      sampleRejected.2).state.failedAttempts =
      sampleLockedState.failedAttempts ∧
    (handleSubmit sampleLockedState sampleLockedStorage
      sampleRejected.2).state.masterAttempts =
      sampleLockedState.masterAttempts ∧
    (handleSubmit sampleLockedState sampleLockedStorage
      sampleRejected.2).storage.getItem LOCKOUT_TIMESTAMP_KEY =
      sampleLockedStorage.getItem LOCKOUT_TIMESTAMP_KEY ∧
    (handleSubmit sampleLockedState sampleLockedStorage
      sampleRejected.2).storage.getItem "novatech-token" =
      sampleLockedStorage.getItem "novatech-token" :=
  locked_submission_rejected sampleLockedState sampleLockedStorage
    sampleRejected.2 rfl rfl


/-- C16. With the security toggle disabled, whatever the stored counters and
lockout and whatever the form holds, a submission sends exactly one request, the
plain login, never the master login, and leaves `failedAttempts`,
`masterAttempts` and `lockoutUntil` unchanged, in the state and in the store,
whether the server accepts or rejects. -/
theorem disabled_guard_plain_login (c : LoginState) (storage : Storage) (env : Env)
    (hsec : c.securityEnabled = false) :
    (handleSubmit c storage env).calls = [.login c.formData.email c.formData.password] ∧
    (∀ e a b, Call.masterLogin e a b ∉ (handleSubmit c storage env).calls) ∧
    (handleSubmit c storage env).state.failedAttempts = c.failedAttempts ∧
    (handleSubmit c storage env).state.masterAttempts = c.masterAttempts ∧
    (handleSubmit c storage env).state.showMasterPasswords = c.showMasterPasswords ∧
    (handleSubmit c storage env).state.isLockedOut = c.isLockedOut ∧
    (handleSubmit c storage env).state.lockoutTimeRemaining = c.lockoutTimeRemaining ∧
    (handleSubmit c storage env).storage.getItem FAILED_ATTEMPTS_KEY =
      storage.getItem FAILED_ATTEMPTS_KEY ∧
    (handleSubmit c storage env).storage.getItem MASTER_ATTEMPTS_KEY =
      storage.getItem MASTER_ATTEMPTS_KEY ∧
    (handleSubmit c storage env).storage.getItem LOCKOUT_TIMESTAMP_KEY =
      storage.getItem LOCKOUT_TIMESTAMP_KEY := by
  have keep : ∀ (k token user : String), k ≠ "novatech-token" → k ≠ "novatech-user" →
      ((storage.setItem "novatech-token" token).setItem "novatech-user" user).getItem k =
        storage.getItem k := by
    intro k token user h1 h2
    rw [getItem_setItem_of_ne _ _ _ _ h2, getItem_setItem_of_ne _ _ _ _ h1]
  cases hresp : env.loginResponse with
  | ok token user =>
    simp [handleSubmit, hsec, hresp, Page.setError, Page.setLoading, Page.post,
      Page.storeSession, Page.navigateToDashboard]
    exact ⟨keep _ _ _ (by decide) (by decide), keep _ _ _ (by decide) (by decide),
      keep _ _ _ (by decide) (by decide)⟩
  | failure status detail =>
    simp [handleSubmit, hsec, hresp, Page.setError, Page.setLoading, Page.post]

theorem disabled_guard_plain_login_witness :
    (handleSubmit sampleDisabledState sampleLockedStorage
      sampleRejected.2).calls =
      [.login sampleDisabledState.formData.email
        sampleDisabledState.formData.password] ∧
    (∀ e a b, Call.masterLogin e a b ∉
      (handleSubmit sampleDisabledState sampleLockedStorage
        sampleRejected.2).calls) ∧
    (handleSubmit sampleDisabledState sampleLockedStorage
      sampleRejected.2).state.failedAttempts =
      sampleDisabledState.failedAttempts ∧
    (handleSubmit sampleDisabledState sampleLockedStorage
      sampleRejected.2).state.masterAttempts =
      sampleDisabledState.masterAttempts ∧
    (handleSubmit sampleDisabledState sampleLockedStorage
      sampleRejected.2).state.showMasterPasswords =
      sampleDisabledState.showMasterPasswords ∧
    (handleSubmit sampleDisabledState sampleLockedStorage
      sampleRejected.2).state.isLockedOut =
      sampleDisabledState.isLockedOut ∧
    (handleSubmit sampleDisabledState sampleLockedStorage
      sampleRejected.2).state.lockoutTimeRemaining =
      sampleDisabledState.lockoutTimeRemaining ∧
    (handleSubmit sampleDisabledState sampleLockedStorage
      sampleRejected.2).storage.getItem FAILED_ATTEMPTS_KEY =
      sampleLockedStorage.getItem FAILED_ATTEMPTS_KEY ∧
    (handleSubmit sampleDisabledState sampleLockedStorage
      sampleRejected.2).storage.getItem MASTER_ATTEMPTS_KEY =
      sampleLockedStorage.getItem MASTER_ATTEMPTS_KEY ∧
    (handleSubmit sampleDisabledState sampleLockedStorage
      sampleRejected.2).storage.getItem LOCKOUT_TIMESTAMP_KEY =
      sampleLockedStorage.getItem LOCKOUT_TIMESTAMP_KEY :=
  disabled_guard_plain_login sampleDisabledState
    sampleLockedStorage sampleRejected.2 rfl


/-! ### Which request a submission sends -/

/-- The plain login request is sent exactly when the guard is switched off, or
it is on, the page is not locked, and the master-password branch is not taken. -/
theorem login_called_iff (c : LoginState) (storage : Storage) (env : Env) :
    Call.login c.formData.email c.formData.password ∈ (handleSubmit c storage env).calls ↔
      c.securityEnabled = false ∨
      (c.securityEnabled = true ∧ c.isLockedOut = false ∧
        ¬ (c.showMasterPasswords = true ∧ c.formData.masterPassword2 ≠ "" ∧
          c.formData.masterPassword3 ≠ "")) := by
  cases hsec : c.securityEnabled with
  | false =>
    cases hresp : env.loginResponse <;>
      simp [handleSubmit, hsec, hresp, Page.setError, Page.setLoading, Page.post,
        Page.storeSession, Page.navigateToDashboard]
  | true =>
    cases hlock : c.isLockedOut with
    | true => simp [handleSubmit, hsec, hlock, Page.setError]
    | false =>
      by_cases hm : c.showMasterPasswords = true ∧ c.formData.masterPassword2 ≠ "" ∧
          c.formData.masterPassword3 ≠ ""
      · obtain ⟨h1, h2, h3⟩ := hm
        by_cases hc : c.formData.masterPassword2 = MASTER_PASSWORD_2 ∧
            c.formData.masterPassword3 = MASTER_PASSWORD_3
        · have m2 : MASTER_PASSWORD_2 ≠ "" := by decide
          have m3 : MASTER_PASSWORD_3 ≠ "" := by decide
          cases hresp : env.masterLoginResponse with
          | ok token user =>
            simp [handleSubmit, hsec, hlock, h1, hc, m2, m3, hresp, Page.setError,
              Page.setLoading, Page.post, Page.storeSession, Page.navigateToDashboard,
              resetFailedAttempts]
          | failure status detail =>
            simp [handleSubmit, hsec, hlock, h1, hc, m2, m3, hresp, Page.setError,
              Page.setLoading, Page.post, incrementMasterAttempts, activateLockout]
            split_ifs <;> simp
        · simp [handleSubmit, hsec, hlock, h1, h2, h3, hc, Page.setError,
            Page.setLoading, Page.post, incrementMasterAttempts, activateLockout]
          split_ifs <;> simp
      · have hcases : c.showMasterPasswords = false ∨ c.formData.masterPassword2 = "" ∨
            c.formData.masterPassword3 = "" := by
          by_cases h1 : c.showMasterPasswords = true
          · by_cases h2 : c.formData.masterPassword2 = ""
            · exact Or.inr (Or.inl h2)
            · by_cases h3 : c.formData.masterPassword3 = ""
              · exact Or.inr (Or.inr h3)
              · exact absurd ⟨h1, h2, h3⟩ hm
          · exact Or.inl (by simpa using h1)
        cases hresp : env.loginResponse with
        | ok token user =>
          rcases hcases with h | h | h <;>
            simp [handleSubmit, hsec, hlock, h, hresp, Page.setError, Page.setLoading,
              Page.post, Page.storeSession, Page.navigateToDashboard, resetFailedAttempts]
        | failure status detail =>
          rcases hcases with h | h | h <;>
            simp [handleSubmit, hsec, hlock, h, hresp, Page.setError, Page.setLoading,
              Page.post, incrementFailedAttempts] <;>
            split_ifs <;> simp


/-- The store after `resetFailedAttempts()` and the removal of the lockout
timestamp: the three keys of the guard are gone and every other key is kept. -/
theorem getItem_cleared (st : Storage) :
    (((st.removeItem FAILED_ATTEMPTS_KEY).removeItem MASTER_ATTEMPTS_KEY).removeItem
      LOCKOUT_TIMESTAMP_KEY).getItem FAILED_ATTEMPTS_KEY = none ∧
    (((st.removeItem FAILED_ATTEMPTS_KEY).removeItem MASTER_ATTEMPTS_KEY).removeItem
      LOCKOUT_TIMESTAMP_KEY).getItem MASTER_ATTEMPTS_KEY = none ∧
    (((st.removeItem FAILED_ATTEMPTS_KEY).removeItem MASTER_ATTEMPTS_KEY).removeItem
      LOCKOUT_TIMESTAMP_KEY).getItem LOCKOUT_TIMESTAMP_KEY = none ∧
    ∀ k, k ≠ FAILED_ATTEMPTS_KEY → k ≠ MASTER_ATTEMPTS_KEY → k ≠ LOCKOUT_TIMESTAMP_KEY →
      (((st.removeItem FAILED_ATTEMPTS_KEY).removeItem MASTER_ATTEMPTS_KEY).removeItem
        LOCKOUT_TIMESTAMP_KEY).getItem k = st.getItem k := by
  refine ⟨?_, ?_, ?_, ?_⟩
  · rw [getItem_removeItem_of_ne _ _ _ (by decide), getItem_removeItem_of_ne _ _ _ (by decide),
      getItem_removeItem_self]
  · rw [getItem_removeItem_of_ne _ _ _ (by decide), getItem_removeItem_self]
  · rw [getItem_removeItem_self]
  · intro k h1 h2 h3
    rw [getItem_removeItem_of_ne _ _ _ h3, getItem_removeItem_of_ne _ _ _ h2,
      getItem_removeItem_of_ne _ _ _ h1]

/-- The session keys after the two `setItem` calls of a successful login. -/
theorem getItem_session (st : Storage) (token user : String) :
    ((st.setItem "novatech-token" token).setItem "novatech-user" user).getItem "novatech-token"
      = some token ∧
    ((st.setItem "novatech-token" token).setItem "novatech-user" user).getItem "novatech-user"
      = some user := by
  constructor
  · rw [getItem_setItem_of_ne _ _ _ _ (by decide), getItem_setItem]
  · rw [getItem_setItem]

/-- An accepted normal login with the guard switched on. -/
theorem handleSubmit_login_accepted (c : LoginState) (storage : Storage) (env : Env)
    (token user : String) (hsec : c.securityEnabled = true) (hlock : c.isLockedOut = false)
    (hnormal : c.showMasterPasswords = false ∨ c.formData.masterPassword2 = "" ∨
      c.formData.masterPassword3 = "")
    (hok : env.loginResponse = .ok token user) :
    (handleSubmit c storage env).state =
      { c with error := "", loading := false, failedAttempts := 0, masterAttempts := 0,
               showMasterPasswords := false } ∧
    (handleSubmit c storage env).storage =
      ((((storage.setItem "novatech-token" token).setItem "novatech-user" user).removeItem
        FAILED_ATTEMPTS_KEY).removeItem MASTER_ATTEMPTS_KEY).removeItem LOCKOUT_TIMESTAMP_KEY := by
  rcases hnormal with h | h | h <;>
    simp [handleSubmit, hsec, hlock, h, hok, Page.setError, Page.setLoading,
      Page.post, Page.storeSession, Page.navigateToDashboard, resetFailedAttempts]

/-- C14, counterexample. With the security toggle disabled, a submission whose
normal login the server accepts leaves `failedAttempts` at 10, in the state and
in the store, and leaves `lockoutUntil` in the store. -/
theorem accepted_login_keeps_counters_when_disabled :
    sampleAccepted.2.loginResponse = .ok "token" "user" ∧
    (handleSubmit { sampleDisabledState with formData := sampleAccepted.1 } sampleLockedStorage
      sampleAccepted.2).calls = [.login "admin@novatech.az" "secret"] ∧
    (handleSubmit { sampleDisabledState with formData := sampleAccepted.1 } sampleLockedStorage
      sampleAccepted.2).state.failedAttempts = 10 ∧
    (handleSubmit { sampleDisabledState with formData := sampleAccepted.1 } sampleLockedStorage
      sampleAccepted.2).storage.getItem FAILED_ATTEMPTS_KEY = some "10" ∧
    (handleSubmit { sampleDisabledState with formData := sampleAccepted.1 } sampleLockedStorage
      sampleAccepted.2).storage.getItem LOCKOUT_TIMESTAMP_KEY = some "1700259200000" := by
  refine ⟨rfl, ?_, ?_, ?_, ?_⟩ <;> decide

/-- C14, amended. With the security toggle enabled, for every guard state and
every submission in which the normal login request is sent and the server
accepts it, `failedAttempts` is 0 afterwards in the state, its key is gone from
the store (it reads back as 0), and `lockoutUntil` is absent from the store. -/
theorem accepted_login_resets (c : LoginState) (storage : Storage) (env : Env)
    (token user : String) (hsec : c.securityEnabled = true)
    (hcall : Call.login c.formData.email c.formData.password ∈
      (handleSubmit c storage env).calls)
    (hok : env.loginResponse = .ok token user) :
    (handleSubmit c storage env).state.failedAttempts = 0 ∧
    (handleSubmit c storage env).storage.getItem FAILED_ATTEMPTS_KEY = none ∧
    loadCounter (handleSubmit c storage env).storage FAILED_ATTEMPTS_KEY = some 0 ∧
    (handleSubmit c storage env).storage.getItem LOCKOUT_TIMESTAMP_KEY = none := by
  rcases (login_called_iff c storage env).1 hcall with h | ⟨_, hlock, hm⟩
  · rw [hsec] at h; cases h
  · have hnormal : c.showMasterPasswords = false ∨ c.formData.masterPassword2 = "" ∨
        c.formData.masterPassword3 = "" := by
      by_cases h1 : c.showMasterPasswords = true
      · by_cases h2 : c.formData.masterPassword2 = ""
        · exact Or.inr (Or.inl h2)
        · by_cases h3 : c.formData.masterPassword3 = ""
          · exact Or.inr (Or.inr h3)
          · exact absurd ⟨h1, h2, h3⟩ hm
      · exact Or.inl (by simpa using h1)
    obtain ⟨hs, hst⟩ := handleSubmit_login_accepted c storage env token user hsec hlock hnormal hok
    obtain ⟨g1, _, g3, _⟩ :=
      getItem_cleared ((storage.setItem "novatech-token" token).setItem "novatech-user" user)
    rw [hs, hst]
    refine ⟨rfl, g1, ?_, g3⟩
    rw [loadCounter, g1]

theorem accepted_login_resets_witness :
    (handleSubmit { sampleRecoveryState.1 with formData := { sampleAccepted.1 with
        masterPassword2 := "" } } sampleLockedStorage sampleAccepted.2).state.failedAttempts
      = 0 ∧
    (handleSubmit { sampleRecoveryState.1 with formData := { sampleAccepted.1 with
        masterPassword2 := "" } } sampleLockedStorage sampleAccepted.2).storage.getItem
      FAILED_ATTEMPTS_KEY = none ∧
    loadCounter (handleSubmit { sampleRecoveryState.1 with formData := { sampleAccepted.1 with
        masterPassword2 := "" } } sampleLockedStorage sampleAccepted.2).storage
      FAILED_ATTEMPTS_KEY = some 0 ∧
    (handleSubmit { sampleRecoveryState.1 with formData := { sampleAccepted.1 with
        masterPassword2 := "" } } sampleLockedStorage sampleAccepted.2).storage.getItem
      LOCKOUT_TIMESTAMP_KEY = none :=
  accepted_login_resets { sampleRecoveryState.1 with formData := { sampleAccepted.1 with
      masterPassword2 := "" } } sampleLockedStorage sampleAccepted.2 "token" "user" rfl
    (by decide) rfl


/-- The master-login request is sent exactly when the guard is on, the page is
not locked, the master-password fields are shown, and both hold the expected
values. -/
theorem masterLogin_called_iff (c : LoginState) (storage : Storage) (env : Env) :
    (∃ e a b, Call.masterLogin e a b ∈ (handleSubmit c storage env).calls) ↔
      (c.securityEnabled = true ∧ c.isLockedOut = false ∧ c.showMasterPasswords = true ∧
        c.formData.masterPassword2 = MASTER_PASSWORD_2 ∧
        c.formData.masterPassword3 = MASTER_PASSWORD_3) := by
  have m2 : MASTER_PASSWORD_2 ≠ "" := by decide
  have m3 : MASTER_PASSWORD_3 ≠ "" := by decide
  cases hsec : c.securityEnabled with
  | false =>
    cases hresp : env.loginResponse <;>
      simp [handleSubmit, hsec, hresp, Page.setError, Page.setLoading, Page.post,
        Page.storeSession, Page.navigateToDashboard]
  | true =>
    cases hlock : c.isLockedOut with
    | true => simp [handleSubmit, hsec, hlock, Page.setError]
    | false =>
      by_cases hc : c.formData.masterPassword2 = MASTER_PASSWORD_2 ∧
          c.formData.masterPassword3 = MASTER_PASSWORD_3
      · cases hshow : c.showMasterPasswords with
        | true =>
          cases hresp : env.masterLoginResponse with
          | ok token user =>
            simp [handleSubmit, hsec, hlock, hshow, hc, m2, m3, hresp, Page.setError,
              Page.setLoading, Page.post, Page.storeSession, Page.navigateToDashboard,
              resetFailedAttempts]
          | failure status detail =>
            simp [handleSubmit, hsec, hlock, hshow, hc, m2, m3, hresp, Page.setError,
              Page.setLoading, Page.post, incrementMasterAttempts, activateLockout]
            split_ifs <;> simp
        | false =>
          cases hresp : env.loginResponse with
          | ok token user =>
            simp [handleSubmit, hsec, hlock, hshow, hresp, Page.setError, Page.setLoading,
              Page.post, Page.storeSession, Page.navigateToDashboard, resetFailedAttempts]
          | failure status detail =>
            simp [handleSubmit, hsec, hlock, hshow, hresp, Page.setError, Page.setLoading,
              Page.post, incrementFailedAttempts]
            split_ifs <;> simp
      · have hright : ¬ (c.securityEnabled = true ∧ c.isLockedOut = false ∧
            c.showMasterPasswords = true ∧ c.formData.masterPassword2 = MASTER_PASSWORD_2 ∧
            c.formData.masterPassword3 = MASTER_PASSWORD_3) := fun h => hc ⟨h.2.2.2.1, h.2.2.2.2⟩
        rw [hsec, hlock] at hright
        refine iff_of_false ?_ hright
        rintro ⟨e, a, b, hmem⟩
        by_cases hm : c.showMasterPasswords = true ∧ c.formData.masterPassword2 ≠ "" ∧
            c.formData.masterPassword3 ≠ ""
        · obtain ⟨h1, h2, h3⟩ := hm
          revert hmem
          simp [handleSubmit, hsec, hlock, h1, h2, h3, hc, Page.setError,
            Page.setLoading, Page.post, incrementMasterAttempts, activateLockout]
          split_ifs <;> simp
        · have hcases : c.showMasterPasswords = false ∨ c.formData.masterPassword2 = "" ∨
              c.formData.masterPassword3 = "" := by
            by_cases h1 : c.showMasterPasswords = true
            · by_cases h2 : c.formData.masterPassword2 = ""
              · exact Or.inr (Or.inl h2)
              · by_cases h3 : c.formData.masterPassword3 = ""
                · exact Or.inr (Or.inr h3)
                · exact absurd ⟨h1, h2, h3⟩ hm
            · exact Or.inl (by simpa using h1)
          revert hmem
          cases hresp : env.loginResponse with
          | ok token user =>
            rcases hcases with h | h | h <;>
              simp [handleSubmit, hsec, hlock, h, hresp, Page.setError, Page.setLoading,
                Page.post, Page.storeSession, Page.navigateToDashboard, resetFailedAttempts]
          | failure status detail =>
            rcases hcases with h | h | h <;>
              simp [handleSubmit, hsec, hlock, h, hresp, Page.setError, Page.setLoading,
                Page.post, incrementFailedAttempts] <;>
              split_ifs <;> simp


theorem guardState_recovery (c : LoginState) (h : guardState c = .RECOVERY_MODE) :
    c.isLockedOut = false ∧ c.showMasterPasswords = true := by
  unfold guardState at h
  cases hl : c.isLockedOut <;> cases hs : c.showMasterPasswords <;> simp [hl, hs] at h ⊢

/-- An accepted master login. -/
theorem handleSubmit_master_accepted (c : LoginState) (storage : Storage) (env : Env)
    (token user : String) (hsec : c.securityEnabled = true) (hlock : c.isLockedOut = false)
    (hshow : c.showMasterPasswords = true)
    (h2 : c.formData.masterPassword2 = MASTER_PASSWORD_2)
    (h3 : c.formData.masterPassword3 = MASTER_PASSWORD_3)
    (hok : env.masterLoginResponse = .ok token user) :
    (handleSubmit c storage env).state =
      { c with error := "", loading := false, failedAttempts := 0, masterAttempts := 0,
               showMasterPasswords := false } ∧
    (handleSubmit c storage env).storage =
      ((((storage.setItem "novatech-token" token).setItem "novatech-user" user).removeItem
        FAILED_ATTEMPTS_KEY).removeItem MASTER_ATTEMPTS_KEY).removeItem LOCKOUT_TIMESTAMP_KEY ∧
    (handleSubmit c storage env).calls =
      [.masterLogin c.formData.email MASTER_PASSWORD_2 MASTER_PASSWORD_3] ∧
    (handleSubmit c storage env).navigatedTo = some "/nova-admin/dashboard" := by
  have m2 : MASTER_PASSWORD_2 ≠ "" := by decide
  have m3 : MASTER_PASSWORD_3 ≠ "" := by decide
  simp [handleSubmit, hsec, hlock, hshow, h2, h3, m2, m3, hok, Page.setError,
    Page.setLoading, Page.post, Page.storeSession, Page.navigateToDashboard,
    resetFailedAttempts]

/-- C15. In RECOVERY_MODE, a submission whose two master-password fields hold
the expected values and whose master login the server accepts ends in NORMAL:
the session token and the user record are stored, `failedAttempts` and
`masterAttempts` are 0, the two counter keys and the `lockoutUntil` key are gone
from the store, and the master-password fields are hidden. -/
theorem master_login_accepted (c : LoginState) (storage : Storage) (env : Env)
    (token user : String) (hsec : c.securityEnabled = true)
    (hrec : guardState c = .RECOVERY_MODE)
    (h2 : c.formData.masterPassword2 = MASTER_PASSWORD_2)
    (h3 : c.formData.masterPassword3 = MASTER_PASSWORD_3)
    (hok : env.masterLoginResponse = .ok token user) :
    (handleSubmit c storage env).calls =
      [.masterLogin c.formData.email MASTER_PASSWORD_2 MASTER_PASSWORD_3] ∧
    guardState (handleSubmit c storage env).state = .NORMAL ∧
    (handleSubmit c storage env).storage.getItem "novatech-token" = some token ∧
    (handleSubmit c storage env).storage.getItem "novatech-user" = some user ∧
    (handleSubmit c storage env).state.failedAttempts = 0 ∧
    (handleSubmit c storage env).state.masterAttempts = 0 ∧
    (handleSubmit c storage env).storage.getItem FAILED_ATTEMPTS_KEY = none ∧
    (handleSubmit c storage env).storage.getItem MASTER_ATTEMPTS_KEY = none ∧
    (handleSubmit c storage env).storage.getItem LOCKOUT_TIMESTAMP_KEY = none ∧
    (handleSubmit c storage env).state.showMasterPasswords = false := by
  obtain ⟨hlock, hshow⟩ := guardState_recovery c hrec
  obtain ⟨hs, hst, hcalls, _⟩ :=
    handleSubmit_master_accepted c storage env token user hsec hlock hshow h2 h3 hok
  obtain ⟨g1, g2, g3, g4⟩ :=
    getItem_cleared ((storage.setItem "novatech-token" token).setItem "novatech-user" user)
  obtain ⟨s1, s2⟩ := getItem_session storage token user
  rw [hs, hst]
  refine ⟨hcalls, ?_, ?_, ?_, rfl, rfl, g1, g2, g3, rfl⟩
  · simp [guardState, hlock]
  · rw [g4 _ (by decide) (by decide) (by decide), s1]
  · rw [g4 _ (by decide) (by decide) (by decide), s2]

theorem master_login_accepted_witness :
    (handleSubmit { sampleRecoveryState.1 with formData := sampleAccepted.1 }
      sampleRecoveryState.2 sampleAccepted.2).calls =
      [.masterLogin ({ sampleRecoveryState.1 with formData := sampleAccepted.1 } :
        LoginState).formData.email MASTER_PASSWORD_2 MASTER_PASSWORD_3] ∧
    guardState (handleSubmit { sampleRecoveryState.1 with formData := sampleAccepted.1 }
      sampleRecoveryState.2 sampleAccepted.2).state = .NORMAL ∧
    (handleSubmit { sampleRecoveryState.1 with formData := sampleAccepted.1 }
      sampleRecoveryState.2 sampleAccepted.2).storage.getItem "novatech-token" = some "token" ∧
    (handleSubmit { sampleRecoveryState.1 with formData := sampleAccepted.1 }
      sampleRecoveryState.2 sampleAccepted.2).storage.getItem "novatech-user" = some "user" ∧
    (handleSubmit { sampleRecoveryState.1 with formData := sampleAccepted.1 }
      sampleRecoveryState.2 sampleAccepted.2).state.failedAttempts = 0 ∧
    (handleSubmit { sampleRecoveryState.1 with formData := sampleAccepted.1 }
      sampleRecoveryState.2 sampleAccepted.2).state.masterAttempts = 0 ∧
    (handleSubmit { sampleRecoveryState.1 with formData := sampleAccepted.1 }
      sampleRecoveryState.2 sampleAccepted.2).storage.getItem FAILED_ATTEMPTS_KEY = none ∧
    (handleSubmit { sampleRecoveryState.1 with formData := sampleAccepted.1 }
      sampleRecoveryState.2 sampleAccepted.2).storage.getItem MASTER_ATTEMPTS_KEY = none ∧
    (handleSubmit { sampleRecoveryState.1 with formData := sampleAccepted.1 }
      sampleRecoveryState.2 sampleAccepted.2).storage.getItem LOCKOUT_TIMESTAMP_KEY = none ∧
    (handleSubmit { sampleRecoveryState.1 with formData := sampleAccepted.1 }
      sampleRecoveryState.2 sampleAccepted.2).state.showMasterPasswords = false :=
  master_login_accepted { sampleRecoveryState.1 with formData := sampleAccepted.1 }
    sampleRecoveryState.2 sampleAccepted.2 "token" "user" rfl rfl rfl rfl rfl

/-- The message set when the server answers the master login with 401. -/
theorem master_401_message (c : LoginState) (storage : Storage) (env : Env)
    (detail : Option String) (hsec : c.securityEnabled = true) (hlock : c.isLockedOut = false)
    (hshow : c.showMasterPasswords = true)
    (h2 : c.formData.masterPassword2 = MASTER_PASSWORD_2)
    (h3 : c.formData.masterPassword3 = MASTER_PASSWORD_3)
    (hresp : env.masterLoginResponse = .failure (some 401) detail) :
    (handleSubmit c storage env).state.error =
      "Incorrect master passwords. 2 attempts remaining before 3-day lockout." ∨
    (handleSubmit c storage env).state.error =
      "Incorrect master passwords. 1 attempts remaining before 3-day lockout." ∨
    (handleSubmit c storage env).state.error =
      "Master passwords incorrect. Admin panel locked for 3 days." := by
  have m2 : MASTER_PASSWORD_2 ≠ "" := by decide
  have m3 : MASTER_PASSWORD_3 ≠ "" := by decide
  by_cases h0 : c.masterAttempts = 0
  · left
    simp [handleSubmit, hsec, hlock, hshow, h2, h3, m2, m3, hresp, Page.setError,
      Page.setLoading, Page.post, incrementMasterAttempts, activateLockout,
      MASTER_ATTEMPTS_THRESHOLD, h0]
    rfl
  · by_cases h1 : c.masterAttempts = 1
    · right; left
      simp [handleSubmit, hsec, hlock, hshow, h2, h3, m2, m3, hresp, Page.setError,
        Page.setLoading, Page.post, incrementMasterAttempts, activateLockout,
        MASTER_ATTEMPTS_THRESHOLD, h1]
      rfl
    · right; right
      have hi : ¬ ((c.masterAttempts : Int) + 1 < 3) := by omega
      simp [handleSubmit, hsec, hlock, hshow, h2, h3, m2, m3, hresp, Page.setError,
        Page.setLoading, Page.post, incrementMasterAttempts, activateLockout,
        MASTER_ATTEMPTS_THRESHOLD, hi]

/-- C17. When the master-login request is sent and the server answers 404,
`masterAttempts`, `failedAttempts` and the store (`lockoutUntil` included) are
unchanged, the page does not lock, and the error message differs from every
message shown for a 401 answer to the same submission. -/
theorem master_login_not_found (c : LoginState) (storage : Storage) (env : Env)
    (detail : Option String)
    (hcall : ∃ e a b, Call.masterLogin e a b ∈ (handleSubmit c storage env).calls)
    (hresp : env.masterLoginResponse = .failure (some 404) detail) :
    (handleSubmit c storage env).state.masterAttempts = c.masterAttempts ∧
    (handleSubmit c storage env).state.failedAttempts = c.failedAttempts ∧
    (handleSubmit c storage env).storage = storage ∧
    (handleSubmit c storage env).state.isLockedOut = false ∧
    (handleSubmit c storage env).state.error =
      "Master passwords correct, but the email does not exist in the system" ∧
    ∀ (env2 : Env) (detail2 : Option String),
      env2.masterLoginResponse = .failure (some 401) detail2 →
      (handleSubmit c storage env2).state.error ≠ (handleSubmit c storage env).state.error := by
  obtain ⟨hsec, hlock, hshow, h2, h3⟩ := (masterLogin_called_iff c storage env).1 hcall
  have m2 : MASTER_PASSWORD_2 ≠ "" := by decide
  have m3 : MASTER_PASSWORD_3 ≠ "" := by decide
  have herr : (handleSubmit c storage env).state.error =
      "Master passwords correct, but the email does not exist in the system" := by
    simp [handleSubmit, hsec, hlock, hshow, h2, h3, m2, m3, hresp, Page.setError,
      Page.setLoading, Page.post]
  refine ⟨?_, ?_, ?_, ?_, herr, ?_⟩
  · simp [handleSubmit, hsec, hlock, hshow, h2, h3, m2, m3, hresp, Page.setError,
      Page.setLoading, Page.post]
  · simp [handleSubmit, hsec, hlock, hshow, h2, h3, m2, m3, hresp, Page.setError,
      Page.setLoading, Page.post]
  · simp [handleSubmit, hsec, hlock, hshow, h2, h3, m2, m3, hresp, Page.setError,
      Page.setLoading, Page.post]
  · simp [handleSubmit, hsec, hlock, hshow, h2, h3, m2, m3, hresp, Page.setError,
      Page.setLoading, Page.post]
  · intro env2 detail2 hresp2
    rw [herr]
    rcases master_401_message c storage env2 detail2 hsec hlock hshow h2 h3 hresp2 with
      h | h | h <;> rw [h] <;> decide

theorem master_login_not_found_witness :
    (handleSubmit { sampleRecoveryState.1 with formData := sampleAccepted.1 }
      sampleRecoveryState.2 sampleNotFound).state.masterAttempts =
      ({ sampleRecoveryState.1 with formData := sampleAccepted.1 } : LoginState).masterAttempts ∧
    (handleSubmit { sampleRecoveryState.1 with formData := sampleAccepted.1 }
      sampleRecoveryState.2 sampleNotFound).state.failedAttempts =
      ({ sampleRecoveryState.1 with formData := sampleAccepted.1 } : LoginState).failedAttempts ∧
    (handleSubmit { sampleRecoveryState.1 with formData := sampleAccepted.1 }
      sampleRecoveryState.2 sampleNotFound).storage = sampleRecoveryState.2 ∧
    (handleSubmit { sampleRecoveryState.1 with formData := sampleAccepted.1 }
      sampleRecoveryState.2 sampleNotFound).state.isLockedOut = false ∧
    (handleSubmit { sampleRecoveryState.1 with formData := sampleAccepted.1 }
      sampleRecoveryState.2 sampleNotFound).state.error =
      "Master passwords correct, but the email does not exist in the system" ∧
    ∀ (env2 : Env) (detail2 : Option String),
      env2.masterLoginResponse = .failure (some 401) detail2 →
      (handleSubmit { sampleRecoveryState.1 with formData := sampleAccepted.1 }
        sampleRecoveryState.2 env2).state.error ≠
      (handleSubmit { sampleRecoveryState.1 with formData := sampleAccepted.1 }
        sampleRecoveryState.2 sampleNotFound).state.error :=
  master_login_not_found { sampleRecoveryState.1 with formData := sampleAccepted.1 }
    sampleRecoveryState.2 sampleNotFound (some "User not found")
    ⟨"admin@novatech.az", MASTER_PASSWORD_2, MASTER_PASSWORD_3, by decide⟩ rfl


/-! ### Numbers below `2^53` divide exactly -/

theorem binaryExponentAux_spec (fuel n : Nat) (hn : n ≠ 0) (hf : n ≤ fuel) :
    2 ^ binaryExponentAux fuel n ≤ n ∧ n < 2 ^ (binaryExponentAux fuel n + 1) := by
  induction fuel generalizing n with
  | zero => omega
  | succ fuel ih =>
    unfold binaryExponentAux
    by_cases h2 : n < 2
    · rw [if_pos h2]
      simp
      omega
    · rw [if_neg h2]
      obtain ⟨h1, h3⟩ := ih (n / 2) (by omega) (by omega)
      constructor
      · rw [pow_succ]; omega
      · rw [pow_succ]; omega

theorem binaryExponent_spec (n : Nat) (hn : n ≠ 0) :
    2 ^ binaryExponent n ≤ n ∧ n < 2 ^ (binaryExponent n + 1) :=
  binaryExponentAux_spec n n hn (le_refl n)

theorem roundHalfEven_cases (num den : Nat) :
    roundHalfEven num den = num / den ∨
    (roundHalfEven num den = num / den + 1 ∧ den ≤ 2 * (num % den)) := by
  unfold roundHalfEven
  split_ifs <;> first | (left; rfl) | (right; exact ⟨rfl, by omega⟩)

/-- The rounding of the scaled quotient does not reach the next integer while the
dividend is below `2^53`. -/
theorem roundHalfEven_div (a b T : Nat) (hb : 0 < b) (hT : 0 < T)
    (hE : 2 ^ 52 * b ≤ a * T) (ha : a < 2 ^ 53) :
    roundHalfEven (a * T) b / T = a / b := by
  have hk := Nat.div_add_mod a b
  have hr := Nat.mod_lt a hb
  have hq := Nat.div_add_mod (a * T) b
  have hr2 := Nat.mod_lt (a * T) hb
  set k := a / b with hkdef
  set r0 := a % b
  set q := a * T / b with hqdef
  set r := a * T % b
  have hlow : k * T ≤ q := by
    rw [hqdef, Nat.le_div_iff_mul_le hb]
    calc k * T * b = b * k * T := by ring
      _ ≤ a * T := Nat.mul_le_mul_right T (by omega)
  have hup : q < (k + 1) * T := by
    rw [hqdef, Nat.div_lt_iff_lt_mul hb]
    calc a * T < (b * (k + 1)) * T := by
          apply Nat.mul_lt_mul_of_pos_right _ hT
          rw [Nat.mul_succ]; omega
      _ = (k + 1) * T * b := by ring
  have goal : ∀ n, k * T ≤ n → n < (k + 1) * T → n / T = k := by
    intro n h1 h2
    apply Nat.div_eq_of_lt_le
    · exact h1
    · exact h2
  rcases roundHalfEven_cases (a * T) b with h | ⟨h, hhalf⟩
  · rw [h]; exact goal q hlow hup
  · rw [h]
    apply goal (q + 1) (by omega)
    by_contra hcon
    have hqe : q + 1 = (k + 1) * T := by omega
    -- a * T = b * q + r with 2 r ≥ b, and a * T ≤ (b (k+1) - 1) T
    have h1 : a * T + T ≤ b * ((k + 1) * T) := by
      have : a + 1 ≤ b * (k + 1) := by rw [Nat.mul_succ]; omega
      calc a * T + T = (a + 1) * T := by ring
        _ ≤ b * (k + 1) * T := Nat.mul_le_mul_right T this
        _ = b * ((k + 1) * T) := by ring
    have h2 : b * ((k + 1) * T) = b * q + b := by rw [← hqe]; ring
    have h3 : 2 * T ≤ b := by omega
    have h4 : 2 ^ 52 * (2 * T) ≤ a * T := le_trans (Nat.mul_le_mul_left _ h3) hE
    have h5 : 2 ^ 53 * T ≤ a * T := by
      calc 2 ^ 53 * T = 2 ^ 52 * (2 * T) := by ring
        _ ≤ a * T := h4
    have h6 : 2 ^ 53 ≤ a := Nat.le_of_mul_le_mul_right h5 hT
    omega

/-- The binary exponent of the quotient of a dividend below `2^53`. -/
theorem quotientExponent_small (a b : Nat) (ha0 : a ≠ 0) (hb : b ≠ 0) (ha : a < 2 ^ 53) :
    ∃ t : Nat, quotientExponent a b - 52 = -(t : Int) ∧ 2 ^ 52 * b ≤ a * 2 ^ t := by
  obtain ⟨ha1, ha2⟩ := binaryExponent_spec a ha0
  obtain ⟨hb1, hb2⟩ := binaryExponent_spec b hb
  have hla : binaryExponent a ≤ 52 := by
    have : 2 ^ binaryExponent a < 2 ^ 53 := lt_of_le_of_lt ha1 ha
    have := (Nat.pow_lt_pow_iff_right (by decide : 1 < 2)).1 this
    omega
  unfold quotientExponent
  by_cases hc : b * 2 ^ binaryExponent a ≤ a * 2 ^ binaryExponent b
  · rw [if_pos hc]
    refine ⟨52 - binaryExponent a + binaryExponent b, by omega, ?_⟩
    calc 2 ^ 52 * b = b * 2 ^ binaryExponent a * 2 ^ (52 - binaryExponent a) := by
          rw [mul_assoc, ← pow_add, Nat.add_sub_cancel' hla]; ring
      _ ≤ a * 2 ^ binaryExponent b * 2 ^ (52 - binaryExponent a) :=
          Nat.mul_le_mul_right _ hc
      _ = a * 2 ^ (52 - binaryExponent a + binaryExponent b) := by
          rw [mul_assoc, ← pow_add, Nat.add_comm]
  · rw [if_neg hc]
    refine ⟨53 - binaryExponent a + binaryExponent b, by omega, ?_⟩
    calc 2 ^ 52 * b ≤ 2 ^ 52 * 2 ^ (binaryExponent b + 1) :=
          Nat.mul_le_mul_left _ (le_of_lt hb2)
      _ = 2 ^ binaryExponent a * 2 ^ (53 - binaryExponent a + binaryExponent b) := by
          rw [← pow_add, ← pow_add]
          congr 1
          omega
      _ ≤ a * 2 ^ (53 - binaryExponent a + binaryExponent b) :=
          Nat.mul_le_mul_right _ ha1

/-- For a Number below `2^53` holding a natural number and a positive divisor,
`Math.floor(a / b)` is the integer quotient. -/
theorem mathFloor_numberDiv (a b : Nat) (hb : 0 < b) (ha : a < 2 ^ 53) :
    mathFloor (numberDiv a b) = a / b := by
  by_cases ha0 : a = 0
  · subst ha0
    simp [numberDiv, mathFloor]
  · obtain ⟨t, ht, hE⟩ := quotientExponent_small a b ha0 (by omega) ha
    have e1 : (-(quotientExponent a b - 52)).toNat = t := by omega
    have e2 : (quotientExponent a b - 52).toNat = 0 := by omega
    simp only [numberDiv, if_neg ha0, mathFloor, e1, e2, pow_zero, mul_one]
    exact roundHalfEven_div a b (2 ^ t) hb (Nat.two_pow_pos t) hE ha

theorem numberToString_small (n : Nat) (h : n < 2 ^ 53) : numberToString n = toString n := by
  rw [numberToString, if_pos h]

/-- The exponent computed by `quotientExponent` is the binary exponent of the
exact quotient: `2^e ≤ a / b < 2^(e+1)`, written without fractions. -/
theorem quotientExponent_spec (a b : Nat) (ha : a ≠ 0) (hb : b ≠ 0) :
    b * 2 ^ (quotientExponent a b).toNat ≤ a * 2 ^ (-quotientExponent a b).toNat ∧
    a * 2 ^ (-quotientExponent a b).toNat < 2 * (b * 2 ^ (quotientExponent a b).toNat) := by
  obtain ⟨ha1, ha2⟩ := binaryExponent_spec a ha
  obtain ⟨hb1, hb2⟩ := binaryExponent_spec b hb
  have hpos : ∀ n : Nat, 0 < 2 ^ n := fun n => Nat.two_pow_pos n
  unfold quotientExponent
  by_cases hc : b * 2 ^ binaryExponent a ≤ a * 2 ^ binaryExponent b
  · rw [if_pos hc]
    by_cases hl : binaryExponent b ≤ binaryExponent a
    · obtain ⟨d, hd⟩ := Nat.exists_eq_add_of_le hl
      have e1 : ((binaryExponent a : Int) - (binaryExponent b : Int)).toNat = d := by omega
      have e2 : (-((binaryExponent a : Int) - (binaryExponent b : Int))).toNat = 0 := by omega
      rw [e1, e2, pow_zero, mul_one]
      rw [hd, pow_add] at hc
      rw [hd, pow_succ, pow_add] at ha2
      constructor
      · have : b * 2 ^ d * 2 ^ binaryExponent b ≤ a * 2 ^ binaryExponent b := by
          calc b * 2 ^ d * 2 ^ binaryExponent b = b * (2 ^ binaryExponent b * 2 ^ d) := by ring
            _ ≤ a * 2 ^ binaryExponent b := hc
        exact Nat.le_of_mul_le_mul_right this (hpos _)
      · calc a < 2 ^ binaryExponent b * 2 ^ d * 2 := ha2
          _ ≤ b * 2 ^ d * 2 := Nat.mul_le_mul_right _ (Nat.mul_le_mul_right _ hb1)
          _ = 2 * (b * 2 ^ d) := by ring
    · obtain ⟨d, hd⟩ := Nat.exists_eq_add_of_le (Nat.le_of_lt (Nat.lt_of_not_le hl))
      have e1 : ((binaryExponent a : Int) - (binaryExponent b : Int)).toNat = 0 := by omega
      have e2 : (-((binaryExponent a : Int) - (binaryExponent b : Int))).toNat = d := by omega
      rw [e1, e2, pow_zero, mul_one]
      rw [hd, pow_add] at hc
      rw [hd, pow_succ, pow_add] at hb2
      rw [hd, pow_add] at hb1
      constructor
      · have : b * 2 ^ binaryExponent a ≤ a * 2 ^ d * 2 ^ binaryExponent a := by
          calc b * 2 ^ binaryExponent a ≤ a * (2 ^ binaryExponent a * 2 ^ d) := hc
            _ = a * 2 ^ d * 2 ^ binaryExponent a := by ring
        exact Nat.le_of_mul_le_mul_right this (hpos _)
      · calc a * 2 ^ d < 2 ^ (binaryExponent a + 1) * 2 ^ d :=
              Nat.mul_lt_mul_of_pos_right ha2 (hpos _)
          _ = 2 * (2 ^ binaryExponent a * 2 ^ d) := by ring
          _ ≤ 2 * b := Nat.mul_le_mul_left _ hb1
  · rw [if_neg hc]
    have hc2 : a * 2 ^ binaryExponent b < b * 2 ^ binaryExponent a := Nat.lt_of_not_le hc
    by_cases hl : binaryExponent b + 1 ≤ binaryExponent a
    · obtain ⟨d, hd⟩ := Nat.exists_eq_add_of_le hl
      have e1 : ((binaryExponent a : Int) - (binaryExponent b : Int) - 1).toNat = d := by omega
      have e2 : (-((binaryExponent a : Int) - (binaryExponent b : Int) - 1)).toNat = 0 := by
        omega
      rw [e1, e2, pow_zero, mul_one]
      constructor
      · calc b * 2 ^ d ≤ 2 ^ (binaryExponent b + 1) * 2 ^ d :=
              Nat.mul_le_mul_right _ (Nat.le_of_lt hb2)
          _ = 2 ^ binaryExponent a := by rw [hd]; ring
          _ ≤ a := ha1
      · have : a * 2 ^ binaryExponent b < 2 * (b * 2 ^ d) * 2 ^ binaryExponent b := by
          calc a * 2 ^ binaryExponent b < b * 2 ^ binaryExponent a := hc2
            _ = 2 * (b * 2 ^ d) * 2 ^ binaryExponent b := by
                rw [hd, pow_add, pow_succ]; ring
        exact Nat.lt_of_mul_lt_mul_right this
    · obtain ⟨d, hd⟩ := Nat.exists_eq_add_of_le (Nat.le_of_lt_succ (Nat.lt_of_not_le hl))
      have e1 : ((binaryExponent a : Int) - (binaryExponent b : Int) - 1).toNat = 0 := by omega
      have e2 : (-((binaryExponent a : Int) - (binaryExponent b : Int) - 1)).toNat = d + 1 := by
        omega
      rw [e1, e2, pow_zero, mul_one]
      constructor
      · calc b ≤ 2 ^ (binaryExponent b + 1) := Nat.le_of_lt hb2
          _ = 2 ^ binaryExponent a * 2 ^ (d + 1) := by rw [hd]; ring
          _ ≤ a * 2 ^ (d + 1) := Nat.mul_le_mul_right _ ha1
      · have : a * 2 ^ (d + 1) * 2 ^ binaryExponent a < 2 * b * 2 ^ binaryExponent a := by
          calc a * 2 ^ (d + 1) * 2 ^ binaryExponent a
                = 2 * (a * 2 ^ binaryExponent b) := by rw [hd, pow_add, pow_succ]; ring
            _ < 2 * (b * 2 ^ binaryExponent a) := by omega
            _ = 2 * b * 2 ^ binaryExponent a := by ring
        exact Nat.lt_of_mul_lt_mul_right this

/-! ### The countdown text -/

/-- Below `2^53` milliseconds every division of `formatTimeRemaining` is exact
and every part is printed as its decimal numeral. -/
theorem formatTimeRemaining_small (ms : Nat) (hms : ms < 2 ^ 53) :
    formatTimeRemaining ms =
      toString (ms / 1000 / (24 * 60 * 60)) ++ "d " ++
        toString (ms / 1000 % (24 * 60 * 60) / (60 * 60)) ++ "h " ++
        toString (ms / 1000 % (60 * 60) / 60) ++ "m " ++ toString (ms / 1000 % 60) ++ "s" := by
  have h1 : mathFloor (numberDiv ms 1000) = ms / 1000 :=
    mathFloor_numberDiv ms 1000 (by decide) hms
  have h2 : mathFloor (numberDiv (ms / 1000) (24 * 60 * 60)) = ms / 1000 / (24 * 60 * 60) :=
    mathFloor_numberDiv _ _ (by decide) (by omega)
  have h3 : mathFloor (numberDiv (ms / 1000 % (24 * 60 * 60)) (60 * 60)) =
      ms / 1000 % (24 * 60 * 60) / (60 * 60) :=
    mathFloor_numberDiv _ _ (by decide) (by omega)
  have h4 : mathFloor (numberDiv (ms / 1000 % (60 * 60)) 60) = ms / 1000 % (60 * 60) / 60 :=
    mathFloor_numberDiv _ _ (by decide) (by omega)
  simp only [formatTimeRemaining, h1, h2, h3, h4]
  rw [numberToString_small _ (by omega), numberToString_small _ (by omega),
    numberToString_small _ (by omega), numberToString_small _ (by omega)]

/-- C19, counterexample. The Number `2^63` is a non-negative integer number of
milliseconds. Its quotient by 1000 is rounded up by the division, so
`formatTimeRemaining` prints `106751991167d 7h 12m 56s`: the parts add up to
`floor(ms / 1000) + 1`, and no parts with the claimed sum print as that text. -/
theorem formatTimeRemaining_rounds_up :
    formatTimeRemaining 9223372036854775808 = "106751991167d 7h 12m 56s" ∧
    numberValue 9223372036854775808 = 9223372036854775808 ∧
    mathFloor (numberDiv 9223372036854775808 1000) = 9223372036854775808 / 1000 + 1 ∧
    106751991167 * 86400 + 7 * 3600 + 12 * 60 + 56 = 9223372036854775808 / 1000 + 1 ∧
    ¬ ∃ d h m s : Nat,
      formatTimeRemaining 9223372036854775808 =
        toString d ++ "d " ++ toString h ++ "h " ++ toString m ++ "m " ++ toString s ++ "s" ∧
      h < 24 ∧ m < 60 ∧ s < 60 ∧
      d * 86400 + h * 3600 + m * 60 + s = 9223372036854775808 / 1000 := by
  refine ⟨by decide, by decide, by decide, by decide, ?_⟩
  rintro ⟨d, h, m, s, he, hh, hm, hs, hsum⟩
  have hd : d = 106751991167 := by omega
  have hh2 : h = 7 := by omega
  have hm2 : m = 12 := by omega
  have hs2 : s = 55 := by omega
  subst hd hh2 hm2 hs2
  revert he
  decide

/-- C19, amended. For every number of milliseconds `ms` below `2^53`,
`formatTimeRemaining(ms)` is the text `{d}d {h}h {m}m {s}s` for natural numbers
with `h < 24`, `m < 60`, `s < 60` and
`d*86400 + h*3600 + m*60 + s = floor(ms / 1000)`; for the full lockout duration
259200000 it is `3d 0h 0m 0s`. -/
theorem formatTimeRemaining_spec (ms : Nat) (hms : ms < 2 ^ 53) :
    (∃ d h m s : Nat,
      formatTimeRemaining ms =
        toString d ++ "d " ++ toString h ++ "h " ++ toString m ++ "m " ++ toString s ++ "s" ∧
      h < 24 ∧ m < 60 ∧ s < 60 ∧
      d * 86400 + h * 3600 + m * 60 + s = ms / 1000) ∧
    formatTimeRemaining 259200000 = "3d 0h 0m 0s" ∧
    formatTimeRemaining LOCKOUT_DURATION = "3d 0h 0m 0s" := by
  refine ⟨⟨ms / 1000 / (24 * 60 * 60), (ms / 1000 % (24 * 60 * 60)) / (60 * 60),
    (ms / 1000 % (60 * 60)) / 60, ms / 1000 % 60, formatTimeRemaining_small ms hms,
    ?_, ?_, ?_, ?_⟩, by decide, by decide⟩
  · omega
  · omega
  · omega
  · omega

theorem formatTimeRemaining_spec_witness :
    (∃ d h m s : Nat,
      formatTimeRemaining 90061000 =
        toString d ++ "d " ++ toString h ++ "h " ++ toString m ++ "m " ++ toString s ++ "s" ∧
      h < 24 ∧ m < 60 ∧ s < 60 ∧
      d * 86400 + h * 3600 + m * 60 + s = 90061000 / 1000) ∧
    formatTimeRemaining 259200000 = "3d 0h 0m 0s" ∧
    formatTimeRemaining LOCKOUT_DURATION = "3d 0h 0m 0s" :=
  formatTimeRemaining_spec 90061000 (by decide)

/-! ### Switching the language -/

/-- C20. After `setLanguage("az")` on a page showing en, `getContent(c)` is
`getLocalizedContent(c, "az")` for every content value `c`; so a mapping with a
non-empty az entry resolves to that entry, and not to an en entry that differs
from it. -/
theorem getContent_after_switch (c : JSValue) :
    setLanguage "az" "en" = "az" ∧
    getContent (setLanguage "az" "en") c = getLocalizedContent c "az" ∧
    ∀ (m : List (String × String)) (s : String), m.lookup "az" = some s → s ≠ "" →
      getContent (setLanguage "az" "en") (mapping m) = .ok (.str s) ∧
      ∀ e, m.lookup "en" = some e → e ≠ s →
        getContent (setLanguage "az" "en") (mapping m) ≠ .ok (.str e) := by
  have hset : setLanguage "az" "en" = "az" := by decide
  refine ⟨hset, by rw [hset]; rfl, ?_⟩
  intro m s hs hne
  have hv : (mapping m).getProp "az" = .ok (.str s) := by rw [getProp_mapping, hs]
  have key : getContent (setLanguage "az" "en") (mapping m) = .ok (.str s) := by
    rw [hset]
    show getLocalizedContent (mapping m) "az" = _
    have h : getLocalizedContent (mapping m) "az" = _ :=
      getLocalizedContent_obj _ "az" _ _ hv (getProp_mapping m "en")
    rw [h]
    simp [JSValue.truthy, hne]
  refine ⟨key, ?_⟩
  intro e _ hes
  rw [key]
  intro h
  injection h with h
  injection h with h
  exact hes h.symm


/-! ### The lockout expiry check -/

theorem loadCounter_congr (st1 st2 : Storage) (k : String)
    (h : st1.getItem k = st2.getItem k) : loadCounter st1 k = loadCounter st2 k := by
  unfold loadCounter
  rw [h]

/-- The store after the expiry branch: the timestamp and the failed-attempts
counter are gone, the master-attempts counter is what it was. -/
theorem getItem_expired (st : Storage) :
    ((st.removeItem LOCKOUT_TIMESTAMP_KEY).removeItem FAILED_ATTEMPTS_KEY).getItem
      LOCKOUT_TIMESTAMP_KEY = none ∧
    ((st.removeItem LOCKOUT_TIMESTAMP_KEY).removeItem FAILED_ATTEMPTS_KEY).getItem
      FAILED_ATTEMPTS_KEY = none ∧
    ((st.removeItem LOCKOUT_TIMESTAMP_KEY).removeItem FAILED_ATTEMPTS_KEY).getItem
      MASTER_ATTEMPTS_KEY = st.getItem MASTER_ATTEMPTS_KEY := by
  refine ⟨?_, ?_, ?_⟩
  · rw [getItem_removeItem_of_ne _ _ _ (by decide), getItem_removeItem_self]
  · rw [getItem_removeItem_self]
  · rw [getItem_removeItem_of_ne _ _ _ (by decide), getItem_removeItem_of_ne _ _ _ (by decide)]

/-- The mount effect on a store whose lockout has expired. -/
theorem mountEffect_expired (c : LoginState) (storage : Storage) (ts : String)
    (lockoutUntil now m : Nat)
    (hts : storage.getItem LOCKOUT_TIMESTAMP_KEY = some ts) (hne : ts ≠ "")
    (hparse : parseInt ts = some (lockoutUntil : Int))
    (hm : loadCounter storage MASTER_ATTEMPTS_KEY = some m) (hexp : lockoutUntil ≤ now) :
    mountEffect c storage now =
      some ({ c with failedAttempts := 0, showMasterPasswords := false, masterAttempts := m },
        (storage.removeItem LOCKOUT_TIMESTAMP_KEY).removeItem FAILED_ATTEMPTS_KEY) := by
  obtain ⟨_, g2, g3⟩ := getItem_expired storage
  have hlt : ¬ ((now : Int) < (lockoutUntil : Int)) := by omega
  have l1 : loadCounter ((storage.removeItem LOCKOUT_TIMESTAMP_KEY).removeItem
      FAILED_ATTEMPTS_KEY) FAILED_ATTEMPTS_KEY = some 0 := by
    rw [loadCounter, g2]
  have l2 : loadCounter ((storage.removeItem LOCKOUT_TIMESTAMP_KEY).removeItem
      FAILED_ATTEMPTS_KEY) MASTER_ATTEMPTS_KEY = some m := by
    rw [loadCounter_congr _ storage _ g3, hm]
  simp [mountEffect, hts, hne, hparse, hlt, l1, l2, FAILED_ATTEMPTS_THRESHOLD]

/-- The mount effect on a store whose lockout is still running. -/
theorem mountEffect_locked (c : LoginState) (storage : Storage) (ts : String)
    (lockoutUntil now f m : Nat)
    (hts : storage.getItem LOCKOUT_TIMESTAMP_KEY = some ts) (hne : ts ≠ "")
    (hparse : parseInt ts = some (lockoutUntil : Int))
    (hf : loadCounter storage FAILED_ATTEMPTS_KEY = some f)
    (hm : loadCounter storage MASTER_ATTEMPTS_KEY = some m) (hrun : now < lockoutUntil) :
    mountEffect c storage now =
      some ({ c with isLockedOut := true, lockoutTimeRemaining := lockoutUntil - now,
                     failedAttempts := f, showMasterPasswords := decide (10 ≤ f),
                     masterAttempts := m }, storage) := by
  have hlt : (now : Int) < (lockoutUntil : Int) := by omega
  have hsub : ((lockoutUntil : Int) - (now : Int)).toNat = lockoutUntil - now := by omega
  simp [mountEffect, hts, hne, hparse, hlt, hf, hm, hsub, FAILED_ATTEMPTS_THRESHOLD]

/-- The poll on a store whose lockout has expired. -/
theorem pollTick_expired (c : LoginState) (storage : Storage) (ts : String)
    (lockoutUntil now : Nat) (hc : c.isLockedOut = true)
    (hts : storage.getItem LOCKOUT_TIMESTAMP_KEY = some ts) (hne : ts ≠ "")
    (hparse : parseInt ts = some (lockoutUntil : Int)) (hexp : lockoutUntil ≤ now) :
    pollTick c storage now =
      some ({ c with isLockedOut := false, lockoutTimeRemaining := 0, failedAttempts := 0,
                     showMasterPasswords := false },
        (storage.removeItem LOCKOUT_TIMESTAMP_KEY).removeItem FAILED_ATTEMPTS_KEY) := by
  have hle : (lockoutUntil : Int) - (now : Int) ≤ 0 := by omega
  simp [pollTick, hc, hts, hne, hparse, hle]

/-- The poll on a store whose lockout is still running. -/
theorem pollTick_locked (c : LoginState) (storage : Storage) (ts : String)
    (lockoutUntil now : Nat) (hc : c.isLockedOut = true)
    (hts : storage.getItem LOCKOUT_TIMESTAMP_KEY = some ts) (hne : ts ≠ "")
    (hparse : parseInt ts = some (lockoutUntil : Int)) (hrun : now < lockoutUntil) :
    pollTick c storage now =
      some ({ c with lockoutTimeRemaining := lockoutUntil - now }, storage) := by
  have hle : ¬ ((lockoutUntil : Int) - (now : Int) ≤ 0) := by omega
  have hsub : ((lockoutUntil : Int) - (now : Int)).toNat = lockoutUntil - now := by omega
  simp [pollTick, hc, hts, hne, hparse, hle, hsub]

/-- C12. The lockout expiry check, on page mount and on the 1-second poll of a
locked page, treats the lockout as expired exactly when `now ≥ lockoutUntil`,
the boundary included: then the guard is in NORMAL with `isLockedOut` false, the
stored `lockoutUntil` removed, `failedAttempts` 0 and the master-password fields
hidden; when `now < lockoutUntil` the guard is LOCKED_OUT with remaining time
`lockoutUntil - now` and the stored `lockoutUntil` kept. -/
theorem lockout_expiry_check (c : LoginState) (storage : Storage) (ts : String)
    (lockoutUntil now : Nat) (hc : c.isLockedOut = true)
    (hts : storage.getItem LOCKOUT_TIMESTAMP_KEY = some ts) (hne : ts ≠ "")
    (hparse : parseInt ts = some (lockoutUntil : Int))
    (hf : WellFormedCounter storage FAILED_ATTEMPTS_KEY)
    (hm : WellFormedCounter storage MASTER_ATTEMPTS_KEY) :
    (lockoutUntil ≤ now →
      (∃ r, mountEffect initialState storage now = some r ∧
        guardState r.1 = .NORMAL ∧ r.1.isLockedOut = false ∧
        r.2.getItem LOCKOUT_TIMESTAMP_KEY = none ∧ r.1.failedAttempts = 0 ∧
        r.1.showMasterPasswords = false) ∧
      (∃ r, pollTick c storage now = some r ∧
        guardState r.1 = .NORMAL ∧ r.1.isLockedOut = false ∧
        r.2.getItem LOCKOUT_TIMESTAMP_KEY = none ∧ r.1.failedAttempts = 0 ∧
        r.1.showMasterPasswords = false)) ∧
    (now < lockoutUntil →
      (∃ r, mountEffect initialState storage now = some r ∧
        guardState r.1 = .LOCKED_OUT ∧ r.1.isLockedOut = true ∧
        r.1.lockoutTimeRemaining = lockoutUntil - now ∧
        r.2.getItem LOCKOUT_TIMESTAMP_KEY = some ts) ∧
      (∃ r, pollTick c storage now = some r ∧
        guardState r.1 = .LOCKED_OUT ∧ r.1.isLockedOut = true ∧
        r.1.lockoutTimeRemaining = lockoutUntil - now ∧
        r.2.getItem LOCKOUT_TIMESTAMP_KEY = some ts)) := by
  obtain ⟨f, hf⟩ := hf
  obtain ⟨m, hm⟩ := hm
  obtain ⟨g1, _, _⟩ := getItem_expired storage
  constructor
  · intro hexp
    constructor
    · exact ⟨_, mountEffect_expired initialState storage ts lockoutUntil now m hts hne hparse hm
        hexp, rfl, rfl, g1, rfl, rfl⟩
    · exact ⟨_, pollTick_expired c storage ts lockoutUntil now hc hts hne hparse hexp,
        rfl, rfl, g1, rfl, rfl⟩
  · intro hrun
    constructor
    · exact ⟨_, mountEffect_locked initialState storage ts lockoutUntil now f m hts hne hparse
        hf hm hrun, rfl, rfl, rfl, hts⟩
    · refine ⟨_, pollTick_locked c storage ts lockoutUntil now hc hts hne hparse hrun,
        ?_, hc, rfl, hts⟩
      simp [guardState, hc]

theorem lockout_expiry_check_witness :
    ((∃ r, mountEffect initialState sampleLockedStorage 1700259200000 = some r ∧
        guardState r.1 = .NORMAL ∧ r.1.isLockedOut = false ∧
        r.2.getItem LOCKOUT_TIMESTAMP_KEY = none ∧ r.1.failedAttempts = 0 ∧
        r.1.showMasterPasswords = false) ∧
      (∃ r, pollTick sampleLockedState sampleLockedStorage 1700259200000 = some r ∧
        guardState r.1 = .NORMAL ∧ r.1.isLockedOut = false ∧
        r.2.getItem LOCKOUT_TIMESTAMP_KEY = none ∧ r.1.failedAttempts = 0 ∧
        r.1.showMasterPasswords = false)) ∧
    ((∃ r, mountEffect initialState sampleLockedStorage 1700259199000 = some r ∧
        guardState r.1 = .LOCKED_OUT ∧ r.1.isLockedOut = true ∧
        r.1.lockoutTimeRemaining = 1700259200000 - 1700259199000 ∧
        r.2.getItem LOCKOUT_TIMESTAMP_KEY = some "1700259200000") ∧
      (∃ r, pollTick sampleLockedState sampleLockedStorage 1700259199000 = some r ∧
        guardState r.1 = .LOCKED_OUT ∧ r.1.isLockedOut = true ∧
        r.1.lockoutTimeRemaining = 1700259200000 - 1700259199000 ∧
        r.2.getItem LOCKOUT_TIMESTAMP_KEY = some "1700259200000")) :=
  ⟨(lockout_expiry_check sampleLockedState sampleLockedStorage "1700259200000" 1700259200000
      1700259200000 rfl rfl (by decide) (by decide) ⟨10, by decide⟩ ⟨3, by decide⟩).1
      (le_refl _),
    (lockout_expiry_check sampleLockedState sampleLockedStorage "1700259200000" 1700259200000
      1700259199000 rfl rfl (by decide) (by decide) ⟨10, by decide⟩ ⟨3, by decide⟩).2
      (by decide)⟩

/-- C13, the code at the failing input. The lockout of the sample store ends at
1700259200000 ms. The expiry check at that time, on mount and on the poll, puts
the guard back in NORMAL but leaves `masterAttempts` at 3, in the state and in
the store; after ten more rejected logins the guard is in RECOVERY_MODE and the
first wrong master-password submission locks the page again. -/
theorem expiry_keeps_masterAttempts :
    (∃ r, mountEffect initialState sampleLockedStorage 1700259200000 = some r ∧
      guardState r.1 = .NORMAL ∧ r.1.failedAttempts = 0 ∧ r.1.masterAttempts = 3 ∧
      r.2.getItem MASTER_ATTEMPTS_KEY = some "3") ∧
    (∃ r, pollTick sampleLockedState sampleLockedStorage 1700259200000 = some r ∧
      guardState r.1 = .NORMAL ∧ r.1.failedAttempts = 0 ∧ r.1.masterAttempts = 3 ∧
      r.2.getItem MASTER_ATTEMPTS_KEY = some "3" ∧
      guardState (submitAll r (List.replicate 10 sampleRejected)).1 = .RECOVERY_MODE ∧
      (submit sampleRejected.2 sampleRejected.1
        (submitAll r (List.replicate 10 sampleRejected))).1.isLockedOut = true ∧
      (submit sampleRejected.2 sampleRejected.1
        (submitAll r (List.replicate 10 sampleRejected))).1.masterAttempts = 4) := by
  refine ⟨⟨_, rfl, ?_, ?_, ?_, ?_⟩, ⟨_, rfl, ?_, ?_, ?_, ?_, ?_, ?_, ?_⟩⟩ <;> decide

/-- C18, the code at the failing input. A normal login that fails without any
response (a network failure) on a fresh page with the guard on raises
`failedAttempts` to 1 and persists it, whereas the same failure of a master
login leaves both counters and the store as they were. -/
theorem network_failure_counts_as_failed_login :
    sampleNetworkFailure.loginResponse = .failure none none ∧
    (handleSubmit { initialState with formData := sampleRejected.1 } []
      sampleNetworkFailure).calls = [.login "admin@novatech.az" "guess"] ∧
    (handleSubmit { initialState with formData := sampleRejected.1 } []
      sampleNetworkFailure).state.failedAttempts = 1 ∧
    (handleSubmit { initialState with formData := sampleRejected.1 } []
      sampleNetworkFailure).storage.getItem FAILED_ATTEMPTS_KEY = some "1" ∧
    (handleSubmit { sampleRecoveryState.1 with formData := sampleAccepted.1 }
      sampleRecoveryState.2 sampleNetworkFailure).state.masterAttempts = 2 ∧
    (handleSubmit { sampleRecoveryState.1 with formData := sampleAccepted.1 }
      sampleRecoveryState.2 sampleNetworkFailure).state.failedAttempts = 10 ∧
    (handleSubmit { sampleRecoveryState.1 with formData := sampleAccepted.1 }
      sampleRecoveryState.2 sampleNetworkFailure).state.error = "Login failed" ∧
    (handleSubmit { sampleRecoveryState.1 with formData := sampleAccepted.1 }
      sampleRecoveryState.2 sampleNetworkFailure).storage = sampleRecoveryState.2 := by
  refine ⟨rfl, ?_, ?_, ?_, ?_, ?_, ?_, ?_⟩ <;> decide


/-! ### The remaining-attempts message -/

/-- A rejected normal login with the guard on: the counter, the store and the
message. -/
theorem handleSubmit_login_rejected (c : LoginState) (storage : Storage) (env : Env)
    (status : Option Nat) (detail : Option String)
    (hsec : c.securityEnabled = true) (hlock : c.isLockedOut = false)
    (hnormal : c.showMasterPasswords = false ∨ c.formData.masterPassword2 = "" ∨
      c.formData.masterPassword3 = "")
    (hrej : env.loginResponse = .failure status detail) :
    (handleSubmit c storage env).state.failedAttempts = c.failedAttempts + 1 ∧
    (handleSubmit c storage env).storage.getItem FAILED_ATTEMPTS_KEY =
      some (toString (c.failedAttempts + 1)) ∧
    (handleSubmit c storage env).state.error =
      (if 0 < (10 : Int) - c.failedAttempts - 1 ∧ (10 : Int) - c.failedAttempts - 1 ≤ 5 then
        "Invalid credentials. " ++ toString ((10 : Int) - c.failedAttempts - 1) ++
          " attempts remaining before recovery mode."
      else if (10 : Int) - c.failedAttempts - 1 ≤ 0 then
        "Recovery mode activated. Use master passwords to access."
      else orElse detail "Invalid credentials") := by
  by_cases h1 : 0 < (10 : Int) - c.failedAttempts - 1 ∧ (10 : Int) - c.failedAttempts - 1 ≤ 5
  · rw [if_pos h1]
    rcases hnormal with h | h | h <;>
      simp [handleSubmit, hsec, hlock, h, hrej, Page.setError, Page.setLoading, Page.post,
        incrementFailedAttempts, FAILED_ATTEMPTS_THRESHOLD, h1] <;>
      split_ifs <;> first | (exfalso; omega) | simp [getItem_setItem]
  · rw [if_neg h1]
    by_cases h2 : (10 : Int) - c.failedAttempts - 1 ≤ 0
    · rw [if_pos h2]
      rcases hnormal with h | h | h <;>
        simp [handleSubmit, hsec, hlock, h, hrej, Page.setError, Page.setLoading, Page.post,
          incrementFailedAttempts, FAILED_ATTEMPTS_THRESHOLD, h1, h2] <;>
        split_ifs <;> first | (exfalso; omega) | simp [getItem_setItem]
    · rw [if_neg h2]
      rcases hnormal with h | h | h <;>
        simp [handleSubmit, hsec, hlock, h, hrej, Page.setError, Page.setLoading, Page.post,
          incrementFailedAttempts, FAILED_ATTEMPTS_THRESHOLD, h1, h2] <;>
        split_ifs <;> first | (exfalso; omega) | simp [getItem_setItem]


/-- C21, counterexample. A rejected normal login submitted with
`failedAttempts = 5` shows the number 4 and persists `failedAttempts` as 6; the
number shown is 10 minus the persisted value, not off by one from it. -/
theorem remaining_message_not_off_by_one :
    (handleSubmit sampleFiveFailures.1 sampleFiveFailures.2 sampleRejected.2).state.error =
      "Invalid credentials. 4 attempts remaining before recovery mode." ∧
    (handleSubmit sampleFiveFailures.1 sampleFiveFailures.2 sampleRejected.2).storage.getItem FAILED_ATTEMPTS_KEY =
      some "6" ∧
    (10 : Int) - 5 - 1 = 4 ∧ (10 : Int) - 6 = 4 ∧
    ¬ ((4 : Int) = (10 - 6) + 1 ∨ (4 : Int) = (10 - 6) - 1) := by
  refine ⟨by decide, by decide, by decide, by decide, by decide⟩

/-- C21, amended. After a rejected normal login submitted with
`failedAttempts = n`, the value persisted is `n + 1` and the remaining-attempts
number used for the message is `10 - n - 1`, computed from the value captured
before the increment; it is equal to 10 minus the `failedAttempts` value
persisted by that same submission. The number is shown when it is between 1 and
5, and the recovery message is shown when it is 0 or less. -/
theorem remaining_attempts_message (c : LoginState) (storage : Storage) (env : Env)
    (n : Nat) (hn : c.failedAttempts = n)
    (hsec : c.securityEnabled = true) (hlock : c.isLockedOut = false)
    (hnormal : c.showMasterPasswords = false ∨ c.formData.masterPassword2 = "" ∨
      c.formData.masterPassword3 = "")
    (hrej : LoginRejected env) :
    (handleSubmit c storage env).state.failedAttempts = n + 1 ∧
    (handleSubmit c storage env).storage.getItem FAILED_ATTEMPTS_KEY = some (toString (n + 1)) ∧
    (0 < (10 : Int) - n - 1 → (10 : Int) - n - 1 ≤ 5 →
      (handleSubmit c storage env).state.error =
        "Invalid credentials. " ++ toString ((10 : Int) - n - 1) ++
          " attempts remaining before recovery mode.") ∧
    ((10 : Int) - n - 1 ≤ 0 →
      (handleSubmit c storage env).state.error =
        "Recovery mode activated. Use master passwords to access.") ∧
    (10 : Int) - n - 1 = 10 - ((n + 1 : Nat) : Int) := by
  obtain ⟨status, detail, hrej⟩ := hrej
  obtain ⟨h1, h2, h3⟩ := handleSubmit_login_rejected c storage env status detail hsec hlock
    hnormal hrej
  rw [hn] at h1 h2 h3
  refine ⟨h1, h2, ?_, ?_, by omega⟩
  · intro ha hb
    rw [h3, if_pos ⟨ha, hb⟩]
  · intro ha
    rw [h3, if_neg (by omega), if_pos ha]

theorem remaining_attempts_message_witness :
    (handleSubmit sampleFiveFailures.1 sampleFiveFailures.2 sampleRejected.2).state.failedAttempts = 5 + 1 ∧
    (handleSubmit sampleFiveFailures.1 sampleFiveFailures.2 sampleRejected.2).storage.getItem FAILED_ATTEMPTS_KEY =
      some (toString (5 + 1)) ∧
    (0 < (10 : Int) - (5 : Nat) - 1 → (10 : Int) - (5 : Nat) - 1 ≤ 5 →
      (handleSubmit sampleFiveFailures.1 sampleFiveFailures.2 sampleRejected.2).state.error =
        "Invalid credentials. " ++ toString ((10 : Int) - (5 : Nat) - 1) ++
          " attempts remaining before recovery mode.") ∧
    ((10 : Int) - (5 : Nat) - 1 ≤ 0 →
      (handleSubmit sampleFiveFailures.1 sampleFiveFailures.2 sampleRejected.2).state.error =
        "Recovery mode activated. Use master passwords to access.") ∧
    (10 : Int) - (5 : Nat) - 1 = 10 - ((5 + 1 : Nat) : Int) :=
  remaining_attempts_message sampleFiveFailures.1 sampleFiveFailures.2 sampleRejected.2 5 rfl rfl rfl
    (Or.inl rfl) ⟨some 401, none, rfl⟩

/-! ### Wrong master passwords: the server's 401 and the client-side check -/

/-- C22. In RECOVERY_MODE, master passwords that hold the expected values and
are turned down by the server with 401, and master passwords that fail the
client-side comparison, have the same effect from every prior state: the
resulting states are equal but for the form itself and the stores are equal;
`masterAttempts` goes up by exactly 1 and is persisted, `failedAttempts` is
unchanged, the page locks exactly when the new `masterAttempts` is at least 3,
and the same error message is shown. -/
theorem wrong_master_same_effect (c : LoginState) (storage : Storage) (env : Env)
    (fdServer fdClient : FormData) (detail : Option String)
    (hsec : c.securityEnabled = true) (hrec : guardState c = .RECOVERY_MODE)
    (hs2 : fdServer.masterPassword2 = MASTER_PASSWORD_2)
    (hs3 : fdServer.masterPassword3 = MASTER_PASSWORD_3)
    (hresp : env.masterLoginResponse = .failure (some 401) detail)
    (hc2 : fdClient.masterPassword2 ≠ "") (hc3 : fdClient.masterPassword3 ≠ "")
    (hcw : ¬ (fdClient.masterPassword2 = MASTER_PASSWORD_2 ∧
      fdClient.masterPassword3 = MASTER_PASSWORD_3)) :
    { (handleSubmit { c with formData := fdServer } storage env).state with
        formData := fdClient } =
      (handleSubmit { c with formData := fdClient } storage env).state ∧
    (handleSubmit { c with formData := fdServer } storage env).storage =
      (handleSubmit { c with formData := fdClient } storage env).storage ∧
    (handleSubmit { c with formData := fdServer } storage env).state.error =
      (handleSubmit { c with formData := fdClient } storage env).state.error ∧
    (handleSubmit { c with formData := fdServer } storage env).state.masterAttempts =
      c.masterAttempts + 1 ∧
    (handleSubmit { c with formData := fdServer } storage env).storage.getItem
      MASTER_ATTEMPTS_KEY = some (toString (c.masterAttempts + 1)) ∧
    (handleSubmit { c with formData := fdServer } storage env).state.failedAttempts =
      c.failedAttempts ∧
    ((handleSubmit { c with formData := fdServer } storage env).state.isLockedOut = true ↔
      3 ≤ c.masterAttempts + 1) := by
  obtain ⟨hlock, hshow⟩ := guardState_recovery c hrec
  have m2 : MASTER_PASSWORD_2 ≠ "" := by decide
  have m3 : MASTER_PASSWORD_3 ≠ "" := by decide
  by_cases h3 : 3 ≤ c.masterAttempts + 1
  · have hi : ¬ ((c.masterAttempts : Int) + 1 < 3) := by omega
    simp [handleSubmit, hsec, hlock, hshow, hs2, hs3, hresp, m2, m3, hc2, hc3, hcw,
      incrementMasterAttempts, activateLockout, MASTER_ATTEMPTS_THRESHOLD, h3, hi,
      Page.setError, Page.setLoading, Page.post]
    rw [getItem_setItem_of_ne _ _ _ _ (by decide), getItem_setItem]
  · have hi : (c.masterAttempts : Int) + 1 < 3 := by omega
    simp [handleSubmit, hsec, hlock, hshow, hs2, hs3, hresp, m2, m3, hc2, hc3, hcw,
      incrementMasterAttempts, activateLockout, MASTER_ATTEMPTS_THRESHOLD, h3, hi,
      Page.setError, Page.setLoading, Page.post, getItem_setItem]

theorem wrong_master_same_effect_witness :
    { (handleSubmit { sampleRecoveryState.1 with formData := sampleAccepted.1 }
        sampleRecoveryState.2 sampleRejected.2).state with formData := sampleRejected.1 } =
      (handleSubmit { sampleRecoveryState.1 with formData := sampleRejected.1 }
        sampleRecoveryState.2 sampleRejected.2).state ∧
    (handleSubmit { sampleRecoveryState.1 with formData := sampleAccepted.1 }
      sampleRecoveryState.2 sampleRejected.2).storage =
      (handleSubmit { sampleRecoveryState.1 with formData := sampleRejected.1 }
        sampleRecoveryState.2 sampleRejected.2).storage ∧
    (handleSubmit { sampleRecoveryState.1 with formData := sampleAccepted.1 }
      sampleRecoveryState.2 sampleRejected.2).state.error =
      (handleSubmit { sampleRecoveryState.1 with formData := sampleRejected.1 }
        sampleRecoveryState.2 sampleRejected.2).state.error ∧
    (handleSubmit { sampleRecoveryState.1 with formData := sampleAccepted.1 }
      sampleRecoveryState.2 sampleRejected.2).state.masterAttempts =
      sampleRecoveryState.1.masterAttempts + 1 ∧
    (handleSubmit { sampleRecoveryState.1 with formData := sampleAccepted.1 }
      sampleRecoveryState.2 sampleRejected.2).storage.getItem MASTER_ATTEMPTS_KEY =
      some (toString (sampleRecoveryState.1.masterAttempts + 1)) ∧
    (handleSubmit { sampleRecoveryState.1 with formData := sampleAccepted.1 }
      sampleRecoveryState.2 sampleRejected.2).state.failedAttempts =
      sampleRecoveryState.1.failedAttempts ∧
    ((handleSubmit { sampleRecoveryState.1 with formData := sampleAccepted.1 }
      sampleRecoveryState.2 sampleRejected.2).state.isLockedOut = true ↔
      3 ≤ sampleRecoveryState.1.masterAttempts + 1) :=
  wrong_master_same_effect sampleRecoveryState.1 sampleRecoveryState.2 sampleRejected.2
    sampleAccepted.1 sampleRejected.1 none rfl rfl rfl rfl rfl (by decide) (by decide)
    (by decide)


/-! ### What a submission does to `failedAttempts` -/

/-- Every submission leaves `failedAttempts` and `showMasterPasswords` alone, or
resets them, or, for a rejected normal login with the guard on, counts one more
failure and shows the master-password fields once ten are reached. -/
theorem handleSubmit_failedAttempts_cases (c : LoginState) (storage : Storage) (env : Env) :
    ((handleSubmit c storage env).state.failedAttempts = c.failedAttempts ∧
      (handleSubmit c storage env).state.showMasterPasswords = c.showMasterPasswords) ∨
    ((handleSubmit c storage env).state.failedAttempts = 0 ∧
      (handleSubmit c storage env).state.showMasterPasswords = false) ∨
    ((handleSubmit c storage env).state.failedAttempts = c.failedAttempts + 1 ∧
      (handleSubmit c storage env).state.showMasterPasswords =
        (c.showMasterPasswords || decide (10 ≤ c.failedAttempts + 1)) ∧
      c.securityEnabled = true ∧ c.isLockedOut = false ∧
      ¬ (c.showMasterPasswords = true ∧ c.formData.masterPassword2 ≠ "" ∧
        c.formData.masterPassword3 ≠ "") ∧
      LoginRejected env) := by
  have m2 : MASTER_PASSWORD_2 ≠ "" := by decide
  have m3 : MASTER_PASSWORD_3 ≠ "" := by decide
  cases hsec : c.securityEnabled with
  | false =>
    left
    cases hresp : env.loginResponse <;>
      simp [handleSubmit, hsec, hresp, Page.setError, Page.setLoading, Page.post,
        Page.storeSession, Page.navigateToDashboard]
  | true =>
    cases hlock : c.isLockedOut with
    | true =>
      left
      simp [handleSubmit, hsec, hlock, Page.setError]
    | false =>
      by_cases hm : c.showMasterPasswords = true ∧ c.formData.masterPassword2 ≠ "" ∧
          c.formData.masterPassword3 ≠ ""
      · obtain ⟨h1, h2, h3⟩ := hm
        by_cases hc : c.formData.masterPassword2 = MASTER_PASSWORD_2 ∧
            c.formData.masterPassword3 = MASTER_PASSWORD_3
        · cases hresp : env.masterLoginResponse with
          | ok token user =>
            right; left
            simp [handleSubmit, hsec, hlock, h1, hc, m2, m3, hresp, Page.setError,
              Page.setLoading, Page.post, Page.storeSession, Page.navigateToDashboard,
              resetFailedAttempts]
          | failure status detail =>
            left
            simp [handleSubmit, hsec, hlock, h1, hc, m2, m3, hresp, Page.setError,
              Page.setLoading, Page.post, incrementMasterAttempts, activateLockout]
            split_ifs <;> simp
        · left
          simp [handleSubmit, hsec, hlock, h1, h2, h3, hc, Page.setError,
            Page.setLoading, Page.post, incrementMasterAttempts, activateLockout]
          split_ifs <;> simp
      · have hcases : c.showMasterPasswords = false ∨ c.formData.masterPassword2 = "" ∨
            c.formData.masterPassword3 = "" := by
          by_cases h1 : c.showMasterPasswords = true
          · by_cases h2 : c.formData.masterPassword2 = ""
            · exact Or.inr (Or.inl h2)
            · by_cases h3 : c.formData.masterPassword3 = ""
              · exact Or.inr (Or.inr h3)
              · exact absurd ⟨h1, h2, h3⟩ hm
          · exact Or.inl (by simpa using h1)
        cases hresp : env.loginResponse with
        | ok token user =>
          right; left
          obtain ⟨hs, _⟩ := handleSubmit_login_accepted c storage env token user hsec hlock
            hcases hresp
          rw [hs]
          exact ⟨rfl, rfl⟩
        | failure status detail =>
          right; right
          refine ⟨?_, ?_, rfl, rfl, hm, ⟨status, detail, hresp⟩⟩
          · exact (handleSubmit_login_rejected c storage env status detail hsec hlock hcases
              hresp).1
          · by_cases h10 : 10 ≤ c.failedAttempts + 1
            · rcases hcases with h | h | h <;>
                simp [handleSubmit, hsec, hlock, h, hresp, Page.setError, Page.setLoading,
                  Page.post, incrementFailedAttempts, FAILED_ATTEMPTS_THRESHOLD, h10] <;>
                split_ifs <;> simp
            · rcases hcases with h | h | h <;>
                simp [handleSubmit, hsec, hlock, h, hresp, Page.setError, Page.setLoading,
                  Page.post, incrementFailedAttempts, FAILED_ATTEMPTS_THRESHOLD, h10] <;>
                split_ifs <;> simp


/-! ### The security toggle -/

/-- C23. After the settings request, `securityEnabled` is false exactly when the
response carries `admin_security_enabled` equal to the boolean `false`: it is
true when the field is `true`, missing, `null` or of another type, and when the
request fails. The other state fields are not touched. -/
theorem fetchSecuritySetting_spec (c : LoginState) (answer : SettingsAnswer) :
    ((fetchSecuritySetting answer c).securityEnabled = false ↔
      answer = .ok (.bool false)) ∧
    (fetchSecuritySetting (.ok (.bool true)) c).securityEnabled = true ∧
    (fetchSecuritySetting (.ok .missing) c).securityEnabled = true ∧
    (fetchSecuritySetting (.ok .null) c).securityEnabled = true ∧
    (fetchSecuritySetting (.ok .other) c).securityEnabled = true ∧
    (fetchSecuritySetting .failed c).securityEnabled = true ∧
    (fetchSecuritySetting (.ok (.bool false)) c).securityEnabled = false ∧
    fetchSecuritySetting answer c =
      { c with securityEnabled := (fetchSecuritySetting answer c).securityEnabled } := by
  refine ⟨?_, rfl, rfl, rfl, rfl, rfl, rfl, ?_⟩
  · cases answer with
    | failed => simp [fetchSecuritySetting]
    | ok v =>
      cases v with
      | bool b => cases b <;> simp [fetchSecuritySetting, SettingValue.strictNeFalse]
      | missing => simp [fetchSecuritySetting, SettingValue.strictNeFalse]
      | null => simp [fetchSecuritySetting, SettingValue.strictNeFalse]
      | other => simp [fetchSecuritySetting, SettingValue.strictNeFalse]
  · cases answer <;> rfl

/-! ### Which submissions count as failed logins -/

/-- C24. With the guard on and in RECOVERY_MODE, a failed submission with both
master-password fields filled leaves `failedAttempts` unchanged, in the state
and in the store, whether the fields fail the client-side comparison or the
master login answers 401, 404 or any other error; and a submission that raises
`failedAttempts` is a rejected normal login that does not use the master
passwords. -/
theorem master_failure_keeps_failedAttempts (c : LoginState) (storage : Storage) (env : Env)
    (hsec : c.securityEnabled = true) (hrec : guardState c = .RECOVERY_MODE)
    (h2 : c.formData.masterPassword2 ≠ "") (h3 : c.formData.masterPassword3 ≠ "")
    (hfail : ¬ (c.formData.masterPassword2 = MASTER_PASSWORD_2 ∧
        c.formData.masterPassword3 = MASTER_PASSWORD_3) ∨
      ∃ status detail, env.masterLoginResponse = .failure status detail) :
    (handleSubmit c storage env).state.failedAttempts = c.failedAttempts ∧
    (handleSubmit c storage env).storage.getItem FAILED_ATTEMPTS_KEY =
      storage.getItem FAILED_ATTEMPTS_KEY ∧
    ∀ (c2 : LoginState) (storage2 : Storage) (env2 : Env),
      c2.failedAttempts < (handleSubmit c2 storage2 env2).state.failedAttempts →
      c2.securityEnabled = true ∧ c2.isLockedOut = false ∧
      ¬ (c2.showMasterPasswords = true ∧ c2.formData.masterPassword2 ≠ "" ∧
        c2.formData.masterPassword3 ≠ "") ∧
      LoginRejected env2 ∧
      (handleSubmit c2 storage2 env2).state.failedAttempts = c2.failedAttempts + 1 := by
  obtain ⟨hlock, hshow⟩ := guardState_recovery c hrec
  have m2 : MASTER_PASSWORD_2 ≠ "" := by decide
  have m3 : MASTER_PASSWORD_3 ≠ "" := by decide
  have keep1 : ∀ v : String, (storage.setItem MASTER_ATTEMPTS_KEY v).getItem FAILED_ATTEMPTS_KEY
      = storage.getItem FAILED_ATTEMPTS_KEY :=
    fun v => getItem_setItem_of_ne _ _ _ _ (by decide)
  have keep2 : ∀ v w : String,
      ((storage.setItem MASTER_ATTEMPTS_KEY v).setItem LOCKOUT_TIMESTAMP_KEY w).getItem
        FAILED_ATTEMPTS_KEY = storage.getItem FAILED_ATTEMPTS_KEY := by
    intro v w
    rw [getItem_setItem_of_ne _ _ _ _ (by decide), keep1]
  have part1 : (handleSubmit c storage env).state.failedAttempts = c.failedAttempts ∧
      (handleSubmit c storage env).storage.getItem FAILED_ATTEMPTS_KEY =
        storage.getItem FAILED_ATTEMPTS_KEY := by
    by_cases hc : c.formData.masterPassword2 = MASTER_PASSWORD_2 ∧
        c.formData.masterPassword3 = MASTER_PASSWORD_3
    · rcases hfail with hfail | ⟨status, detail, hresp⟩
      · exact absurd hc hfail
      · simp [handleSubmit, hsec, hlock, hshow, hc, m2, m3, hresp, Page.setError,
          Page.setLoading, Page.post, incrementMasterAttempts, activateLockout]
        split_ifs <;> simp [keep1, keep2]
    · simp [handleSubmit, hsec, hlock, hshow, h2, h3, hc, Page.setError,
        Page.setLoading, Page.post, incrementMasterAttempts, activateLockout]
      split_ifs <;> simp [keep1, keep2]
  refine ⟨part1.1, part1.2, ?_⟩
  intro c2 storage2 env2 hlt
  rcases handleSubmit_failedAttempts_cases c2 storage2 env2 with h | h | h
  · rw [h.1] at hlt; exact absurd hlt (Nat.lt_irrefl _)
  · rw [h.1] at hlt; exact absurd hlt (Nat.not_lt_zero _)
  · exact ⟨h.2.2.1, h.2.2.2.1, h.2.2.2.2.1, h.2.2.2.2.2, h.1⟩

theorem master_failure_keeps_failedAttempts_witness :
    (handleSubmit { sampleRecoveryState.1 with formData := sampleAccepted.1 }
      sampleRecoveryState.2 sampleNotFound).state.failedAttempts =
      ({ sampleRecoveryState.1 with formData := sampleAccepted.1 } : LoginState).failedAttempts ∧
    (handleSubmit { sampleRecoveryState.1 with formData := sampleAccepted.1 }
      sampleRecoveryState.2 sampleNotFound).storage.getItem FAILED_ATTEMPTS_KEY =
      sampleRecoveryState.2.getItem FAILED_ATTEMPTS_KEY ∧
    ∀ (c2 : LoginState) (storage2 : Storage) (env2 : Env),
      c2.failedAttempts < (handleSubmit c2 storage2 env2).state.failedAttempts →
      c2.securityEnabled = true ∧ c2.isLockedOut = false ∧
      ¬ (c2.showMasterPasswords = true ∧ c2.formData.masterPassword2 ≠ "" ∧
        c2.formData.masterPassword3 ≠ "") ∧
      LoginRejected env2 ∧
      (handleSubmit c2 storage2 env2).state.failedAttempts = c2.failedAttempts + 1 :=
  master_failure_keeps_failedAttempts { sampleRecoveryState.1 with formData := sampleAccepted.1 }
    sampleRecoveryState.2 sampleNotFound rfl rfl (by decide) (by decide)
    (Or.inr ⟨some 404, some "User not found", rfl⟩)


/-! ### The master-password fields are shown exactly from ten failures on -/

theorem mountEffect_shows_iff (c : LoginState) (storage : Storage) (now : Nat)
    (r : LoginState × Storage) (h : mountEffect c storage now = some r) :
    (r.1.showMasterPasswords = true ↔ 10 ≤ r.1.failedAttempts) := by
  unfold mountEffect at h
  simp only at h
  split at h
  · cases h
  · split at h
    · cases h
    · injection h with h
      subst h
      simp [FAILED_ATTEMPTS_THRESHOLD]

theorem pollTick_shows_iff (c : LoginState) (storage : Storage) (now : Nat)
    (r : LoginState × Storage) (h : pollTick c storage now = some r)
    (hinv : c.showMasterPasswords = true ↔ 10 ≤ c.failedAttempts) :
    (r.1.showMasterPasswords = true ↔ 10 ≤ r.1.failedAttempts) := by
  unfold pollTick at h
  split at h
  · injection h with h; subst h; exact hinv
  · split at h
    · injection h with h; subst h; exact hinv
    · split at h
      · injection h with h; subst h; exact hinv
      · split at h
        · cases h
        · simp only at h
          split at h
          · injection h with h; subst h; simp
          · injection h with h; subst h; exact hinv

theorem handleSubmit_shows_iff (c : LoginState) (storage : Storage) (env : Env)
    (hinv : c.showMasterPasswords = true ↔ 10 ≤ c.failedAttempts) :
    ((handleSubmit c storage env).state.showMasterPasswords = true ↔
      10 ≤ (handleSubmit c storage env).state.failedAttempts) := by
  rcases handleSubmit_failedAttempts_cases c storage env with h | h | h
  · rw [h.1, h.2]; exact hinv
  · rw [h.1, h.2]; simp
  · rw [h.1, h.2.1]
    simp only [Bool.or_eq_true, decide_eq_true_eq]
    constructor
    · rintro (h1 | h1)
      · have := hinv.1 h1; omega
      · exact h1
    · intro h1; exact Or.inr h1

/-- C27. In every state of the login guard reachable after mount through
submissions, poll ticks, the settings answer and outside changes of the store,
`showMasterPasswords` is true if and only if `failedAttempts ≥ 10`; and
`incrementFailedAttempts` and `resetFailedAttempts` each keep this equivalence. -/
theorem showMasterPasswords_iff (x : LoginState × Storage) (hx : Reachable x) :
    (x.1.showMasterPasswords = true ↔ 10 ≤ x.1.failedAttempts) ∧
    (∀ (c : LoginState) (p : Page),
      (c.showMasterPasswords = true ↔ 10 ≤ c.failedAttempts) →
      p.state.showMasterPasswords = c.showMasterPasswords →
      ((incrementFailedAttempts c p).state.showMasterPasswords = true ↔
        10 ≤ (incrementFailedAttempts c p).state.failedAttempts)) ∧
    (∀ p : Page, ((resetFailedAttempts p).state.showMasterPasswords = true ↔
      10 ≤ (resetFailedAttempts p).state.failedAttempts)) := by
  refine ⟨?_, ?_, ?_⟩
  · induction hx with
    | mount storage now r h => exact mountEffect_shows_iff _ _ _ _ h
    | submit x env fd _ ih =>
      exact handleSubmit_shows_iff { x.1 with formData := fd } x.2 env ih
    | poll x now r _ h ih => exact pollTick_shows_iff _ _ _ _ h ih
    | settings x answer _ ih =>
      cases answer <;> exact ih
    | storageChanged x storage _ ih => exact ih
  · intro c p hinv hp
    by_cases h10 : 10 ≤ c.failedAttempts + 1
    · simp [incrementFailedAttempts, FAILED_ATTEMPTS_THRESHOLD, h10]
    · have hf : c.showMasterPasswords = false := by
        cases hs : c.showMasterPasswords with
        | false => rfl
        | true => have := hinv.1 hs; omega
      simp [incrementFailedAttempts, FAILED_ATTEMPTS_THRESHOLD, h10, hp, hf]
  · intro p
    simp [resetFailedAttempts]

theorem showMasterPasswords_iff_witness :
    ((submit sampleRejected.2 sampleRejected.1 (initialState, [])).1.showMasterPasswords = true ↔
      10 ≤ (submit sampleRejected.2 sampleRejected.1 (initialState, [])).1.failedAttempts) ∧
    (∀ (c : LoginState) (p : Page),
      (c.showMasterPasswords = true ↔ 10 ≤ c.failedAttempts) →
      p.state.showMasterPasswords = c.showMasterPasswords →
      ((incrementFailedAttempts c p).state.showMasterPasswords = true ↔
        10 ≤ (incrementFailedAttempts c p).state.failedAttempts)) ∧
    (∀ p : Page, ((resetFailedAttempts p).state.showMasterPasswords = true ↔
      10 ≤ (resetFailedAttempts p).state.failedAttempts)) :=
  showMasterPasswords_iff (submit sampleRejected.2 sampleRejected.1 (initialState, []))
    (Reachable.submit (initialState, []) sampleRejected.2 sampleRejected.1
      (Reachable.mount [] 0 (initialState, []) rfl))

/-! ### The language state -/

theorem foldl_setLanguage_mem (xs : List String) (cur : String)
    (h : cur ∈ ["en", "az", "ru"]) :
    xs.foldl (fun language x => setLanguage x language) cur ∈ ["en", "az", "ru"] := by
  induction xs generalizing cur with
  | nil => exact h
  | cons x xs ih =>
    apply ih
    show setLanguage x cur ∈ ["en", "az", "ru"]
    by_cases hx : x ∈ ["en", "az", "ru"]
    · rw [setLanguage, if_pos hx]; exact hx
    · rw [setLanguage, if_neg hx]; exact h

/-- C28. `setLanguage(x)` sets the current language to `x` when `x` is one of
en, az, ru and leaves it unchanged for every other value; so a current language
in en/az/ru stays in that set after any sequence of `setLanguage` calls. -/
theorem setLanguage_spec (x cur : String) :
    (x ∈ ["en", "az", "ru"] → setLanguage x cur = x) ∧
    (x ∉ ["en", "az", "ru"] → setLanguage x cur = cur) ∧
    (cur ∈ ["en", "az", "ru"] → ∀ xs : List String,
      xs.foldl (fun language y => setLanguage y language) cur ∈ ["en", "az", "ru"]) ∧
    setLanguage "ru" "az" = "ru" ∧ setLanguage "fr" "az" = "az" := by
  refine ⟨fun h => ?_, fun h => ?_, fun h xs => foldl_setLanguage_mem xs cur h,
    by decide, by decide⟩
  · simp only [setLanguage, if_pos h]
  · simp only [setLanguage, if_neg h]


/-! ### The admin account forms -/

/-- C25. Validation errors of the two account forms are caught before any
request. In `handleAccountUpdate` a missing current password, or a new password
that differs from its confirmation, and in `handleAdmin1ResetAdmin2` an empty new
password, or one that differs from its confirmation, send no request and leave
the form fields, the rest of the state and the store (the token included)
unchanged; only an error toast is shown. -/
theorem account_validation_errors (s : AccountState) (storage : Storage)
    (response : AccountResponse) :
    ((s.accountForm.current_password = "" ∨
        (s.accountForm.new_password ≠ "" ∧
          s.accountForm.new_password ≠ s.accountForm.confirm_password)) →
      (handleAccountUpdate s storage response).requests = [] ∧
      (handleAccountUpdate s storage response).state = s ∧
      (handleAccountUpdate s storage response).storage = storage ∧
      ∃ message, (handleAccountUpdate s storage response).toasts = [.error message]) ∧
    ((s.admin2ResetPassword = "" ∨ s.admin2ResetPassword ≠ s.admin2ResetConfirm) →
      (handleAdmin1ResetAdmin2 s storage response).requests = [] ∧
      (handleAdmin1ResetAdmin2 s storage response).state = s ∧
      (handleAdmin1ResetAdmin2 s storage response).storage = storage ∧
      ∃ message, (handleAdmin1ResetAdmin2 s storage response).toasts = [.error message]) := by
  constructor
  · intro h
    by_cases h1 : s.accountForm.current_password = ""
    · simp [handleAccountUpdate, h1]
    · rcases h with h | h
      · exact absurd h h1
      · simp [handleAccountUpdate, h1, h]
  · intro h
    by_cases h1 : s.admin2ResetPassword = ""
    · simp [handleAdmin1ResetAdmin2, h1]
    · rcases h with h | h
      · exact absurd h h1
      · simp [handleAdmin1ResetAdmin2, h1, h]

/-- C26, counterexample. The new password `aaaaaaaa`, eight lower-case letters
with no uppercase letter, digit or special character, passes the client-side
check of both forms and is sent to the server. -/
theorem lowercase_password_is_sent :
    (handleAccountUpdate sampleAccountState [] (.failure none)).requests =
      [.credentials "current" none (some "aaaaaaaa")] ∧
    (handleAdmin1ResetAdmin2 sampleAccountState [] (.failure none)).requests =
      [.resetAdmin2 "aaaaaaaa"] ∧
    (∀ ch ∈ "aaaaaaaa".data, ch.isLower = true) ∧
    (∀ ch ∈ "aaaaaaaa".data, ch.isUpper = false ∧ ch.isDigit = false) := by
  refine ⟨by decide, by decide, by decide, by decide⟩

/-- C26, amended. The account forms send a new password to the server only if it
has at least 8 characters, counted as `length` counts them; no other part of the
password rule is checked client-side. A new password shorter than that is never
sent, and when the checks before it pass (the current password is given, the
confirmation is equal) it is turned down with the password-rule message alone. -/
theorem short_password_rejected (s : AccountState) (storage : Storage)
    (response : AccountResponse) :
    (∀ req ∈ (handleAccountUpdate s storage response).requests,
      ∀ pw, req.newPassword = some pw → 8 ≤ utf16Length pw) ∧
    (∀ req ∈ (handleAdmin1ResetAdmin2 s storage response).requests,
      ∀ pw, req.newPassword = some pw → 8 ≤ utf16Length pw) ∧
    (s.accountForm.new_password ≠ "" → utf16Length s.accountForm.new_password < 8 →
      (handleAccountUpdate s storage response).requests = [] ∧
      (s.accountForm.current_password ≠ "" →
        s.accountForm.new_password = s.accountForm.confirm_password →
        (handleAccountUpdate s storage response).toasts = [.error PASSWORD_RULE_MESSAGE])) ∧
    (utf16Length s.admin2ResetPassword < 8 →
      (handleAdmin1ResetAdmin2 s storage response).requests = [] ∧
      (s.admin2ResetPassword ≠ "" → s.admin2ResetPassword = s.admin2ResetConfirm →
        (handleAdmin1ResetAdmin2 s storage response).toasts =
          [.error PASSWORD_RULE_MESSAGE])) := by
  refine ⟨?_, ?_, ?_, ?_⟩
  · intro req hreq pw hpw
    by_cases h1 : s.accountForm.current_password = ""
    · simp [handleAccountUpdate, h1] at hreq
    · by_cases h2 : s.accountForm.new_password ≠ "" ∧
          s.accountForm.new_password ≠ s.accountForm.confirm_password
      · simp [handleAccountUpdate, h1, h2] at hreq
      · by_cases h3 : s.accountForm.new_password ≠ "" ∧
            utf16Length s.accountForm.new_password < 8
        · simp only [handleAccountUpdate, if_neg h1, if_neg h2, if_pos h3] at hreq
          simp at hreq
        · simp only [handleAccountUpdate, if_neg h1, if_neg h2, if_neg h3] at hreq
          have hreq' : req = .credentials s.accountForm.current_password
              (if s.accountForm.new_email ≠ "" then some s.accountForm.new_email else none)
              (if s.accountForm.new_password ≠ "" then some s.accountForm.new_password
                else none) := by
            cases response with
            | failure detail => simpa using hreq
            | ok accessToken email =>
              cases accessToken with
              | none => simpa using hreq
              | some token => by_cases ht : token = "" <;> simpa [ht] using hreq
          subst hreq'
          simp only [AccountRequest.newPassword] at hpw
          by_cases hn : s.accountForm.new_password = ""
          · simp [hn] at hpw
          · simp only [ne_eq, hn, not_false_eq_true, if_true, Option.some.injEq] at hpw
            subst hpw
            by_contra hlt
            exact h3 ⟨hn, by omega⟩
  · intro req hreq pw hpw
    by_cases h1 : s.admin2ResetPassword = ""
    · simp [handleAdmin1ResetAdmin2, h1] at hreq
    · by_cases h2 : s.admin2ResetPassword ≠ s.admin2ResetConfirm
      · simp [handleAdmin1ResetAdmin2, h1, h2] at hreq
      · by_cases h3 : utf16Length s.admin2ResetPassword < 8
        · simp only [handleAdmin1ResetAdmin2, if_neg h1, if_neg h2, if_pos h3] at hreq
          simp at hreq
        · simp only [handleAdmin1ResetAdmin2, if_neg h1, if_neg h2, if_neg h3] at hreq
          have hreq' : req = .resetAdmin2 s.admin2ResetPassword := by
            cases response <;> simpa using hreq
          subst hreq'
          simp only [AccountRequest.newPassword, Option.some.injEq] at hpw
          subst hpw
          omega
  · intro hn hlt
    constructor
    · by_cases h1 : s.accountForm.current_password = ""
      · simp [handleAccountUpdate, h1]
      · by_cases h2 : s.accountForm.new_password ≠ "" ∧
            s.accountForm.new_password ≠ s.accountForm.confirm_password
        · simp [handleAccountUpdate, h1, h2]
        · simp only [handleAccountUpdate, if_neg h1, if_neg h2, if_pos (And.intro hn hlt)]
    · intro h1 heq
      have h2 : ¬ (s.accountForm.new_password ≠ "" ∧
          s.accountForm.new_password ≠ s.accountForm.confirm_password) := fun h => h.2 heq
      simp only [handleAccountUpdate, if_neg h1, if_neg h2, if_pos (And.intro hn hlt)]
      rfl
  · intro hlt
    constructor
    · by_cases h1 : s.admin2ResetPassword = ""
      · simp [handleAdmin1ResetAdmin2, h1]
      · by_cases h2 : s.admin2ResetPassword ≠ s.admin2ResetConfirm
        · simp [handleAdmin1ResetAdmin2, h1, h2]
        · simp only [handleAdmin1ResetAdmin2, if_neg h1, if_neg h2, if_pos hlt]
    · intro h1 heq
      have h2 : ¬ (s.admin2ResetPassword ≠ s.admin2ResetConfirm) := fun h => h heq
      simp only [handleAdmin1ResetAdmin2, if_neg h1, if_neg h2, if_pos hlt]
      rfl


/-! ### The hero carousel -/

theorem nextSlide_eq (n : Nat) (i : Int) (hn : 1 ≤ n) (h0 : 0 ≤ i) (hi : i < n) :
    nextSlide n i = if i + 1 = n then 0 else i + 1 := by
  have hpos : n > 0 := hn
  rw [nextSlide, if_pos hpos, Int.tmod_eq_emod (by omega) (by omega)]
  split
  · rename_i h
    rw [h, Int.emod_self]
  · rename_i h
    exact Int.emod_eq_of_lt (by omega) (by omega)

theorem prevSlide_eq (n : Nat) (i : Int) (hn : 1 ≤ n) (h0 : 0 ≤ i) (hi : i < n) :
    prevSlide n i = if i = 0 then (n : Int) - 1 else i - 1 := by
  have hpos : n > 0 := hn
  rw [prevSlide, if_pos hpos, Int.tmod_eq_emod (by omega) (by omega)]
  split
  · rename_i h
    subst h
    exact Int.emod_eq_of_lt (by omega) (by omega)
  · rename_i h
    rw [Int.add_emod_self]
    exact Int.emod_eq_of_lt (by omega) (by omega)

/-- C29. In the hero carousel with `n ≥ 1` active slides and an index `i` with
`0 ≤ i < n`, `nextSlide` and `prevSlide` both give an index in `[0, n)`,
`nextSlide` wraps `n-1` to 0 and `prevSlide` wraps 0 to `n-1`, and they are
inverse to each other; with `n = 0` both leave every index unchanged. -/
theorem slide_navigation (n : Nat) (i : Int) (hn : 1 ≤ n) (h0 : 0 ≤ i) (hi : i < n) :
    (0 ≤ nextSlide n i ∧ nextSlide n i < n) ∧
    (0 ≤ prevSlide n i ∧ prevSlide n i < n) ∧
    nextSlide n ((n : Int) - 1) = 0 ∧
    prevSlide n 0 = (n : Int) - 1 ∧
    prevSlide n (nextSlide n i) = i ∧
    nextSlide n (prevSlide n i) = i ∧
    (∀ j : Int, nextSlide 0 j = j ∧ prevSlide 0 j = j) := by
  have hnext := nextSlide_eq n i hn h0 hi
  have hprev := prevSlide_eq n i hn h0 hi
  have rn : 0 ≤ nextSlide n i ∧ nextSlide n i < n := by
    rw [hnext]; split <;> omega
  have rp : 0 ≤ prevSlide n i ∧ prevSlide n i < n := by
    rw [hprev]; split <;> omega
  refine ⟨rn, rp, ?_, ?_, ?_, ?_, fun j => ⟨rfl, rfl⟩⟩
  · rw [nextSlide_eq n _ hn (by omega) (by omega)]
    simp
  · rw [prevSlide_eq n 0 hn (le_refl 0) (by omega)]
    simp
  · rw [prevSlide_eq n _ hn rn.1 rn.2, hnext]
    split_ifs <;> omega
  · rw [nextSlide_eq n _ hn rp.1 rp.2, hprev]
    split_ifs <;> omega

theorem slide_navigation_witness :
    (0 ≤ nextSlide 3 2 ∧ nextSlide 3 2 < (3 : Nat)) ∧
    (0 ≤ prevSlide 3 2 ∧ prevSlide 3 2 < (3 : Nat)) ∧
    nextSlide 3 (((3 : Nat) : Int) - 1) = 0 ∧
    prevSlide 3 0 = ((3 : Nat) : Int) - 1 ∧
    prevSlide 3 (nextSlide 3 2) = 2 ∧
    nextSlide 3 (prevSlide 3 2) = 2 ∧
    (∀ j : Int, nextSlide 0 j = j ∧ prevSlide 0 j = j) :=
  slide_navigation 3 2 (by decide) (by decide) (by decide)


/-! ### Reordering content blocks -/

theorem jsGet_append_cons {α : Type} (p q : List (Option α)) (x : Option α) (k : Int)
    (hk : k = (p.length : Int)) : jsGet (p ++ x :: q) k = x := by
  subst hk
  have h1 : ¬ ((p.length : Int) < 0) := by omega
  rw [jsGet, if_neg h1, Int.toNat_ofNat, List.getElem?_append_right (le_refl _)]
  simp

theorem jsSet_append_cons {α : Type} (p q : List (Option α)) (x v : Option α) (k : Int)
    (hk : k = (p.length : Int)) : jsSet (p ++ x :: q) k v = p ++ v :: q := by
  subst hk
  have h1 : ¬ ((p.length : Int) < 0) := by omega
  have h2 : p.length < (p ++ x :: q).length := by simp
  rw [jsSet, if_neg h1, Int.toNat_ofNat, if_pos h2, List.set_append_right _ _ (le_refl _)]
  simp

/-- Moving up the second of two neighbours exchanges them. -/
theorem moveBlockUp_append {α : Type} (p q : List (Option α)) (a b : Option α) :
    moveBlockUp (p ++ a :: b :: q) ((p.length : Int) + 1) = p ++ b :: a :: q := by
  have h0 : ¬ ((p.length : Int) + 1 = 0) := by omega
  have e : p ++ a :: b :: q = (p ++ [a]) ++ b :: q := by simp
  have e2 : p ++ b :: b :: q = (p ++ [b]) ++ b :: q := by simp
  have g1 : jsGet (p ++ a :: b :: q) ((p.length : Int) + 1) = b := by
    rw [e]; exact jsGet_append_cons _ _ _ _ (by simp)
  have g2 : jsGet (p ++ a :: b :: q) ((p.length : Int) + 1 - 1) = a :=
    jsGet_append_cons _ _ _ _ (by omega)
  rw [moveBlockUp, if_neg h0]
  simp only [g1, g2]
  rw [jsSet_append_cons p (b :: q) a b _ (by omega), e2,
    jsSet_append_cons (p ++ [b]) q b a _ (by simp)]
  simp

/-- Moving down the first of two neighbours exchanges them. -/
theorem moveBlockDown_append {α : Type} (p q : List (Option α)) (a b : Option α) :
    moveBlockDown (p ++ a :: b :: q) (p.length : Int) = p ++ b :: a :: q := by
  have h0 : ¬ ((p.length : Int) = ((p ++ a :: b :: q).length : Int) - 1) := by
    simp only [List.length_append, List.length_cons]
    push_cast
    omega
  have e : p ++ a :: b :: q = (p ++ [a]) ++ b :: q := by simp
  have e2 : p ++ b :: b :: q = (p ++ [b]) ++ b :: q := by simp
  have g1 : jsGet (p ++ a :: b :: q) ((p.length : Int) + 1) = b := by
    rw [e]; exact jsGet_append_cons _ _ _ _ (by simp)
  have g2 : jsGet (p ++ a :: b :: q) (p.length : Int) = a :=
    jsGet_append_cons _ _ _ _ rfl
  rw [moveBlockDown, if_neg h0]
  simp only [g1, g2]
  rw [jsSet_append_cons p (b :: q) a b _ rfl, e2,
    jsSet_append_cons (p ++ [b]) q b a _ (by simp)]
  simp

/-- A list with two neighbours at positions `i` and `i + 1`, taken apart. -/
theorem exists_neighbours {α : Type} (l : List α) (i : Nat) (hi : i + 1 < l.length) :
    ∃ pre a b post, l = pre ++ a :: b :: post ∧ pre.length = i := by
  induction l generalizing i with
  | nil => simp at hi
  | cons x xs ih =>
    cases i with
    | zero =>
      cases xs with
      | nil => simp at hi
      | cons y ys => exact ⟨[], x, y, ys, rfl, rfl⟩
    | succ j =>
      obtain ⟨pre, a, b, post, h1, h2⟩ := ih j (by simpa using hi)
      exact ⟨x :: pre, a, b, post, by rw [h1]; rfl, by simp [h2]⟩

theorem blocksArray_neighbours {α : Type} (pre post : List α) (a b : α) :
    blocksArray (pre ++ a :: b :: post) =
      blocksArray pre ++ some a :: some b :: blocksArray post := by
  simp [blocksArray]

theorem length_blocksArray {α : Type} (l : List α) : (blocksArray l).length = l.length := by
  simp [blocksArray]

/-- The exchange of two neighbours, position by position. -/
theorem getElem?_neighbours {α : Type} (pre post : List α) (a b : α) :
    (pre ++ b :: a :: post)[pre.length]? = (pre ++ a :: b :: post)[pre.length + 1]? ∧
    (pre ++ b :: a :: post)[pre.length + 1]? = (pre ++ a :: b :: post)[pre.length]? ∧
    ∀ k, k ≠ pre.length → k ≠ pre.length + 1 →
      (pre ++ b :: a :: post)[k]? = (pre ++ a :: b :: post)[k]? := by
  refine ⟨?_, ?_, ?_⟩
  · rw [List.getElem?_append_right (le_refl _), List.getElem?_append_right (by omega)]
    simp
  · rw [List.getElem?_append_right (by omega), List.getElem?_append_right (le_refl _)]
    simp
  · intro k h1 h2
    by_cases hk : k < pre.length
    · rw [List.getElem?_append_left hk, List.getElem?_append_left hk]
    · have hge : pre.length ≤ k := by omega
      rw [List.getElem?_append_right hge, List.getElem?_append_right hge]
      obtain ⟨d, hd⟩ : ∃ d, k - pre.length = d + 2 := ⟨k - pre.length - 2, by omega⟩
      rw [hd]
      rfl


/-- Moving the block at an inner position `i > 0` up. -/
theorem moveBlockUp_inner {α : Type} (l : List α) (i : Nat) (h0 : 0 < i) (hi : i < l.length) :
    ∃ r : List α,
      moveBlockUp (blocksArray l) i = blocksArray r ∧
      r[i - 1]? = l[i]? ∧ r[i]? = l[i - 1]? ∧
      (∀ k, k ≠ i - 1 → k ≠ i → r[k]? = l[k]?) ∧
      r.Perm l ∧ r.length = l.length ∧
      moveBlockDown (blocksArray r) ((i : Int) - 1) = blocksArray l := by
  obtain ⟨pre, a, b, post, hl, hpre⟩ := exists_neighbours l (i - 1) (by omega)
  have hi' : i = pre.length + 1 := by omega
  subst hl
  subst hi'
  obtain ⟨g1, g2, g3⟩ := getElem?_neighbours pre post a b
  refine ⟨pre ++ b :: a :: post, ?_, ?_, ?_, ?_, ?_, ?_, ?_⟩
  · rw [blocksArray_neighbours, blocksArray_neighbours]
    have := moveBlockUp_append (blocksArray pre) (blocksArray post) (some a) (some b)
    rw [length_blocksArray] at this
    exact_mod_cast this
  · simpa using g1
  · simpa using g2
  · intro k h1 h2
    exact g3 k (by simpa using h1) h2
  · exact (List.Perm.swap a b post).append_left pre
  · simp
  · rw [blocksArray_neighbours, blocksArray_neighbours]
    have := moveBlockDown_append (blocksArray pre) (blocksArray post) (some b) (some a)
    rw [length_blocksArray] at this
    have e : ((pre.length + 1 : Nat) : Int) - 1 = (pre.length : Int) := by omega
    rw [e]
    exact this

/-- Moving the block at a position `i` in range down. -/
theorem moveBlockDown_perm {α : Type} (l : List α) (i : Nat) (hi : i < l.length) :
    ∃ r : List α, moveBlockDown (blocksArray l) i = blocksArray r ∧ r.Perm l ∧
      r.length = l.length := by
  by_cases hlast : i + 1 = l.length
  · refine ⟨l, ?_, List.Perm.refl _, rfl⟩
    have e : (i : Int) = ((blocksArray l).length : Int) - 1 := by
      rw [length_blocksArray]; omega
    rw [moveBlockDown, if_pos e]
  · obtain ⟨pre, a, b, post, hl, hpre⟩ := exists_neighbours l i (by omega)
    subst hl
    subst hpre
    refine ⟨pre ++ b :: a :: post, ?_, (List.Perm.swap a b post).append_left pre, by simp⟩
    rw [blocksArray_neighbours, blocksArray_neighbours]
    have := moveBlockDown_append (blocksArray pre) (blocksArray post) (some a) (some b)
    rw [length_blocksArray] at this
    exact this

/-- C30. For every list of blocks and every index `i` in range:
`moveBlockUp(i)` with `i > 0` exchanges the elements at `i-1` and `i` and leaves
every other position unchanged, and `moveBlockDown(i-1)` applied after it
restores the original list; `moveBlockUp(0)` and `moveBlockDown(last index)`
leave the list unchanged; the result of either move is a permutation of the
input of the same length. `moveOutcomeUp` and `moveOutcomeDown` are the same
functions. -/
theorem moveBlock_spec {α : Type} (l : List α) (i : Nat) (hi : i < l.length) :
    (0 < i → ∃ r : List α,
      moveBlockUp (blocksArray l) i = blocksArray r ∧
      r[i - 1]? = l[i]? ∧ r[i]? = l[i - 1]? ∧
      (∀ k, k ≠ i - 1 → k ≠ i → r[k]? = l[k]?) ∧
      moveBlockDown (blocksArray r) ((i : Int) - 1) = blocksArray l) ∧
    moveBlockUp (blocksArray l) 0 = blocksArray l ∧
    moveBlockDown (blocksArray l) ((l.length : Int) - 1) = blocksArray l ∧
    (∃ r : List α, moveBlockUp (blocksArray l) i = blocksArray r ∧ r.Perm l ∧
      r.length = l.length) ∧
    (∃ r : List α, moveBlockDown (blocksArray l) i = blocksArray r ∧ r.Perm l ∧
      r.length = l.length) ∧
    moveOutcomeUp (blocksArray l) i = moveBlockUp (blocksArray l) i ∧
    moveOutcomeDown (blocksArray l) i = moveBlockDown (blocksArray l) i := by
  refine ⟨?_, rfl, ?_, ?_, moveBlockDown_perm l i hi, rfl, rfl⟩
  · intro h0
    obtain ⟨r, h1, h2, h3, h4, _, _, h7⟩ := moveBlockUp_inner l i h0 hi
    exact ⟨r, h1, h2, h3, h4, h7⟩
  · have e : ((l.length : Int) - 1) = ((blocksArray l).length : Int) - 1 := by
      rw [length_blocksArray]
    rw [moveBlockDown, if_pos e]
  · by_cases h0 : 0 < i
    · obtain ⟨r, h1, _, _, _, h5, h6, _⟩ := moveBlockUp_inner l i h0 hi
      exact ⟨r, h1, h5, h6⟩
    · have : i = 0 := by omega
      subst this
      exact ⟨l, rfl, List.Perm.refl _, rfl⟩

theorem moveBlock_spec_witness :
    (0 < 2 → ∃ r : List String,
      moveBlockUp (blocksArray ["a", "b", "c"]) (2 : Nat) = blocksArray r ∧
      r[2 - 1]? = ["a", "b", "c"][2]? ∧ r[2]? = ["a", "b", "c"][2 - 1]? ∧
      (∀ k, k ≠ 2 - 1 → k ≠ 2 → r[k]? = ["a", "b", "c"][k]?) ∧
      moveBlockDown (blocksArray r) (((2 : Nat) : Int) - 1) = blocksArray ["a", "b", "c"]) ∧
    moveBlockUp (blocksArray ["a", "b", "c"]) 0 = blocksArray ["a", "b", "c"] ∧
    moveBlockDown (blocksArray ["a", "b", "c"]) ((["a", "b", "c"].length : Int) - 1) =
      blocksArray ["a", "b", "c"] ∧
    (∃ r : List String, moveBlockUp (blocksArray ["a", "b", "c"]) (2 : Nat) = blocksArray r ∧
      r.Perm ["a", "b", "c"] ∧ r.length = ["a", "b", "c"].length) ∧
    (∃ r : List String, moveBlockDown (blocksArray ["a", "b", "c"]) (2 : Nat) = blocksArray r ∧
      r.Perm ["a", "b", "c"] ∧ r.length = ["a", "b", "c"].length) ∧
    moveOutcomeUp (blocksArray ["a", "b", "c"]) (2 : Nat) =
      moveBlockUp (blocksArray ["a", "b", "c"]) (2 : Nat) ∧
    moveOutcomeDown (blocksArray ["a", "b", "c"]) (2 : Nat) =
      moveBlockDown (blocksArray ["a", "b", "c"]) (2 : Nat) :=
  moveBlock_spec ["a", "b", "c"] 2 (by decide)

end NovaTech
